import Mathlib

/-!
Shallow embedding of the github-mcp-server repository: the Git operations
module (`github.ts`) and the MCP tool dispatch layer (`index.ts`).

Subprocess execution is abstracted by an environment `Sys` that maps a shell
command string to the outcome `execAsync` would produce for it in the
handler's working directory; each handler invocation uses a single working
directory, so keying outcomes by the command string alone is faithful.
Every spawned subprocess is recorded in a trace of `Invocation` values
(command, cwd, timeout).  Wall-clock metadata of responses (duration,
timestamp) is not modelled; the one place a duration is rendered into text
(`gitFlow`'s total-time line) renders it as `0ms`.
-/

namespace GithubMcp

/-- Decides whether `p` is a leading segment of `l`; used to model
JavaScript `String.prototype.startsWith` on the underlying character
lists. -/
def hasPre : List Char → List Char → Bool
  | [], _ => true
  | _ :: _, [] => false
  | a :: p, b :: l => if a = b then hasPre p l else false

/-- Decides whether the segment `p` occurs somewhere inside `l`; used to
model JavaScript `String.prototype.includes`. -/
def containsSeg (p : List Char) : List Char → Bool
  | [] => hasPre p []
  | c :: l => hasPre p (c :: l) || containsSeg p l

/-- JavaScript `s.includes(pat)` (for the nonempty literal patterns the
source uses). -/
def includes (s pat : String) : Bool := containsSeg pat.data s.data

/-- JavaScript `s.startsWith(p)`. -/
def strStartsWith (s p : String) : Bool := hasPre p.data s.data

/-- Whitespace characters relevant to the outputs handled here (JavaScript
`trim` strips more kinds, none of which occur in the texts involved). -/
def isJsSpace (c : Char) : Bool := c = ' ' || c = '\n' || c = '\t' || c = '\r'

/-- Strip leading and trailing whitespace from a character list. -/
def trimChars (l : List Char) : List Char :=
  ((l.dropWhile isJsSpace).reverse.dropWhile isJsSpace).reverse

/-- JavaScript `s.trim()`. -/
def strTrim (s : String) : String := ⟨trimChars s.data⟩

/-- JavaScript `s.substring(0, n)`. -/
def strTake (s : String) (n : Nat) : String := ⟨s.data.take n⟩

/-- Split a character list at every occurrence of `sep`, keeping empty
segments, as JavaScript `String.prototype.split` does. -/
def splitOnChar (sep : Char) : List Char → List (List Char)
  | [] => [[]]
  | c :: l =>
    if c = sep then [] :: splitOnChar sep l
    else
      match splitOnChar sep l with
      | [] => [[c]]
      | h :: t => (c :: h) :: t

/-- JavaScript `s.trim().split('\n').filter(line => line.trim()).length`:
the number of nonblank lines of `s`. -/
def countNonEmptyLines (s : String) : Nat :=
  ((splitOnChar '\n' (trimChars s.data)).filter (fun l => trimChars l ≠ [])).length

/-- JavaScript `s.trim().split('\n').length`. -/
def lineCount (s : String) : Nat := (splitOnChar '\n' (trimChars s.data)).length

/-- JavaScript `s.trim().split('\n').filter(x => x)`: the nonempty lines of
the trimmed string. -/
def nonEmptySegs (s : String) : List String :=
  ((splitOnChar '\n' (trimChars s.data)).filter (fun l => l ≠ [])).map (fun l => ⟨l⟩)

/-- JavaScript `Array.prototype.join`. -/
def joinWith (sep : String) : List String → String
  | [] => ""
  | [x] => x
  | x :: y :: xs => x ++ sep ++ joinWith sep (y :: xs)

/-- JavaScript `a || b` on strings, with `undefined` conflated with `""`
(both are falsy, and the source only reads such fields through `||` or
optional chaining with nonempty patterns). -/
def jsOr (a b : String) : String := if a = "" then b else a

/-- Truthiness of an optional string parameter (`undefined` and `""` are
falsy). -/
def optTruthy : Option String → Bool
  | none => false
  | some s => s ≠ ""

/-- Read an optional string parameter; handlers only do so after a
truthiness check. -/
def getStr : Option String → String
  | none => ""
  | some s => s

/-- Model of Node `path.basename`: the last nonempty `/`-separated
segment (only used inside display texts). -/
def pathBasename (p : String) : String :=
  match ((splitOnChar '/' p.data).filter (fun l => l ≠ [])).getLast? with
  | some l => ⟨l⟩
  | none => p

/-- Model of Node `path.resolve(dir, file)` as used for existence checks. -/
def pathResolve (dir file : String) : String := dir ++ "/" ++ file

/-- The escaping `gitCommit`/`gitFlow`/`gitQuickCommit` apply to commit
messages: each double quote (34), backtick (96) and dollar (36) character
is prefixed with a backslash (92). -/
def escapeCommitChar (c : Char) : List Char :=
  if c = Char.ofNat 34 ∨ c = Char.ofNat 96 ∨ c = Char.ofNat 36 then
    [Char.ofNat 92, c]
  else [c]

/-- The three sequential `replace` calls of the source collapse to one map,
since the replacements never introduce characters that a later replace
matches. -/
def escapeMessage (m : String) : String := ⟨(m.data.map escapeCommitChar).flatten⟩

/-- One spawned subprocess: the command line, the working directory it ran
in, and the timeout passed to `exec`. -/
structure Invocation where
  command : String
  cwd : String
  timeout : Nat
deriving Repr, DecidableEq

/-- Successful `execAsync` outcome. -/
structure ExecOk where
  stdout : String
  stderr : String
deriving Repr, DecidableEq

/-- Failed `execAsync` outcome: the error object's `message`, captured
output streams, and whether the failure was the timeout firing
(`error.code === 'ETIMEDOUT'`). -/
structure RawErr where
  message : String
  stdout : String
  stderr : String
  timedOut : Bool
deriving Repr, DecidableEq

/-- Outcome of a subprocess as decided by the environment. -/
inductive ExecOutcome where
  | ok (r : ExecOk)
  | err (e : RawErr)
deriving Repr, DecidableEq

/-- The ambient system: what each shell command produces in the working
directory at hand, and which filesystem paths exist (`fs.existsSync`). -/
structure Sys where
  exec : String → ExecOutcome
  fileExists : String → Bool

/-- A thrown JavaScript error as the handlers observe it: `message` plus the
`stderr`/`stdout`/`code` fields `executeGitCommand` copies onto the errors
it rethrows (absent fields are conflated with `""`/`false`). -/
structure GitError where
  message : String
  stdout : String
  stderr : String
  timedOut : Bool
deriving Repr, DecidableEq

/-- The effect monad of the embedding: state-passing over the subprocess
trace, reading the ambient `Sys`, with thrown errors as `Except`. -/
def GitM (α : Type) : Type := Sys → List Invocation → Except GitError α × List Invocation

namespace GitM

def pure {α : Type} (a : α) : GitM α := fun _ tr => (.ok a, tr)

def bind {α β : Type} (x : GitM α) (f : α → GitM β) : GitM β := fun sys tr =>
  match x sys tr with
  | (.ok a, tr') => f a sys tr'
  | (.error e, tr') => (.error e, tr')

def throw {α : Type} (e : GitError) : GitM α := fun _ tr => (.error e, tr)

/-- `try { x } catch (e) { h e }`. -/
def tryCatch {α : Type} (x : GitM α) (h : GitError → GitM α) : GitM α := fun sys tr =>
  match x sys tr with
  | (.ok a, tr') => (.ok a, tr')
  | (.error e, tr') => h e sys tr'

end GitM

instance : Monad GitM where
  pure := GitM.pure
  bind := GitM.bind

/-- Model of promisified `child_process.exec`: consult the environment and
record the spawned subprocess in the trace. -/
def execAsync (command cwd : String) (timeout : Nat) : GitM ExecOk := fun sys tr =>
  match sys.exec command with
  | .ok r => (.ok r, tr ++ [⟨command, cwd, timeout⟩])
  | .err e => (.error ⟨e.message, e.stdout, e.stderr, e.timedOut⟩, tr ++ [⟨command, cwd, timeout⟩])

/-- `fs.existsSync`. -/
def fileExistsM (p : String) : GitM Bool := fun sys tr => (.ok (sys.fileExists p), tr)

def DEFAULT_TIMEOUT : Nat := 30000
def VALIDATION_TIMEOUT : Nat := 5000
def MAX_LOG_ENTRIES : Nat := 50

/-- The error-classification chain of `executeGitCommand`: pattern-match
known substrings of the subprocess stderr (after the timeout check) and
replace the message with a friendlier one. -/
def classifiedMessage (timeout : Nat) (e : GitError) : String :=
  if e.timedOut then
    "Git command timed out after " ++ toString timeout ++
      "ms. Try with smaller scope or check network connectivity."
  else if includes e.stderr "not a git repository" then
    "Not a git repository. Run \"git init\" to initialize or navigate to a git repository."
  else if includes e.stderr "nothing to commit" then
    "Nothing to commit. All changes are already staged or there are no changes."
  else if includes e.stderr "merge conflict" then
    "Merge conflict detected. Resolve conflicts manually before proceeding."
  else if includes e.stderr "authentication failed" || includes e.stderr "Authentication failed" then
    "Git authentication failed. Please check your credentials and remote access.\nTip: Configure Git credentials with \"git config --global user.name\" and \"git config --global user.email\""
  else if includes e.stderr "remote rejected" then
    "Push rejected by remote. Pull latest changes first or check branch permissions."
  else if includes e.stderr "credential" || includes e.stderr "credentials" then
    "Git credential error. Please configure your Git credentials or check your access tokens."
  else if includes e.stderr "Permission denied" || includes e.stderr "permission denied" then
    "Permission denied. Check your SSH keys or repository access permissions."
  else if includes e.stderr "Could not resolve hostname" then
    "Network error: Could not resolve hostname. Check your internet connection."
  else e.message

/-- `executeGitCommand(command, cwd, timeout)`: reject non-`git` command
strings before spawning anything, run the subprocess, and on failure
rethrow with the classified message (keeping the raw streams on the
error object). -/
def executeGitCommand (command cwd : String) (timeout : Nat) : GitM ExecOk :=
  GitM.tryCatch
    (if strStartsWith command "git " then execAsync command cwd timeout
     else GitM.throw ⟨"Invalid command: Only git commands are allowed", "", "", false⟩)
    (fun e => GitM.throw ⟨classifiedMessage timeout e, e.stdout, e.stderr, e.timedOut⟩)

/-- `isGitRepository(dir)`: `git rev-parse --git-dir` under the validation
timeout, with any failure swallowed into `false`. -/
def isGitRepository (dir : String) : GitM Bool :=
  GitM.tryCatch
    (do let _ ← execAsync "git rev-parse --git-dir" dir VALIDATION_TIMEOUT
        pure true)
    (fun _ => pure false)

/-- An operation result as the handlers build it: the single text content
item, the error flag, and the metadata fields that are not wall-clock
times. -/
structure GitOperationResult where
  operation : String
  text : String
  isError : Bool
  workingDirectory : String
deriving Repr, DecidableEq

/-- `createResponse(operation, text, isError, workingDir, startTime)`
without the duration/timestamp metadata. -/
def createResponse (operation text : String) (isError : Bool) (workingDir : String) :
    GitOperationResult :=
  ⟨operation, text, isError, workingDir⟩

/-- Result component of running a handler from an empty trace. -/
def resultOf {α : Type} (m : GitM α) (sys : Sys) : Option α :=
  match (m sys []).1 with
  | .ok r => some r
  | .error _ => none

/-- Trace component of running a handler from an empty trace. -/
def traceOf {α : Type} (m : GitM α) (sys : Sys) : List Invocation := (m sys []).2

/-- The command lines of all subprocesses spawned by a run. -/
def traceCommands {α : Type} (m : GitM α) (sys : Sys) : List String :=
  (traceOf m sys).map Invocation.command

/-- `gitAddAll(directory)`.  The handlers below take the already resolved
working directory; the trivial `directory || process.cwd()` defaulting of
the source is applied at the dispatch layer (`resolveDir`). -/
def gitAddAll (workingDir : String) : GitM GitOperationResult :=
  GitM.tryCatch
    (do
      let repo ← isGitRepository workingDir
      if !repo then
        pure (createResponse "git-add-all"
          "Error: Not a git repository. Run \"git init\" to initialize." true workingDir)
      else do
        let statusResult ← executeGitCommand "git status --porcelain" workingDir DEFAULT_TIMEOUT
        if strTrim statusResult.stdout = "" then
          pure (createResponse "git-add-all"
            "No changes to add. Working directory is clean." false workingDir)
        else do
          let _ ← executeGitCommand "git add ." workingDir DEFAULT_TIMEOUT
          GitM.tryCatch
            (do
              let statusAfter ← executeGitCommand "git diff --cached --name-status" workingDir
                DEFAULT_TIMEOUT
              let addedFiles := countNonEmptyLines statusAfter.stdout
              let message :=
                if addedFiles > 0 then
                  "✅ Successfully added " ++ toString addedFiles ++
                    " file(s) to staging area.\n\nStaged files:\n" ++
                    jsOr statusAfter.stdout "All modified files staged."
                else "✅ All files added to staging area successfully."
              pure (createResponse "git-add-all" message false workingDir))
            (fun _ =>
              pure (createResponse "git-add-all"
                "✅ Successfully added all files to staging area." false workingDir)))
    (fun e =>
      pure (createResponse "git-add-all" ("Error: " ++ e.message) true workingDir))

/-- The file-existence loop of `gitAdd`: throw on the first file whose
resolved path does not exist. -/
def checkFilesExist (workingDir : String) : List String → GitM Unit
  | [] => pure ()
  | f :: fs => do
    let ex ← fileExistsM (pathResolve workingDir f)
    if ex then checkFilesExist workingDir fs
    else GitM.throw ⟨"File does not exist: " ++ f, "", "", false⟩

/-- `gitAdd(files, directory)`. -/
def gitAdd (files : List String) (workingDir : String) : GitM GitOperationResult :=
  GitM.tryCatch
    (do
      let repo ← isGitRepository workingDir
      if !repo then GitM.throw ⟨"Not a git repository", "", "", false⟩
      else if files = [] then GitM.throw ⟨"No files specified to add", "", "", false⟩
      else do
        checkFilesExist workingDir files
        let quotedFiles := joinWith " " (files.map (fun f => "\"" ++ f ++ "\""))
        let result ← executeGitCommand ("git add " ++ quotedFiles) workingDir DEFAULT_TIMEOUT
        pure (createResponse "git-add"
          ("✅ Successfully added files to staging area: " ++ joinWith ", " files ++ "\n" ++
            jsOr result.stdout "Files staged successfully.") false workingDir))
    (fun e => pure (createResponse "git-add" ("Error: " ++ e.message) true workingDir))

/-- `gitRemove(file, directory)`. -/
def gitRemove (file : String) (workingDir : String) : GitM GitOperationResult :=
  GitM.tryCatch
    (do
      let repo ← isGitRepository workingDir
      if !repo then GitM.throw ⟨"Not a git repository", "", "", false⟩
      else do
        let result ← executeGitCommand ("git reset HEAD \"" ++ file ++ "\"") workingDir
          DEFAULT_TIMEOUT
        pure (createResponse "git-remove"
          ("✅ Successfully removed file from staging area: " ++ file ++ "\n" ++
            jsOr result.stdout "File unstaged successfully.") false workingDir))
    (fun e => pure (createResponse "git-remove" ("Error: " ++ e.message) true workingDir))

/-- `gitRemoveAll(directory)`. -/
def gitRemoveAll (workingDir : String) : GitM GitOperationResult :=
  GitM.tryCatch
    (do
      let repo ← isGitRepository workingDir
      if !repo then GitM.throw ⟨"Not a git repository", "", "", false⟩
      else do
        let result ← executeGitCommand "git reset HEAD ." workingDir DEFAULT_TIMEOUT
        pure (createResponse "git-remove-all"
          ("✅ Successfully removed all files from staging area.\n" ++
            jsOr result.stdout "All files unstaged successfully.") false workingDir))
    (fun e => pure (createResponse "git-remove-all" ("Error: " ++ e.message) true workingDir))

/-- `gitStatus(directory)`.  The inner try/catch mutates `contextInfo`, so a
failure of the branch lookup after a successful remote lookup keeps the
remote line; the nesting below reproduces that. -/
def gitStatus (workingDir : String) : GitM GitOperationResult :=
  GitM.tryCatch
    (do
      let repo ← isGitRepository workingDir
      if !repo then GitM.throw ⟨"Not a git repository", "", "", false⟩
      else do
        let base := "📁 Directory: " ++ pathBasename workingDir ++ "\n"
        let contextInfo ← GitM.tryCatch
          (do
            let remoteResult ← executeGitCommand "git remote get-url origin" workingDir
              DEFAULT_TIMEOUT
            let ctx1 := base ++ "🔗 Remote: " ++ strTrim remoteResult.stdout ++ "\n"
            GitM.tryCatch
              (do
                let branchResult ← executeGitCommand "git branch --show-current" workingDir
                  DEFAULT_TIMEOUT
                pure (ctx1 ++ "🌿 Branch: " ++ strTrim branchResult.stdout ++ "\n\n"))
              (fun _ => pure (ctx1 ++ "🔗 Remote: Not configured\n🌿 Branch: Unknown\n\n")))
          (fun _ => pure (base ++ "🔗 Remote: Not configured\n🌿 Branch: Unknown\n\n"))
        let result ← executeGitCommand "git status --porcelain" workingDir DEFAULT_TIMEOUT
        let statusText :=
          if strTrim result.stdout ≠ "" then
            contextInfo ++ "📊 Current repository status:\n" ++ result.stdout
          else contextInfo ++ "✅ Repository is clean (no changes)"
        pure (createResponse "git-status" statusText false workingDir))
    (fun e => pure (createResponse "git-status" ("Error: " ++ e.message) true workingDir))

/-- `gitCommit(message, directory)`. -/
def gitCommit (message : String) (workingDir : String) : GitM GitOperationResult :=
  GitM.tryCatch
    (do
      let repo ← isGitRepository workingDir
      if !repo then
        pure (createResponse "git-commit"
          "Error: Not a git repository. Run \"git init\" to initialize." true workingDir)
      else if message = "" ∨ strTrim message = "" then
        pure (createResponse "git-commit" "Error: Commit message cannot be empty." true
          workingDir)
      else do
        let statusResult ← executeGitCommand "git diff --cached --name-only" workingDir
          DEFAULT_TIMEOUT
        if strTrim statusResult.stdout = "" then
          pure (createResponse "git-commit"
            "Error: No staged changes to commit. Use \"git add\" to stage files first." true
            workingDir)
        else do
          let stagedFiles ← executeGitCommand "git diff --cached --name-status" workingDir
            DEFAULT_TIMEOUT
          let fileCount := countNonEmptyLines stagedFiles.stdout
          let result ← executeGitCommand
            ("git commit -m \"" ++ escapeMessage message ++ "\"") workingDir DEFAULT_TIMEOUT
          pure (createResponse "git-commit"
            ("✅ Successfully committed " ++ toString fileCount ++
              " file(s) with message: \"" ++ message ++ "\"\n\n📝 Commit details:\n" ++
              result.stdout ++ "\n\n📁 Files committed:\n" ++ stagedFiles.stdout)
            false workingDir))
    (fun e =>
      pure (createResponse "git-commit"
        ("Error: " ++ jsOr e.stderr (jsOr e.message "Unknown error during commit")) true
        workingDir))

/-- The suggestion lines `gitPush` appends for common push failures. -/
def pushErrorSuggestions (errorMsg : String) : String :=
  if includes errorMsg "rejected" then
    errorMsg ++
      "\n\n💡 Suggestion: Pull the latest changes first with \"git pull\" or use force push if you're sure."
  else if includes errorMsg "upstream" then
    errorMsg ++ "\n\n💡 Suggestion: Set upstream branch with \"git push -u origin <branch-name>\"."
  else if includes errorMsg "authentication failed" || includes errorMsg "Authentication failed" then
    errorMsg ++
      "\n\n💡 Suggestions:\n- Check your Git credentials with \"git config --list\"\n- Update your personal access token\n- Verify repository access permissions"
  else if includes errorMsg "credential" || includes errorMsg "credentials" then
    errorMsg ++
      "\n\n💡 Suggestions:\n- Configure Git credentials: git config --global credential.helper store\n- Set up SSH keys for authentication\n- Check if your access token is valid"
  else if includes errorMsg "Permission denied" then
    errorMsg ++
      "\n\n💡 Suggestions:\n- Verify SSH key setup: ssh -T git@github.com\n- Check repository access permissions\n- Ensure you have push access to the repository"
  else errorMsg

/-- `gitPush(directory)`. -/
def gitPush (workingDir : String) : GitM GitOperationResult :=
  GitM.tryCatch
    (do
      let repo ← isGitRepository workingDir
      if !repo then
        pure (createResponse "git-push"
          "Error: Not a git repository. Run \"git init\" to initialize." true workingDir)
      else do
        let currentDir := pathBasename workingDir
        let remoteOpt ← GitM.tryCatch
          (do
            let remoteResult ← executeGitCommand "git remote get-url origin" workingDir
              DEFAULT_TIMEOUT
            pure (some (strTrim remoteResult.stdout)))
          (fun _ => pure none)
        match remoteOpt with
        | none =>
          pure (createResponse "git-push"
            "Error: No remote repository configured. Add a remote with \"git remote add origin <url>\"."
            true workingDir)
        | some remoteInfo => do
          let aheadEmpty ← GitM.tryCatch
            (do
              let statusCheck ← executeGitCommand "git log @\x7bu\x7d.." workingDir
                DEFAULT_TIMEOUT
              pure (some (decide (strTrim statusCheck.stdout = ""))))
            (fun _ => pure none)
          if aheadEmpty = some true then
            pure (createResponse "git-push"
              "✅ Nothing to push - all commits are already on remote." false workingDir)
          else do
            let branchResult ← executeGitCommand "git branch --show-current" workingDir
              DEFAULT_TIMEOUT
            let currentBranch := strTrim branchResult.stdout
            let confirmationInfo := "📁 Directory: " ++ currentDir ++ "\n🔗 Remote: " ++
              remoteInfo ++ "\n🌿 Branch: " ++ currentBranch ++ "\n\n"
            let result ← executeGitCommand "git push" workingDir 60000
            pure (createResponse "git-push"
              ("🚀 Successfully pushed changes to remote repository.\n\n" ++ confirmationInfo ++
                jsOr result.stdout (jsOr result.stderr "Push completed successfully."))
              false workingDir))
    (fun e =>
      pure (createResponse "git-push"
        ("❌ Error: " ++
          pushErrorSuggestions (jsOr e.stderr (jsOr e.message "Unknown error during push")))
        true workingDir))

/-- `gitPull(directory)`.  Note: the pull subprocess runs under the default
timeout. -/
def gitPull (workingDir : String) : GitM GitOperationResult :=
  GitM.tryCatch
    (do
      let repo ← isGitRepository workingDir
      if !repo then GitM.throw ⟨"Not a git repository", "", "", false⟩
      else do
        let result ← executeGitCommand "git pull" workingDir DEFAULT_TIMEOUT
        pure (createResponse "git-pull"
          ("✅ Successfully pulled changes from remote repository.\n" ++
            jsOr result.stdout "Already up to date.") false workingDir))
    (fun e => pure (createResponse "git-pull" ("Error: " ++ e.message) true workingDir))

/-- `gitBranch(branchName?, directory)`. -/
def gitBranch (branchName : Option String) (workingDir : String) : GitM GitOperationResult :=
  GitM.tryCatch
    (do
      let repo ← isGitRepository workingDir
      if !repo then GitM.throw ⟨"Not a git repository", "", "", false⟩
      else do
        let command :=
          if optTruthy branchName then "git branch \"" ++ getStr branchName ++ "\""
          else "git branch -a"
        let result ← executeGitCommand command workingDir DEFAULT_TIMEOUT
        let message :=
          if optTruthy branchName then "✅ Successfully created branch: " ++ getStr branchName
          else "🌿 Available branches:\n" ++ result.stdout
        pure (createResponse "git-branch" message false workingDir))
    (fun e => pure (createResponse "git-branch" ("Error: " ++ e.message) true workingDir))

/-- `gitCheckout(branchName, createNew, directory)`. -/
def gitCheckout (branchName : String) (createNew : Bool) (workingDir : String) :
    GitM GitOperationResult :=
  GitM.tryCatch
    (do
      let repo ← isGitRepository workingDir
      if !repo then GitM.throw ⟨"Not a git repository", "", "", false⟩
      else do
        let command :=
          if createNew then "git checkout -b \"" ++ branchName ++ "\""
          else "git checkout \"" ++ branchName ++ "\""
        let result ← executeGitCommand command workingDir DEFAULT_TIMEOUT
        let message :=
          if createNew then "✅ Successfully created and switched to branch: " ++ branchName
          else "✅ Successfully switched to branch: " ++ branchName
        pure (createResponse "git-checkout"
          (message ++ "\n" ++ jsOr result.stdout (jsOr result.stderr "")) false workingDir))
    (fun e => pure (createResponse "git-checkout" ("Error: " ++ e.message) true workingDir))

/-- `gitLog(maxCount = 10, directory)`. -/
def gitLog (maxCount : Nat) (workingDir : String) : GitM GitOperationResult :=
  GitM.tryCatch
    (do
      let repo ← isGitRepository workingDir
      if !repo then GitM.throw ⟨"Not a git repository", "", "", false⟩
      else do
        let result ← executeGitCommand ("git log --oneline -" ++ toString maxCount) workingDir
          DEFAULT_TIMEOUT
        pure (createResponse "git-log" (jsOr result.stdout "📝 No commits found") false
          workingDir))
    (fun e => pure (createResponse "git-log" ("Error: " ++ e.message) true workingDir))

/-- `gitDiff(target?, directory)`. -/
def gitDiff (target : Option String) (workingDir : String) : GitM GitOperationResult :=
  GitM.tryCatch
    (do
      let repo ← isGitRepository workingDir
      if !repo then GitM.throw ⟨"Not a git repository", "", "", false⟩
      else do
        let command :=
          if optTruthy target then "git diff " ++ getStr target else "git diff"
        let result ← executeGitCommand command workingDir DEFAULT_TIMEOUT
        pure (createResponse "git-diff" (jsOr result.stdout "📄 No differences found") false
          workingDir))
    (fun e => pure (createResponse "git-diff" ("Error: " ++ e.message) true workingDir))

/-- `gitStash(message?, directory)`. -/
def gitStash (message : Option String) (workingDir : String) : GitM GitOperationResult :=
  GitM.tryCatch
    (do
      let repo ← isGitRepository workingDir
      if !repo then GitM.throw ⟨"Not a git repository", "", "", false⟩
      else do
        let command :=
          if optTruthy message then "git stash push -m \"" ++ getStr message ++ "\""
          else "git stash"
        let result ← executeGitCommand command workingDir DEFAULT_TIMEOUT
        pure (createResponse "git-stash"
          ("💾 Successfully stashed changes.\n" ++ jsOr result.stdout
            "Changes stashed successfully.") false workingDir))
    (fun e => pure (createResponse "git-stash" ("Error: " ++ e.message) true workingDir))

/-- `gitStashPop(directory)`. -/
def gitStashPop (workingDir : String) : GitM GitOperationResult :=
  GitM.tryCatch
    (do
      let repo ← isGitRepository workingDir
      if !repo then GitM.throw ⟨"Not a git repository", "", "", false⟩
      else do
        let result ← executeGitCommand "git stash pop" workingDir DEFAULT_TIMEOUT
        pure (createResponse "git-stash-pop"
          ("💾 Successfully applied stash.\n" ++ jsOr result.stdout
            "Stash applied successfully.") false workingDir))
    (fun e => pure (createResponse "git-stash-pop" ("Error: " ++ e.message) true workingDir))

/-- The help text `gitReset` prints for `--help`/`-h` before any repository
check. -/
def gitResetHelpText : String :=
  "🔄 greset - Git Reset Command\n\nUsage:\n  greset [mode] [target]\n\nReset Modes:\n  --soft     Reset HEAD only (keep staged changes)\n  --mixed    Reset HEAD and index (default)\n  --hard     Reset HEAD, index, and working tree (DESTRUCTIVE!)\n\nExamples:\n  greset                    # Reset to HEAD (mixed)\n  greset --soft HEAD~1      # Soft reset to previous commit\n  greset --hard origin/main # Hard reset to remote main\n\n⚠️  WARNING: --hard mode will destroy uncommitted changes!\n💡 Use --soft to keep your changes staged."

/-- `gitReset(mode = 'mixed', target = 'HEAD', directory)`. -/
def gitReset (mode target : String) (workingDir : String) : GitM GitOperationResult :=
  if mode = "--help" ∨ mode = "-h" then
    pure (createResponse "git-reset" gitResetHelpText false workingDir)
  else
    GitM.tryCatch
      (do
        let repo ← isGitRepository workingDir
        if !repo then GitM.throw ⟨"Not a git repository", "", "", false⟩
        else do
          let result ← executeGitCommand ("git reset --" ++ mode ++ " " ++ target) workingDir
            DEFAULT_TIMEOUT
          pure (createResponse "git-reset"
            ("🔄 Successfully reset repository (" ++ mode ++ ") to " ++ target ++ ".\n" ++
              jsOr result.stdout "Reset completed.") false workingDir))
      (fun e => pure (createResponse "git-reset" ("Error: " ++ e.message) true workingDir))

/-- `gitRemoteList(directory)`. -/
def gitRemoteList (workingDir : String) : GitM GitOperationResult :=
  GitM.tryCatch
    (do
      let repo ← isGitRepository workingDir
      if !repo then GitM.throw ⟨"Current directory is not a Git repository", "", "", false⟩
      else do
        let result ← executeGitCommand "git remote -v" workingDir DEFAULT_TIMEOUT
        let remotes := strTrim result.stdout
        let displayText :=
          if remotes ≠ "" then "🔗 Remote repositories:\n" ++ remotes
          else "📭 No remote repositories configured."
        pure (createResponse "git-remote-list" displayText false workingDir))
    (fun e => pure (createResponse "git-remote-list" ("Error: " ++ e.message) true workingDir))

/-- The URL shape test of `gitRemoteAdd`/`gitRemoteSetUrl`:
`/^(https?:\/\/|git@|ssh:\/\/)/`. -/
def validGitUrl (url : String) : Bool :=
  strStartsWith url "http://" || strStartsWith url "https://" || strStartsWith url "git@" ||
    strStartsWith url "ssh://"

/-- `gitRemoteAdd(name, url, directory)`. -/
def gitRemoteAdd (name url : String) (workingDir : String) : GitM GitOperationResult :=
  GitM.tryCatch
    (do
      let repo ← isGitRepository workingDir
      if !repo then GitM.throw ⟨"Current directory is not a Git repository", "", "", false⟩
      else if name = "" ∨ url = "" then
        GitM.throw ⟨"Remote name and URL are required", "", "", false⟩
      else if !validGitUrl url then
        GitM.throw
          ⟨"Invalid Git URL format. Use HTTPS (https://...) or SSH (git@...) format.", "", "",
            false⟩
      else do
        let _ ← executeGitCommand ("git remote add \"" ++ name ++ "\" \"" ++ url ++ "\"")
          workingDir DEFAULT_TIMEOUT
        pure (createResponse "git-remote-add"
          ("✅ Successfully added remote '" ++ name ++ "' with URL: " ++ url) false workingDir))
    (fun e => pure (createResponse "git-remote-add" ("Error: " ++ e.message) true workingDir))

/-- `gitRemoteRemove(name, directory)`. -/
def gitRemoteRemove (name : String) (workingDir : String) : GitM GitOperationResult :=
  GitM.tryCatch
    (do
      let repo ← isGitRepository workingDir
      if !repo then GitM.throw ⟨"Current directory is not a Git repository", "", "", false⟩
      else if name = "" then GitM.throw ⟨"Remote name is required", "", "", false⟩
      else do
        let _ ← executeGitCommand ("git remote remove \"" ++ name ++ "\"") workingDir
          DEFAULT_TIMEOUT
        pure (createResponse "git-remote-remove"
          ("✅ Successfully removed remote '" ++ name ++ "'") false workingDir))
    (fun e => pure (createResponse "git-remote-remove" ("Error: " ++ e.message) true workingDir))

/-- `gitRemoteSetUrl(name, url, directory)`. -/
def gitRemoteSetUrl (name url : String) (workingDir : String) : GitM GitOperationResult :=
  GitM.tryCatch
    (do
      let repo ← isGitRepository workingDir
      if !repo then GitM.throw ⟨"Current directory is not a Git repository", "", "", false⟩
      else if name = "" ∨ url = "" then
        GitM.throw ⟨"Remote name and URL are required", "", "", false⟩
      else if !validGitUrl url then
        GitM.throw
          ⟨"Invalid Git URL format. Use HTTPS (https://...) or SSH (git@...) format.", "", "",
            false⟩
      else do
        let _ ← executeGitCommand ("git remote set-url \"" ++ name ++ "\" \"" ++ url ++ "\"")
          workingDir DEFAULT_TIMEOUT
        pure (createResponse "git-remote-set-url"
          ("✅ Successfully updated remote '" ++ name ++ "' URL to: " ++ url) false workingDir))
    (fun e =>
      pure (createResponse "git-remote-set-url" ("Error: " ++ e.message) true workingDir))

/-- `gitClone(url, directory, targetDir?)`.  No repository check, and the
clone subprocess runs under the default timeout. -/
def gitClone (url : String) (workingDir : String) (targetDir : Option String) :
    GitM GitOperationResult :=
  GitM.tryCatch
    (do
      let command :=
        if optTruthy targetDir then
          "git clone \"" ++ url ++ "\" \"" ++ getStr targetDir ++ "\""
        else "git clone \"" ++ url ++ "\""
      let result ← executeGitCommand command workingDir DEFAULT_TIMEOUT
      pure (createResponse "git-clone"
        ("✅ Successfully cloned repository from " ++ url ++ ".\n" ++
          jsOr result.stdout (jsOr result.stderr "Clone completed.")) false workingDir))
    (fun e => pure (createResponse "git-clone" ("Error: " ++ e.message) true workingDir))

/-- `gitInit(directory)`: succeeds (with different texts) both on an
existing repository and on a fresh directory. -/
def gitInit (workingDir : String) : GitM GitOperationResult :=
  GitM.tryCatch
    (do
      let repo ← isGitRepository workingDir
      if repo then
        pure (createResponse "git-init" "✅ Directory is already a Git repository." false
          workingDir)
      else do
        let result ← executeGitCommand "git init" workingDir DEFAULT_TIMEOUT
        pure (createResponse "git-init"
          ("🎉 Successfully initialized empty Git repository.\n" ++
            jsOr result.stdout (jsOr result.stderr "Repository initialized.")) false workingDir))
    (fun e => pure (createResponse "git-init" ("Error: " ++ e.message) true workingDir))

/-- `gitFlow(message, directory)`: the inline add-all → commit → push
workflow with its accumulated progress log.  The error branch converts a
failure whose text mentions "nothing to commit" (without an earlier
authentication/credential/rejected match) into a success response. -/
def gitFlow (message : String) (workingDir : String) : GitM GitOperationResult :=
  GitM.tryCatch
    (do
      let repo ← isGitRepository workingDir
      if !repo then
        pure (createResponse "git-flow"
          "Error: Not a git repository. Run \"git init\" to initialize." true workingDir)
      else if message = "" ∨ strTrim message = "" then
        pure (createResponse "git-flow" "Error: Commit message is required for git flow." true
          workingDir)
      else do
        let currentDir := pathBasename workingDir
        let remoteBranch ← GitM.tryCatch
          (do
            let remoteResult ← executeGitCommand "git remote get-url origin" workingDir
              DEFAULT_TIMEOUT
            let branchResult ← executeGitCommand "git branch --show-current" workingDir
              DEFAULT_TIMEOUT
            pure (some (strTrim remoteResult.stdout, strTrim branchResult.stdout)))
          (fun _ => pure none)
        match remoteBranch with
        | none =>
          pure (createResponse "git-flow"
            "Error: No remote repository configured. Add a remote with \"git remote add origin <url>\"."
            true workingDir)
        | some (remoteInfo, currentBranch) => do
          let log0 := "🚀 Starting Git Flow...\n\n" ++ "📁 Directory: " ++ currentDir ++
            "\n🔗 Remote: " ++ remoteInfo ++ "\n🌿 Branch: " ++ currentBranch ++ "\n\n"
          let statusResult ← executeGitCommand "git status --porcelain" workingDir
            DEFAULT_TIMEOUT
          if strTrim statusResult.stdout = "" then
            pure (createResponse "git-flow"
              "✅ Git Flow Complete: No changes to commit. Working directory is clean." false
              workingDir)
          else do
            let log1 := log0 ++ "📁 Found " ++ toString (lineCount statusResult.stdout) ++
              " modified file(s)\n" ++ "📝 Step 1/3: Adding all changes...\n"
            let _ ← executeGitCommand "git add ." workingDir DEFAULT_TIMEOUT
            let stagedResult ← executeGitCommand "git diff --cached --name-status" workingDir
              DEFAULT_TIMEOUT
            let stagedFiles := countNonEmptyLines stagedResult.stdout
            let log2 := log1 ++ "✅ Successfully staged " ++ toString stagedFiles ++
              " file(s)\n\n" ++ "💾 Step 2/3: Creating commit...\n"
            let commitResult ← executeGitCommand
              ("git commit -m \"" ++ escapeMessage message ++ "\"") workingDir DEFAULT_TIMEOUT
            let log3 := log2 ++ "✅ Successfully committed with message: \"" ++ message ++
              "\"\n" ++ commitResult.stdout ++ "\n\n" ++ "🚀 Step 3/3: Pushing to remote...\n"
            let pushResult ← executeGitCommand "git push" workingDir 60000
            let log4 := log3 ++ "✅ Successfully pushed to remote repository\n" ++
              jsOr pushResult.stdout (jsOr pushResult.stderr "Push completed successfully.") ++
              "\n\n" ++
              "🎉 Git Flow Complete! All changes committed and pushed successfully.\n" ++
              "⏱️  Total time: 0ms"
            pure (createResponse "git-flow" log4 false workingDir))
    (fun e =>
      let errorMsg := jsOr e.stderr (jsOr e.message "Unknown error during git flow")
      if includes errorMsg "authentication" || includes errorMsg "credential" then
        pure (createResponse "git-flow"
          ("❌ Git Flow failed: " ++ errorMsg ++
            "\n\n💡 Git Flow Authentication Help:\n- Verify your Git credentials are configured\n- Check if your access token is valid\n- Ensure you have push permissions to the repository")
          true workingDir)
      else if includes errorMsg "rejected" then
        pure (createResponse "git-flow"
          ("❌ Git Flow failed: " ++ errorMsg ++
            "\n\n💡 Git Flow Push Rejected:\n- Someone else may have pushed changes\n- Try running \"git pull\" first, then retry git flow\n- Check if you have the latest changes")
          true workingDir)
      else if includes errorMsg "nothing to commit" then
        pure (createResponse "git-flow"
          "✅ Git Flow Complete: No changes to commit. Working directory is clean." false
          workingDir)
      else
        pure (createResponse "git-flow" ("❌ Git Flow failed: " ++ errorMsg) true workingDir))

/-- `gitQuickCommit(message, directory)`: add all and commit, no push. -/
def gitQuickCommit (message : String) (workingDir : String) : GitM GitOperationResult :=
  GitM.tryCatch
    (do
      let repo ← isGitRepository workingDir
      if !repo then
        pure (createResponse "git-quick-commit"
          "Error: Not a git repository. Run \"git init\" to initialize." true workingDir)
      else if message = "" ∨ strTrim message = "" then
        pure (createResponse "git-quick-commit" "Error: Commit message is required." true
          workingDir)
      else do
        let statusResult ← executeGitCommand "git status --porcelain" workingDir
          DEFAULT_TIMEOUT
        if strTrim statusResult.stdout = "" then
          pure (createResponse "git-quick-commit"
            "✅ No changes to commit. Working directory is clean." false workingDir)
        else do
          let _ ← executeGitCommand "git add ." workingDir DEFAULT_TIMEOUT
          let commitResult ← executeGitCommand
            ("git commit -m \"" ++ escapeMessage message ++ "\"") workingDir DEFAULT_TIMEOUT
          pure (createResponse "git-quick-commit"
            ("✅ Quick commit successful!\nMessage: \"" ++ message ++ "\"\n" ++
              commitResult.stdout) false workingDir))
    (fun e =>
      pure (createResponse "git-quick-commit"
        ("Error: " ++ jsOr e.stderr (jsOr e.message "Unknown error during quick commit")) true
        workingDir))

/-- `gitSync(directory)`: inline pull then push; a push failure whose
message mentions "Everything up-to-date" is tolerated, every other push
failure is rethrown to the outer catch. -/
def gitSync (workingDir : String) : GitM GitOperationResult :=
  GitM.tryCatch
    (do
      let repo ← isGitRepository workingDir
      if !repo then
        pure (createResponse "git-sync"
          "Error: Not a git repository. Run \"git init\" to initialize." true workingDir)
      else do
        let log0 := "🔄 Starting Git Sync...\n\n" ++ "⬇️  Step 1/2: Pulling from remote...\n"
        let pullResult ← executeGitCommand "git pull" workingDir DEFAULT_TIMEOUT
        let log1 := log0 ++ "✅ Pull completed\n" ++ jsOr pullResult.stdout
          "Already up to date." ++ "\n\n" ++ "⬆️  Step 2/2: Pushing to remote...\n"
        let log2 ← GitM.tryCatch
          (do
            let pushResult ← executeGitCommand "git push" workingDir 60000
            pure (log1 ++ "✅ Push completed\n" ++ jsOr pushResult.stdout
              "Everything up-to-date." ++ "\n\n"))
          (fun pushError =>
            if includes pushError.message "Everything up-to-date" then
              pure (log1 ++ "✅ Nothing to push - repository is up-to-date\n\n")
            else GitM.throw pushError)
        pure (createResponse "git-sync"
          (log2 ++ "🎉 Sync Complete! Repository is synchronized with remote.") false
          workingDir))
    (fun e =>
      pure (createResponse "git-sync"
        ("❌ Sync failed: " ++ jsOr e.stderr (jsOr e.message "Unknown error during sync")) true
        workingDir))

/-- The six advanced handlers (`gitTag`, `gitMerge`, `gitRebase`,
`gitCherryPick`, `gitBlame`, `gitBisect`) test `!isGitRepository(dir)`
without awaiting the promise; a Promise object is always truthy in
JavaScript, so the negation is always false and the early not-a-repository
return never fires.  The validation subprocess itself is still started. -/
def isGitRepositoryPromiseTruthy : Bool := true

/-- The common tail of the conflict report built by `gitMerge`,
`gitRebase` and `gitCherryPick` after listing the conflicted files. -/
def conflictListText (kind : String) (conflicts : List String) (continueCmd abortCmd : String) :
    String :=
  "⚠️ " ++ kind ++ " conflict detected!\n\n" ++ "Conflicted files:\n" ++
    joinWith "\n" (conflicts.map (fun f => "  • " ++ f)) ++ "\n\n" ++
    "To resolve:\n" ++ "1. Edit the conflicted files\n" ++
    "2. Run: git add <resolved-files>\n" ++ "3. Run: " ++ continueCmd ++ "\n" ++
    "\nOr abort with: " ++ abortCmd

/-- `gitTag(directory, action, tagName, message)`. -/
def gitTag (workingDir : String) (action tagName message : Option String) :
    GitM GitOperationResult :=
  GitM.tryCatch
    (do
      let _ ← isGitRepository workingDir
      if !isGitRepositoryPromiseTruthy then
        pure (createResponse "git-tag"
          "Error: Not a git repository. Run \"git init\" to initialize." true workingDir)
      else do
        let listCase : GitM GitOperationResult := do
          let listResult ← executeGitCommand "git tag --sort=-version:refname" workingDir
            DEFAULT_TIMEOUT
          let tags := nonEmptySegs listResult.stdout
          let resultText :=
            if tags.length = 0 then "📌 No tags found in this repository."
            else "📌 Available tags (" ++ toString tags.length ++ "):\n\n" ++
              joinWith "\n" (tags.map (fun t => "  • " ++ t))
          pure (createResponse "git-tag" resultText false workingDir)
        match action with
        | none => listCase
        | some a =>
          if a = "list" then listCase
          else if a = "create" then
            if !optTruthy tagName then
              pure (createResponse "git-tag" "❌ Error: Tag name is required for creating tags."
                true workingDir)
            else do
              let command :=
                if optTruthy message then
                  "git tag -a \"" ++ getStr tagName ++ "\" -m \"" ++ getStr message ++ "\""
                else "git tag \"" ++ getStr tagName ++ "\""
              let _ ← executeGitCommand command workingDir DEFAULT_TIMEOUT
              pure (createResponse "git-tag"
                ("✅ Tag '" ++ getStr tagName ++ "' created successfully." ++
                  (if optTruthy message then "\nMessage: " ++ getStr message else ""))
                false workingDir)
          else if a = "delete" then
            if !optTruthy tagName then
              pure (createResponse "git-tag" "❌ Error: Tag name is required for deleting tags."
                true workingDir)
            else do
              let _ ← executeGitCommand ("git tag -d \"" ++ getStr tagName ++ "\"") workingDir
                DEFAULT_TIMEOUT
              pure (createResponse "git-tag"
                ("🗑️ Tag '" ++ getStr tagName ++ "' deleted successfully.") false workingDir)
          else if a = "show" then
            if !optTruthy tagName then
              pure (createResponse "git-tag"
                "❌ Error: Tag name is required for showing tag details." true workingDir)
            else do
              let showResult ← executeGitCommand
                ("git show \"" ++ getStr tagName ++ "\" --stat") workingDir DEFAULT_TIMEOUT
              pure (createResponse "git-tag"
                ("📋 Tag details for '" ++ getStr tagName ++ "':\n\n" ++ showResult.stdout)
                false workingDir)
          else
            pure (createResponse "git-tag"
              "❌ Error: Invalid action. Use: list, create, delete, or show." true workingDir))
    (fun e =>
      pure (createResponse "git-tag"
        ("❌ Tag operation failed: " ++
          jsOr e.stderr (jsOr e.message "Unknown error during tag operation")) true workingDir))

/-- `gitMerge(directory, branch, strategy)`. -/
def gitMerge (workingDir : String) (branch strategy : Option String) :
    GitM GitOperationResult :=
  GitM.tryCatch
    (do
      let _ ← isGitRepository workingDir
      if !isGitRepositoryPromiseTruthy then
        pure (createResponse "git-merge"
          "Error: Not a git repository. Run \"git init\" to initialize." true workingDir)
      else if !optTruthy branch then
        pure (createResponse "git-merge" "❌ Error: Branch name is required for merge." true
          workingDir)
      else do
        let b := getStr branch
        let branchExists ← GitM.tryCatch
          (do let _ ← executeGitCommand ("git rev-parse --verify \"" ++ b ++ "\"") workingDir
                DEFAULT_TIMEOUT
              pure true)
          (fun _ => pure false)
        if !branchExists then
          pure (createResponse "git-merge" ("❌ Error: Branch '" ++ b ++ "' does not exist.")
            true workingDir)
        else do
          let statusResult ← executeGitCommand "git status --porcelain" workingDir
            DEFAULT_TIMEOUT
          if strTrim statusResult.stdout ≠ "" then
            pure (createResponse "git-merge"
              "❌ Error: You have uncommitted changes. Please commit or stash them before merging."
              true workingDir)
          else do
            let command := "git merge \"" ++ b ++ "\"" ++
              (if optTruthy strategy then " --strategy=" ++ getStr strategy else "")
            GitM.tryCatch
              (do
                let mergeResult ← executeGitCommand command workingDir DEFAULT_TIMEOUT
                pure (createResponse "git-merge"
                  ("✅ Successfully merged '" ++ b ++ "' into current branch.\n\n" ++
                    mergeResult.stdout) false workingDir))
              (fun mergeError =>
                if includes mergeError.stderr "CONFLICT" then do
                  let conflictFiles ← executeGitCommand "git diff --name-only --diff-filter=U"
                    workingDir DEFAULT_TIMEOUT
                  let conflicts := nonEmptySegs conflictFiles.stdout
                  pure (createResponse "git-merge"
                    (conflictListText "Merge" conflicts "git commit" "git merge --abort") true
                    workingDir)
                else GitM.throw mergeError))
    (fun e =>
      pure (createResponse "git-merge"
        ("❌ Merge failed: " ++ jsOr e.stderr (jsOr e.message "Unknown error during merge"))
        true workingDir))

/-- `gitRebase(directory, target, interactive)`. -/
def gitRebase (workingDir : String) (target : Option String) (interactive : Bool) :
    GitM GitOperationResult :=
  GitM.tryCatch
    (do
      let _ ← isGitRepository workingDir
      if !isGitRepositoryPromiseTruthy then
        pure (createResponse "git-rebase"
          "Error: Not a git repository. Run \"git init\" to initialize." true workingDir)
      else do
        let t := if optTruthy target then getStr target else "HEAD~1"
        let statusResult ← executeGitCommand "git status --porcelain" workingDir
          DEFAULT_TIMEOUT
        if strTrim statusResult.stdout ≠ "" then
          pure (createResponse "git-rebase"
            "❌ Error: You have uncommitted changes. Please commit or stash them before rebasing."
            true workingDir)
        else do
          let command :=
            if interactive then "git rebase -i \"" ++ t ++ "\"" else "git rebase \"" ++ t ++ "\""
          GitM.tryCatch
            (do
              let rebaseResult ← executeGitCommand command workingDir DEFAULT_TIMEOUT
              pure (createResponse "git-rebase"
                ("✅ Rebase completed successfully.\n\n" ++ rebaseResult.stdout) false
                workingDir))
            (fun rebaseError =>
              if includes rebaseError.stderr "CONFLICT" then do
                let conflictFiles ← executeGitCommand "git diff --name-only --diff-filter=U"
                  workingDir DEFAULT_TIMEOUT
                let conflicts := nonEmptySegs conflictFiles.stdout
                pure (createResponse "git-rebase"
                  (conflictListText "Rebase" conflicts "git rebase --continue"
                    "git rebase --abort") true workingDir)
              else GitM.throw rebaseError))
    (fun e =>
      pure (createResponse "git-rebase"
        ("❌ Rebase failed: " ++ jsOr e.stderr (jsOr e.message "Unknown error during rebase"))
        true workingDir))

/-- `gitCherryPick(directory, commitHash)`; its conflict branch lives in
the outer catch. -/
def gitCherryPick (workingDir : String) (commitHash : Option String) :
    GitM GitOperationResult :=
  GitM.tryCatch
    (do
      let _ ← isGitRepository workingDir
      if !isGitRepositoryPromiseTruthy then
        pure (createResponse "git-cherry-pick"
          "Error: Not a git repository. Run \"git init\" to initialize." true workingDir)
      else if !optTruthy commitHash then
        pure (createResponse "git-cherry-pick" "❌ Error: Commit hash is required for cherry-pick."
          true workingDir)
      else do
        let h := getStr commitHash
        let commitExists ← GitM.tryCatch
          (do let _ ← executeGitCommand ("git rev-parse --verify \"" ++ h ++ "\"") workingDir
                DEFAULT_TIMEOUT
              pure true)
          (fun _ => pure false)
        if !commitExists then
          pure (createResponse "git-cherry-pick" ("❌ Error: Commit '" ++ h ++ "' does not exist.")
            true workingDir)
        else do
          let statusResult ← executeGitCommand "git status --porcelain" workingDir
            DEFAULT_TIMEOUT
          if strTrim statusResult.stdout ≠ "" then
            pure (createResponse "git-cherry-pick"
              "❌ Error: You have uncommitted changes. Please commit or stash them before cherry-picking."
              true workingDir)
          else do
            let cherryPickResult ← executeGitCommand ("git cherry-pick \"" ++ h ++ "\"")
              workingDir DEFAULT_TIMEOUT
            pure (createResponse "git-cherry-pick"
              ("🍒 Successfully cherry-picked commit '" ++ strTake h 8 ++ "'.\n\n" ++
                cherryPickResult.stdout) false workingDir))
    (fun e => fun sys tr =>
      (if includes e.stderr "CONFLICT" then do
        let conflictFiles ← executeGitCommand "git diff --name-only --diff-filter=U" workingDir
          DEFAULT_TIMEOUT
        let conflicts := nonEmptySegs conflictFiles.stdout
        pure (createResponse "git-cherry-pick"
          (conflictListText "Cherry-pick" conflicts "git cherry-pick --continue"
            "git cherry-pick --abort") true workingDir)
      else
        pure (createResponse "git-cherry-pick"
          ("❌ Cherry-pick failed: " ++
            jsOr e.stderr (jsOr e.message "Unknown error during cherry-pick")) true workingDir))
        sys tr)

/-- `gitBlame(directory, filePath, lineRange)`. -/
def gitBlame (workingDir : String) (filePath lineRange : Option String) :
    GitM GitOperationResult :=
  GitM.tryCatch
    (do
      let _ ← isGitRepository workingDir
      if !isGitRepositoryPromiseTruthy then
        pure (createResponse "git-blame"
          "Error: Not a git repository. Run \"git init\" to initialize." true workingDir)
      else if !optTruthy filePath then
        pure (createResponse "git-blame" "❌ Error: File path is required for blame." true
          workingDir)
      else do
        let f := getStr filePath
        let ex ← fileExistsM (pathResolve workingDir f)
        if !ex then
          pure (createResponse "git-blame" ("❌ Error: File '" ++ f ++ "' does not exist.") true
            workingDir)
        else do
          let command := "git blame \"" ++ f ++ "\"" ++
            (if optTruthy lineRange then " -L " ++ getStr lineRange else "")
          let blameResult ← executeGitCommand command workingDir DEFAULT_TIMEOUT
          pure (createResponse "git-blame"
            ("📝 Blame information for '" ++ f ++ "':\n\n" ++ blameResult.stdout) false
            workingDir))
    (fun e =>
      pure (createResponse "git-blame"
        ("❌ Blame failed: " ++ jsOr e.stderr (jsOr e.message "Unknown error during blame"))
        true workingDir))

/-- `gitBisect(directory, action, commit)`. -/
def gitBisect (workingDir : String) (action commit : Option String) :
    GitM GitOperationResult :=
  GitM.tryCatch
    (do
      let _ ← isGitRepository workingDir
      if !isGitRepositoryPromiseTruthy then
        pure (createResponse "git-bisect"
          "Error: Not a git repository. Run \"git init\" to initialize." true workingDir)
      else
        let runBisect (command : String) : GitM GitOperationResult := do
          let bisectResult ← executeGitCommand command workingDir DEFAULT_TIMEOUT
          pure (createResponse "git-bisect"
            ("🔍 Bisect " ++ getStr action ++ ":\n\n" ++ bisectResult.stdout) false workingDir)
        match action with
        | some a =>
          if a = "start" then runBisect "git bisect start"
          else if a = "bad" then
            runBisect (if optTruthy commit then "git bisect bad \"" ++ getStr commit ++ "\""
              else "git bisect bad")
          else if a = "good" then
            runBisect (if optTruthy commit then "git bisect good \"" ++ getStr commit ++ "\""
              else "git bisect good")
          else if a = "reset" then runBisect "git bisect reset"
          else if a = "status" then runBisect "git bisect log"
          else
            pure (createResponse "git-bisect"
              "❌ Error: Invalid action. Use: start, bad, good, reset, or status." true
              workingDir)
        | none =>
          pure (createResponse "git-bisect"
            "❌ Error: Invalid action. Use: start, bad, good, reset, or status." true
            workingDir))
    (fun e =>
      pure (createResponse "git-bisect"
        ("❌ Bisect failed: " ++ jsOr e.stderr (jsOr e.message "Unknown error during bisect"))
        true workingDir))

/-- The untyped argument bag of a tool-call request, with one optional
field per argument name the dispatch layer reads (absent and `undefined`
coincide; the two boolean arguments default to `false` as undefined is
falsy). -/
structure ToolArgs where
  directory : Option String
  message : Option String
  files : Option (List String)
  file : Option String
  branchName : Option String
  createNew : Bool
  maxCount : Option Nat
  target : Option String
  mode : Option String
  url : Option String
  targetDir : Option String
  name : Option String
  action : Option String
  tagName : Option String
  branch : Option String
  strategy : Option String
  interactive : Bool
  commitHash : Option String
  filePath : Option String
  lineRange : Option String
  commit : Option String

/-- A tool-call response as the dispatch layer builds it: a single text
content item and the optional error flag (absent encoded as `false`). -/
structure CallToolResponse where
  text : String
  isError : Bool
deriving Repr, DecidableEq

/-- Shape of `JSON.stringify` applied to a handler result (character-level
escaping of the embedded text is not modelled; no claim depends on it). -/
def stringifyResult (r : GitOperationResult) : String :=
  "\x7b\"content\":[\x7b\"type\":\"text\",\"text\":\"" ++ r.text ++ "\"\x7d],\"isError\":" ++
    (if r.isError then "true" else "false") ++ ",\"metadata\":\x7b\"operation\":\"" ++
    r.operation ++ "\",\"workingDirectory\":\"" ++ r.workingDirectory ++ "\"\x7d\x7d"

/-- Shape of `JSON.stringify({success: false, message})` built by the
dispatch-level catch. -/
def stringifyFailure (message : String) : String :=
  "\x7b\"success\":false,\"message\":\"" ++ message ++ "\"\x7d"

/-- The `directory || process.cwd()` defaulting each handler applies to its
optional directory argument, with `cwd` the ambient process directory. -/
def resolveDir (directory : Option String) (cwd : String) : String :=
  match directory with
  | some d => if d = "" then cwd else d
  | none => cwd

/-- Wrap a handler result the way every dispatch case does. -/
def wrapResult (r : GitOperationResult) : CallToolResponse := ⟨stringifyResult r, false⟩

/-- The `CallToolRequestSchema` handler of the server: the switch over the
tool name, the per-case required-argument checks, and the outer catch that
converts any thrown error into a `success:false` payload with the error
flag set. -/
def handleCallTool (name : String) (args : ToolArgs) (cwd : String) : GitM CallToolResponse :=
  GitM.tryCatch
    (if name = "git-add-all" then do
      let r ← gitAddAll (resolveDir args.directory cwd)
      pure (wrapResult r)
    else if name = "git-add" then
      match args.files with
      | none => GitM.throw ⟨"files parameter is required and must be an array", "", "", false⟩
      | some files => do
        let r ← gitAdd files (resolveDir args.directory cwd)
        pure (wrapResult r)
    else if name = "git-remove" then
      if !optTruthy args.file then GitM.throw ⟨"file parameter is required", "", "", false⟩
      else do
        let r ← gitRemove (getStr args.file) (resolveDir args.directory cwd)
        pure (wrapResult r)
    else if name = "git-remove-all" then do
      let r ← gitRemoveAll (resolveDir args.directory cwd)
      pure (wrapResult r)
    else if name = "git-status" then do
      let r ← gitStatus (resolveDir args.directory cwd)
      pure (wrapResult r)
    else if name = "git-commit" then
      if !optTruthy args.message then GitM.throw ⟨"message parameter is required", "", "", false⟩
      else do
        let r ← gitCommit (getStr args.message) (resolveDir args.directory cwd)
        pure (wrapResult r)
    else if name = "git-push" then do
      let r ← gitPush (resolveDir args.directory cwd)
      pure (wrapResult r)
    else if name = "git-pull" then do
      let r ← gitPull (resolveDir args.directory cwd)
      pure (wrapResult r)
    else if name = "git-branch" then do
      let r ← gitBranch args.branchName (resolveDir args.directory cwd)
      pure (wrapResult r)
    else if name = "git-checkout" then
      if !optTruthy args.branchName then
        GitM.throw ⟨"branchName parameter is required", "", "", false⟩
      else do
        let r ← gitCheckout (getStr args.branchName) args.createNew
          (resolveDir args.directory cwd)
        pure (wrapResult r)
    else if name = "git-log" then do
      let r ← gitLog (args.maxCount.getD 10) (resolveDir args.directory cwd)
      pure (wrapResult r)
    else if name = "git-diff" then do
      let r ← gitDiff args.target (resolveDir args.directory cwd)
      pure (wrapResult r)
    else if name = "git-stash" then do
      let r ← gitStash args.message (resolveDir args.directory cwd)
      pure (wrapResult r)
    else if name = "git-stash-pop" then do
      let r ← gitStashPop (resolveDir args.directory cwd)
      pure (wrapResult r)
    else if name = "git-reset" then do
      let r ← gitReset (args.mode.getD "mixed") (args.target.getD "HEAD")
        (resolveDir args.directory cwd)
      pure (wrapResult r)
    else if name = "git-clone" then
      if !optTruthy args.url then GitM.throw ⟨"url parameter is required", "", "", false⟩
      else do
        let r ← gitClone (getStr args.url) (resolveDir args.directory cwd) args.targetDir
        pure (wrapResult r)
    else if name = "git-init" then do
      let r ← gitInit (resolveDir args.directory cwd)
      pure (wrapResult r)
    else if name = "git-remote-list" then do
      let r ← gitRemoteList (resolveDir args.directory cwd)
      pure (wrapResult r)
    else if name = "git-remote-add" then
      if !optTruthy args.name || !optTruthy args.url then
        GitM.throw ⟨"name and url parameters are required", "", "", false⟩
      else do
        let r ← gitRemoteAdd (getStr args.name) (getStr args.url)
          (resolveDir args.directory cwd)
        pure (wrapResult r)
    else if name = "git-remote-remove" then
      if !optTruthy args.name then GitM.throw ⟨"name parameter is required", "", "", false⟩
      else do
        let r ← gitRemoteRemove (getStr args.name) (resolveDir args.directory cwd)
        pure (wrapResult r)
    else if name = "git-remote-set-url" then
      if !optTruthy args.name || !optTruthy args.url then
        GitM.throw ⟨"name and url parameters are required", "", "", false⟩
      else do
        let r ← gitRemoteSetUrl (getStr args.name) (getStr args.url)
          (resolveDir args.directory cwd)
        pure (wrapResult r)
    else if name = "git-flow" then
      if !optTruthy args.message then GitM.throw ⟨"message parameter is required", "", "", false⟩
      else do
        let r ← gitFlow (getStr args.message) (resolveDir args.directory cwd)
        pure (wrapResult r)
    else if name = "git-quick-commit" then
      if !optTruthy args.message then GitM.throw ⟨"message parameter is required", "", "", false⟩
      else do
        let r ← gitQuickCommit (getStr args.message) (resolveDir args.directory cwd)
        pure (wrapResult r)
    else if name = "git-sync" then do
      let r ← gitSync (resolveDir args.directory cwd)
      pure (wrapResult r)
    else if name = "git-tag" then do
      let r ← gitTag (resolveDir args.directory cwd) args.action args.tagName args.message
      pure (wrapResult r)
    else if name = "git-merge" then do
      let r ← gitMerge (resolveDir args.directory cwd) args.branch args.strategy
      pure (wrapResult r)
    else if name = "git-rebase" then do
      let r ← gitRebase (resolveDir args.directory cwd) args.target args.interactive
      pure (wrapResult r)
    else if name = "git-cherry-pick" then do
      let r ← gitCherryPick (resolveDir args.directory cwd) args.commitHash
      pure (wrapResult r)
    else if name = "git-blame" then do
      let r ← gitBlame (resolveDir args.directory cwd) args.filePath args.lineRange
      pure (wrapResult r)
    else if name = "git-bisect" then do
      let r ← gitBisect (resolveDir args.directory cwd) args.action args.commit
      pure (wrapResult r)
    else GitM.throw ⟨"Unknown tool: " ++ name, "", "", false⟩)
    (fun e => pure ⟨stringifyFailure e.message, true⟩)

/-! Basic lemmas about the monad combinators and the string helpers. -/

theorem GitM.bind_def {α β : Type} (x : GitM α) (f : α → GitM β) :
    x >>= f = GitM.bind x f := rfl

theorem GitM.pure_def {α : Type} (a : α) : (Pure.pure a : GitM α) = GitM.pure a := rfl

theorem GitM.pure_apply {α : Type} (a : α) (sys : Sys) (tr : List Invocation) :
    GitM.pure a sys tr = (Except.ok a, tr) := rfl

theorem GitM.throw_apply {α : Type} (e : GitError) (sys : Sys) (tr : List Invocation) :
    (GitM.throw e : GitM α) sys tr = (Except.error e, tr) := rfl

theorem GitM.bind_apply {α β : Type} (x : GitM α) (f : α → GitM β) (sys : Sys)
    (tr : List Invocation) :
    GitM.bind x f sys tr =
      match x sys tr with
      | (Except.ok a, tr') => f a sys tr'
      | (Except.error e, tr') => (Except.error e, tr') := rfl

theorem GitM.tryCatch_apply {α : Type} (x : GitM α) (h : GitError → GitM α) (sys : Sys)
    (tr : List Invocation) :
    GitM.tryCatch x h sys tr =
      match x sys tr with
      | (Except.ok a, tr') => (Except.ok a, tr')
      | (Except.error e, tr') => h e sys tr' := rfl

theorem execAsync_apply (c d : String) (t : Nat) (sys : Sys) (tr : List Invocation) :
    execAsync c d t sys tr =
      match sys.exec c with
      | .ok r => (Except.ok r, tr ++ [⟨c, d, t⟩])
      | .err e =>
        (Except.error ⟨e.message, e.stdout, e.stderr, e.timedOut⟩, tr ++ [⟨c, d, t⟩]) := rfl

theorem str_data_append (a b : String) : (a ++ b).data = a.data ++ b.data := rfl

theorem hasPre_refl_append (p m : List Char) : hasPre p (p ++ m) = true := by
  induction p with
  | nil => rfl
  | cons c l ih => simp [hasPre, ih]

theorem hasPre_extend (p l m : List Char) (h : hasPre p l = true) :
    hasPre p (l ++ m) = true := by
  induction p generalizing l with
  | nil => rfl
  | cons c q ih =>
    cases l with
    | nil => simp [hasPre] at h
    | cons b l' =>
      simp only [hasPre, List.cons_append]
      simp only [hasPre] at h
      by_cases hc : c = b
      · simpa [hc] using ih l' (by simpa [hc] using h)
      · simp [hc] at h

theorem containsSeg_of_hasPre (p l : List Char) (h : hasPre p l = true) :
    containsSeg p l = true := by
  cases l with
  | nil =>
    simpa [containsSeg] using h
  | cons c l' => simp [containsSeg, h]

theorem containsSeg_append_left (p l m : List Char) (h : containsSeg p l = true) :
    containsSeg p (l ++ m) = true := by
  induction l with
  | nil =>
    simp only [containsSeg] at h
    exact containsSeg_of_hasPre _ _ (hasPre_extend _ _ _ h)
  | cons c l' ih =>
    simp only [containsSeg, Bool.or_eq_true] at h ⊢
    rcases h with h | h
    · exact Or.inl (by simpa using hasPre_extend _ _ m h)
    · exact Or.inr (ih h)

theorem containsSeg_append_right (p l m : List Char) (h : containsSeg p m = true) :
    containsSeg p (l ++ m) = true := by
  induction l with
  | nil => simpa using h
  | cons c l' ih => simp [containsSeg, ih]

theorem includes_append_left (a b p : String) (h : includes a p = true) :
    includes (a ++ b) p = true := by
  simpa [includes, str_data_append] using containsSeg_append_left _ _ _ h

theorem includes_append_right (a b p : String) (h : includes b p = true) :
    includes (a ++ b) p = true := by
  simpa [includes, str_data_append] using containsSeg_append_right _ _ _ h

theorem includes_pre_append (p s : String) : includes (p ++ s) p = true := by
  simpa [includes, str_data_append] using
    containsSeg_of_hasPre _ _ (hasPre_refl_append p.data s.data)

/-- A string with literal head `p` is distinct from any string `lit` that
`p` does not lead. -/
theorem append_ne_of_not_pre (p s lit : String) (h : hasPre p.data lit.data = false) :
    p ++ s ≠ lit := by
  intro he
  have hd : lit.data = p.data ++ s.data := by rw [← he, str_data_append]
  rw [hd, hasPre_refl_append] at h
  exact absurd h (by decide)

theorem ne_append_of_not_pre (p s lit : String) (h : hasPre p.data lit.data = false) :
    lit ≠ p ++ s := (append_ne_of_not_pre p s lit h).symm

/-- Two strings with incomparable literal heads are distinct. -/
theorem append_ne_append (p q s t : String) (h1 : hasPre p.data q.data = false)
    (h2 : hasPre q.data p.data = false) : p ++ s ≠ q ++ t := by
  intro he
  have hd : p.data ++ s.data = q.data ++ t.data := by
    rw [← str_data_append, ← str_data_append, he]
  rcases List.append_eq_append_iff.1 hd with ⟨a', ha, _⟩ | ⟨c', hc, _⟩
  · rw [ha, hasPre_refl_append] at h1
    exact absurd h1 (by decide)
  · rw [hc, hasPre_refl_append] at h2
    exact absurd h2 (by decide)

/-! A compositional bound on the subprocesses a program can spawn: `m` only
appends to the trace, and the appended command lines form (in order) a
sublist of `allowed`.  Together with `allowed.Nodup` this shows no command
line — in particular no failed one — is ever issued twice in one request. -/

def TraceOK {α : Type} (m : GitM α) (allowed : List String) : Prop :=
  ∀ sys tr, ∃ l, (m sys tr).2 = tr ++ l ∧ (l.map Invocation.command).Sublist allowed

theorem TraceOK.weaken {α : Type} {m : GitM α} {allowed allowed' : List String}
    (h : TraceOK m allowed) (hs : allowed.Sublist allowed') : TraceOK m allowed' := by
  intro sys tr
  obtain ⟨l, h1, h2⟩ := h sys tr
  exact ⟨l, h1, h2.trans hs⟩

theorem traceOK_pure {α : Type} (a : α) : TraceOK (GitM.pure a) [] := by
  intro sys tr
  exact ⟨[], by simp [GitM.pure], by simp⟩

theorem TraceOK.pure_any {α : Type} (a : α) (allowed : List String) :
    TraceOK (GitM.pure a) allowed :=
  (traceOK_pure a).weaken (List.nil_sublist _)

theorem traceOK_throw {α : Type} (e : GitError) (allowed : List String) :
    TraceOK (GitM.throw e : GitM α) allowed := by
  intro sys tr
  exact ⟨[], by simp [GitM.throw], by simp⟩

theorem traceOK_execAsync (c d : String) (t : Nat) : TraceOK (execAsync c d t) [c] := by
  intro sys tr
  refine ⟨[⟨c, d, t⟩], ?_, by simp⟩
  unfold execAsync
  cases sys.exec c <;> simp

theorem traceOK_fileExists (p : String) (allowed : List String) :
    TraceOK (fileExistsM p) allowed := by
  intro sys tr
  exact ⟨[], by simp [fileExistsM], by simp⟩

theorem TraceOK.bind {α β : Type} {x : GitM α} {f : α → GitM β} {l1 l2 : List String}
    (hx : TraceOK x l1) (hf : ∀ a, TraceOK (f a) l2) : TraceOK (GitM.bind x f) (l1 ++ l2) := by
  intro sys tr
  obtain ⟨l, h1, h2⟩ := hx sys tr
  unfold GitM.bind
  rcases hr : x sys tr with ⟨res, tr'⟩
  rw [hr] at h1
  simp only at h1
  subst h1
  cases res with
  | error e => exact ⟨l, rfl, h2.trans (List.sublist_append_left _ _)⟩
  | ok a =>
    obtain ⟨l', h1', h2'⟩ := hf a sys (tr ++ l)
    refine ⟨l ++ l', by simpa [List.append_assoc] using h1', ?_⟩
    rw [List.map_append]
    exact List.Sublist.append h2 h2'

theorem TraceOK.tryCatch {α : Type} {x : GitM α} {h : GitError → GitM α} {l1 l2 : List String}
    (hx : TraceOK x l1) (hh : ∀ e, TraceOK (h e) l2) :
    TraceOK (GitM.tryCatch x h) (l1 ++ l2) := by
  intro sys tr
  obtain ⟨l, h1, h2⟩ := hx sys tr
  unfold GitM.tryCatch
  rcases hr : x sys tr with ⟨res, tr'⟩
  rw [hr] at h1
  simp only at h1
  subst h1
  cases res with
  | ok a => exact ⟨l, rfl, h2.trans (List.sublist_append_left _ _)⟩
  | error e =>
    obtain ⟨l', h1', h2'⟩ := hh e sys (tr ++ l)
    refine ⟨l ++ l', by simpa [List.append_assoc] using h1', ?_⟩
    rw [List.map_append]
    exact List.Sublist.append h2 h2'

theorem TraceOK.ite {α : Type} (c : Prop) [Decidable c] {x y : GitM α} {l : List String}
    (hx : TraceOK x l) (hy : TraceOK y l) : TraceOK (if c then x else y) l := by
  by_cases h : c <;> simp [h, hx, hy]

theorem traceOK_executeGitCommand (c d : String) (t : Nat) :
    TraceOK (executeGitCommand c d t) [c] := by
  unfold executeGitCommand
  have h1 : TraceOK
      (if strStartsWith c "git " = true then execAsync c d t
       else GitM.throw ⟨"Invalid command: Only git commands are allowed", "", "", false⟩) [c] :=
    TraceOK.ite _ (traceOK_execAsync c d t) (traceOK_throw _ _)
  have := TraceOK.tryCatch h1 (fun e => traceOK_throw
    (⟨classifiedMessage t e, e.stdout, e.stderr, e.timedOut⟩ : GitError) [])
  simpa using this

theorem traceOK_isGitRepository (d : String) :
    TraceOK (isGitRepository d) ["git rev-parse --git-dir"] := by
  unfold isGitRepository
  simp only [GitM.bind_def, GitM.pure_def]
  have h1 := TraceOK.bind (traceOK_execAsync "git rev-parse --git-dir" d VALIDATION_TIMEOUT)
    (fun _ => traceOK_pure (α := Bool) true)
  have := TraceOK.tryCatch (by simpa using h1) (fun _ => traceOK_pure (α := Bool) false)
  simpa using this

theorem traceOK_checkFilesExist (d : String) (files : List String) :
    TraceOK (checkFilesExist d files) [] := by
  induction files with
  | nil => exact traceOK_pure _
  | cons f fs ih =>
    unfold checkFilesExist
    simp only [GitM.bind_def, GitM.pure_def]
    have := TraceOK.bind (f := fun ex => if ex = true then checkFilesExist d fs
        else GitM.throw ⟨"File does not exist: " ++ f, "", "", false⟩)
      (traceOK_fileExists (pathResolve d f) []) (fun a => TraceOK.ite _ ih (traceOK_throw _ _))
    simpa using this

/-- Bridge from `TraceOK` to the run-trace of a handler. -/
theorem nodup_traceCommands {α : Type} {m : GitM α} {allowed : List String}
    (h : TraceOK m allowed) (hn : allowed.Nodup) (sys : Sys) :
    (traceCommands m sys).Nodup := by
  obtain ⟨l, h1, h2⟩ := h sys []
  have : traceCommands m sys = l.map Invocation.command := by
    unfold traceCommands traceOf
    rw [h1]
    simp
  rw [this]
  exact h2.nodup hn

/-! Per-handler command menus: every run of a handler spawns a sublist (in
order) of its menu.  Each menu is proved duplicate-free below, which gives
the no-retry property for every operation. -/

def gitAddAllCmds : List String :=
  ["git rev-parse --git-dir", "git status --porcelain", "git add .",
   "git diff --cached --name-status"]

def gitAddCmds (files : List String) : List String :=
  ["git rev-parse --git-dir",
   "git add " ++ joinWith " " (files.map (fun f => "\"" ++ f ++ "\""))]

def gitRemoveCmds (file : String) : List String :=
  ["git rev-parse --git-dir", "git reset HEAD \"" ++ file ++ "\""]

def gitRemoveAllCmds : List String := ["git rev-parse --git-dir", "git reset HEAD ."]

def gitStatusCmds : List String :=
  ["git rev-parse --git-dir", "git remote get-url origin", "git branch --show-current",
   "git status --porcelain"]

def gitCommitCmds (message : String) : List String :=
  ["git rev-parse --git-dir", "git diff --cached --name-only",
   "git diff --cached --name-status", "git commit -m \"" ++ escapeMessage message ++ "\""]

def gitPushCmds : List String :=
  ["git rev-parse --git-dir", "git remote get-url origin", "git log @\x7bu\x7d..",
   "git branch --show-current", "git push"]

def gitPullCmds : List String := ["git rev-parse --git-dir", "git pull"]

def gitBranchCmds (branchName : Option String) : List String :=
  ["git rev-parse --git-dir",
   if optTruthy branchName then "git branch \"" ++ getStr branchName ++ "\""
   else "git branch -a"]

def gitCheckoutCmds (branchName : String) (createNew : Bool) : List String :=
  ["git rev-parse --git-dir",
   if createNew then "git checkout -b \"" ++ branchName ++ "\""
   else "git checkout \"" ++ branchName ++ "\""]

def gitLogCmds (maxCount : Nat) : List String :=
  ["git rev-parse --git-dir", "git log --oneline -" ++ toString maxCount]

def gitDiffCmds (target : Option String) : List String :=
  ["git rev-parse --git-dir",
   if optTruthy target then "git diff " ++ getStr target else "git diff"]

def gitStashCmds (message : Option String) : List String :=
  ["git rev-parse --git-dir",
   if optTruthy message then "git stash push -m \"" ++ getStr message ++ "\""
   else "git stash"]

def gitStashPopCmds : List String := ["git rev-parse --git-dir", "git stash pop"]

def gitResetCmds (mode target : String) : List String :=
  ["git rev-parse --git-dir", "git reset --" ++ mode ++ " " ++ target]

theorem traceOK_gitAddAll (d : String) : TraceOK (gitAddAll d) gitAddAllCmds := by
  unfold gitAddAll
  simp only [GitM.bind_def, GitM.pure_def]
  exact TraceOK.weaken
    (TraceOK.tryCatch
      (TraceOK.bind (traceOK_isGitRepository d) (fun repo =>
        TraceOK.ite _ ((traceOK_pure _).weaken (List.nil_sublist _))
          (TraceOK.bind (traceOK_executeGitCommand _ _ _) (fun statusResult =>
            TraceOK.ite _ ((traceOK_pure _).weaken (List.nil_sublist _))
              (TraceOK.bind (traceOK_executeGitCommand _ _ _) (fun _ =>
                TraceOK.tryCatch
                  (TraceOK.bind (traceOK_executeGitCommand _ _ _)
                    (fun statusAfter => traceOK_pure _))
                  (fun _ => traceOK_pure _)))))))
      (fun e => traceOK_pure _))
    (by
      simp only [List.append_nil, List.nil_append, List.cons_append, List.singleton_append]
      repeat first
        | exact List.Sublist.refl _
        | exact List.nil_sublist _
        | apply List.Sublist.cons₂
        | apply List.Sublist.cons)

theorem traceOK_gitAdd (files : List String) (d : String) :
    TraceOK (gitAdd files d) (gitAddCmds files) := by
  unfold gitAdd
  simp only [GitM.bind_def, GitM.pure_def]
  exact TraceOK.weaken
    (TraceOK.tryCatch
      (TraceOK.bind (traceOK_isGitRepository d) (fun repo =>
        TraceOK.ite _ (traceOK_throw _ _)
          (TraceOK.ite _ (traceOK_throw _ _)
            (TraceOK.bind (traceOK_checkFilesExist d files) (fun _ =>
              TraceOK.bind (traceOK_executeGitCommand _ _ _) (fun result => traceOK_pure _))))))
      (fun e => traceOK_pure _))
    (by
      simp only [List.append_nil, List.nil_append, List.cons_append, List.singleton_append]
      repeat first
        | exact List.Sublist.refl _
        | exact List.nil_sublist _
        | apply List.Sublist.cons₂
        | apply List.Sublist.cons)

theorem traceOK_gitRemove (file d : String) : TraceOK (gitRemove file d) (gitRemoveCmds file) := by
  unfold gitRemove
  simp only [GitM.bind_def, GitM.pure_def]
  exact TraceOK.weaken
    (TraceOK.tryCatch
      (TraceOK.bind (traceOK_isGitRepository d) (fun repo =>
        TraceOK.ite _ (traceOK_throw _ _)
          (TraceOK.bind (traceOK_executeGitCommand _ _ _) (fun result => traceOK_pure _))))
      (fun e => traceOK_pure _))
    (by
      simp only [List.append_nil, List.nil_append, List.cons_append, List.singleton_append]
      repeat first
        | exact List.Sublist.refl _
        | exact List.nil_sublist _
        | apply List.Sublist.cons₂
        | apply List.Sublist.cons)

theorem traceOK_gitRemoveAll (d : String) : TraceOK (gitRemoveAll d) gitRemoveAllCmds := by
  unfold gitRemoveAll
  simp only [GitM.bind_def, GitM.pure_def]
  exact TraceOK.weaken
    (TraceOK.tryCatch
      (TraceOK.bind (traceOK_isGitRepository d) (fun repo =>
        TraceOK.ite _ (traceOK_throw _ _)
          (TraceOK.bind (traceOK_executeGitCommand _ _ _) (fun result => traceOK_pure _))))
      (fun e => traceOK_pure _))
    (by
      simp only [List.append_nil, List.nil_append, List.cons_append, List.singleton_append]
      repeat first
        | exact List.Sublist.refl _
        | exact List.nil_sublist _
        | apply List.Sublist.cons₂
        | apply List.Sublist.cons)

theorem traceOK_gitStatus (d : String) : TraceOK (gitStatus d) gitStatusCmds := by
  unfold gitStatus
  simp only [GitM.bind_def, GitM.pure_def]
  exact TraceOK.weaken
    (TraceOK.tryCatch
      (TraceOK.bind (traceOK_isGitRepository d) (fun repo =>
        TraceOK.ite _ (traceOK_throw _ _)
          (TraceOK.bind
            (TraceOK.tryCatch
              (TraceOK.bind (traceOK_executeGitCommand _ _ _) (fun remoteResult =>
                TraceOK.tryCatch
                  (TraceOK.bind (traceOK_executeGitCommand _ _ _)
                    (fun branchResult => traceOK_pure _))
                  (fun _ => traceOK_pure _)))
              (fun _ => traceOK_pure _))
            (fun contextInfo =>
              TraceOK.bind (traceOK_executeGitCommand _ _ _) (fun result => traceOK_pure _)))))
      (fun e => traceOK_pure _))
    (by
      simp only [List.append_nil, List.nil_append, List.cons_append, List.singleton_append]
      repeat first
        | exact List.Sublist.refl _
        | exact List.nil_sublist _
        | apply List.Sublist.cons₂
        | apply List.Sublist.cons)

theorem traceOK_gitCommit (message d : String) :
    TraceOK (gitCommit message d) (gitCommitCmds message) := by
  unfold gitCommit
  simp only [GitM.bind_def, GitM.pure_def]
  exact TraceOK.weaken
    (TraceOK.tryCatch
      (TraceOK.bind (traceOK_isGitRepository d) (fun repo =>
        TraceOK.ite _ ((traceOK_pure _).weaken (List.nil_sublist _))
          (TraceOK.ite _ ((traceOK_pure _).weaken (List.nil_sublist _))
            (TraceOK.bind (traceOK_executeGitCommand _ _ _) (fun statusResult =>
              TraceOK.ite _ ((traceOK_pure _).weaken (List.nil_sublist _))
                (TraceOK.bind (traceOK_executeGitCommand _ _ _) (fun stagedFiles =>
                  TraceOK.bind (traceOK_executeGitCommand _ _ _)
                    (fun result => traceOK_pure _))))))))
      (fun e => traceOK_pure _))
    (by
      simp only [List.append_nil, List.nil_append, List.cons_append, List.singleton_append]
      repeat first
        | exact List.Sublist.refl _
        | exact List.nil_sublist _
        | apply List.Sublist.cons₂
        | apply List.Sublist.cons)

theorem traceOK_gitPush (d : String) : TraceOK (gitPush d) gitPushCmds := by
  unfold gitPush
  simp only [GitM.bind_def, GitM.pure_def]
  exact TraceOK.weaken
    (TraceOK.tryCatch
      (TraceOK.bind (traceOK_isGitRepository d) (fun repo =>
        TraceOK.ite _ ((traceOK_pure _).weaken (List.nil_sublist _))
          (TraceOK.bind
            (TraceOK.tryCatch
              (TraceOK.bind (traceOK_executeGitCommand _ _ _)
                (fun remoteResult => traceOK_pure _))
              (fun _ => traceOK_pure _))
            (fun remoteOpt =>
              match remoteOpt with
              | none => (traceOK_pure _).weaken (List.nil_sublist _)
              | some remoteInfo =>
                TraceOK.bind
                  (TraceOK.tryCatch
                    (TraceOK.bind (traceOK_executeGitCommand _ _ _)
                      (fun statusCheck => traceOK_pure _))
                    (fun _ => traceOK_pure _))
                  (fun aheadEmpty =>
                    TraceOK.ite _ ((traceOK_pure _).weaken (List.nil_sublist _))
                      (TraceOK.bind (traceOK_executeGitCommand _ _ _) (fun branchResult =>
                        TraceOK.bind (traceOK_executeGitCommand _ _ _)
                          (fun result => traceOK_pure _))))))))
      (fun e => traceOK_pure _))
    (by
      simp only [List.append_nil, List.nil_append, List.cons_append, List.singleton_append]
      repeat first
        | exact List.Sublist.refl _
        | exact List.nil_sublist _
        | apply List.Sublist.cons₂
        | apply List.Sublist.cons)

theorem traceOK_gitPull (d : String) : TraceOK (gitPull d) gitPullCmds := by
  unfold gitPull
  simp only [GitM.bind_def, GitM.pure_def]
  exact TraceOK.weaken
    (TraceOK.tryCatch
      (TraceOK.bind (traceOK_isGitRepository d) (fun repo =>
        TraceOK.ite _ (traceOK_throw _ _)
          (TraceOK.bind (traceOK_executeGitCommand _ _ _) (fun result => traceOK_pure _))))
      (fun e => traceOK_pure _))
    (by
      simp only [List.append_nil, List.nil_append, List.cons_append, List.singleton_append]
      repeat first
        | exact List.Sublist.refl _
        | exact List.nil_sublist _
        | apply List.Sublist.cons₂
        | apply List.Sublist.cons)

theorem traceOK_gitBranch (branchName : Option String) (d : String) :
    TraceOK (gitBranch branchName d) (gitBranchCmds branchName) := by
  unfold gitBranch
  simp only [GitM.bind_def, GitM.pure_def]
  exact TraceOK.weaken
    (TraceOK.tryCatch
      (TraceOK.bind (traceOK_isGitRepository d) (fun repo =>
        TraceOK.ite _ (traceOK_throw _ _)
          (TraceOK.bind (traceOK_executeGitCommand _ _ _) (fun result => traceOK_pure _))))
      (fun e => traceOK_pure _))
    (by
      simp only [List.append_nil, List.nil_append, List.cons_append, List.singleton_append]
      repeat first
        | exact List.Sublist.refl _
        | exact List.nil_sublist _
        | apply List.Sublist.cons₂
        | apply List.Sublist.cons)

theorem traceOK_gitCheckout (branchName : String) (createNew : Bool) (d : String) :
    TraceOK (gitCheckout branchName createNew d) (gitCheckoutCmds branchName createNew) := by
  unfold gitCheckout
  simp only [GitM.bind_def, GitM.pure_def]
  exact TraceOK.weaken
    (TraceOK.tryCatch
      (TraceOK.bind (traceOK_isGitRepository d) (fun repo =>
        TraceOK.ite _ (traceOK_throw _ _)
          (TraceOK.bind (traceOK_executeGitCommand _ _ _) (fun result => traceOK_pure _))))
      (fun e => traceOK_pure _))
    (by
      simp only [List.append_nil, List.nil_append, List.cons_append, List.singleton_append]
      repeat first
        | exact List.Sublist.refl _
        | exact List.nil_sublist _
        | apply List.Sublist.cons₂
        | apply List.Sublist.cons)

theorem traceOK_gitLog (maxCount : Nat) (d : String) :
    TraceOK (gitLog maxCount d) (gitLogCmds maxCount) := by
  unfold gitLog
  simp only [GitM.bind_def, GitM.pure_def]
  exact TraceOK.weaken
    (TraceOK.tryCatch
      (TraceOK.bind (traceOK_isGitRepository d) (fun repo =>
        TraceOK.ite _ (traceOK_throw _ _)
          (TraceOK.bind (traceOK_executeGitCommand _ _ _) (fun result => traceOK_pure _))))
      (fun e => traceOK_pure _))
    (by
      simp only [List.append_nil, List.nil_append, List.cons_append, List.singleton_append]
      repeat first
        | exact List.Sublist.refl _
        | exact List.nil_sublist _
        | apply List.Sublist.cons₂
        | apply List.Sublist.cons)

theorem traceOK_gitDiff (target : Option String) (d : String) :
    TraceOK (gitDiff target d) (gitDiffCmds target) := by
  unfold gitDiff
  simp only [GitM.bind_def, GitM.pure_def]
  exact TraceOK.weaken
    (TraceOK.tryCatch
      (TraceOK.bind (traceOK_isGitRepository d) (fun repo =>
        TraceOK.ite _ (traceOK_throw _ _)
          (TraceOK.bind (traceOK_executeGitCommand _ _ _) (fun result => traceOK_pure _))))
      (fun e => traceOK_pure _))
    (by
      simp only [List.append_nil, List.nil_append, List.cons_append, List.singleton_append]
      repeat first
        | exact List.Sublist.refl _
        | exact List.nil_sublist _
        | apply List.Sublist.cons₂
        | apply List.Sublist.cons)

theorem traceOK_gitStash (message : Option String) (d : String) :
    TraceOK (gitStash message d) (gitStashCmds message) := by
  unfold gitStash
  simp only [GitM.bind_def, GitM.pure_def]
  exact TraceOK.weaken
    (TraceOK.tryCatch
      (TraceOK.bind (traceOK_isGitRepository d) (fun repo =>
        TraceOK.ite _ (traceOK_throw _ _)
          (TraceOK.bind (traceOK_executeGitCommand _ _ _) (fun result => traceOK_pure _))))
      (fun e => traceOK_pure _))
    (by
      simp only [List.append_nil, List.nil_append, List.cons_append, List.singleton_append]
      repeat first
        | exact List.Sublist.refl _
        | exact List.nil_sublist _
        | apply List.Sublist.cons₂
        | apply List.Sublist.cons)

theorem traceOK_gitStashPop (d : String) : TraceOK (gitStashPop d) gitStashPopCmds := by
  unfold gitStashPop
  simp only [GitM.bind_def, GitM.pure_def]
  exact TraceOK.weaken
    (TraceOK.tryCatch
      (TraceOK.bind (traceOK_isGitRepository d) (fun repo =>
        TraceOK.ite _ (traceOK_throw _ _)
          (TraceOK.bind (traceOK_executeGitCommand _ _ _) (fun result => traceOK_pure _))))
      (fun e => traceOK_pure _))
    (by
      simp only [List.append_nil, List.nil_append, List.cons_append, List.singleton_append]
      repeat first
        | exact List.Sublist.refl _
        | exact List.nil_sublist _
        | apply List.Sublist.cons₂
        | apply List.Sublist.cons)

theorem traceOK_gitReset (mode target d : String) :
    TraceOK (gitReset mode target d) (gitResetCmds mode target) := by
  unfold gitReset
  simp only [GitM.bind_def, GitM.pure_def]
  exact TraceOK.ite _ ((traceOK_pure _).weaken (List.nil_sublist _))
    (TraceOK.weaken
      (TraceOK.tryCatch
        (TraceOK.bind (traceOK_isGitRepository d) (fun repo =>
          TraceOK.ite _ (traceOK_throw _ _)
            (TraceOK.bind (traceOK_executeGitCommand _ _ _) (fun result => traceOK_pure _))))
        (fun e => traceOK_pure _))
      (by
        simp only [List.append_nil, List.nil_append, List.cons_append, List.singleton_append]
        repeat first
          | exact List.Sublist.refl _
          | exact List.nil_sublist _
          | apply List.Sublist.cons₂
          | apply List.Sublist.cons))

def gitRemoteListCmds : List String := ["git rev-parse --git-dir", "git remote -v"]

def gitRemoteAddCmds (name url : String) : List String :=
  ["git rev-parse --git-dir", "git remote add \"" ++ name ++ "\" \"" ++ url ++ "\""]

def gitRemoteRemoveCmds (name : String) : List String :=
  ["git rev-parse --git-dir", "git remote remove \"" ++ name ++ "\""]

def gitRemoteSetUrlCmds (name url : String) : List String :=
  ["git rev-parse --git-dir", "git remote set-url \"" ++ name ++ "\" \"" ++ url ++ "\""]

def gitCloneCmds (url : String) (targetDir : Option String) : List String :=
  [if optTruthy targetDir then "git clone \"" ++ url ++ "\" \"" ++ getStr targetDir ++ "\""
   else "git clone \"" ++ url ++ "\""]

def gitInitCmds : List String := ["git rev-parse --git-dir", "git init"]

def gitFlowCmds (message : String) : List String :=
  ["git rev-parse --git-dir", "git remote get-url origin", "git branch --show-current",
   "git status --porcelain", "git add .", "git diff --cached --name-status",
   "git commit -m \"" ++ escapeMessage message ++ "\"", "git push"]

def gitQuickCommitCmds (message : String) : List String :=
  ["git rev-parse --git-dir", "git status --porcelain", "git add .",
   "git commit -m \"" ++ escapeMessage message ++ "\""]

def gitSyncCmds : List String := ["git rev-parse --git-dir", "git pull", "git push"]

def gitTagCmds (tagName message : Option String) : List String :=
  ["git rev-parse --git-dir", "git tag --sort=-version:refname",
   (if optTruthy message then
      "git tag -a \"" ++ getStr tagName ++ "\" -m \"" ++ getStr message ++ "\""
    else "git tag \"" ++ getStr tagName ++ "\""),
   "git tag -d \"" ++ getStr tagName ++ "\"",
   "git show \"" ++ getStr tagName ++ "\" --stat"]

def gitMergeCmds (branch strategy : Option String) : List String :=
  ["git rev-parse --git-dir", "git rev-parse --verify \"" ++ getStr branch ++ "\"",
   "git status --porcelain",
   "git merge \"" ++ getStr branch ++ "\"" ++
     (if optTruthy strategy then " --strategy=" ++ getStr strategy else ""),
   "git diff --name-only --diff-filter=U"]

def gitRebaseCmds (target : Option String) (interactive : Bool) : List String :=
  ["git rev-parse --git-dir", "git status --porcelain",
   (if interactive then
      "git rebase -i \"" ++ (if optTruthy target then getStr target else "HEAD~1") ++ "\""
    else "git rebase \"" ++ (if optTruthy target then getStr target else "HEAD~1") ++ "\""),
   "git diff --name-only --diff-filter=U"]

def gitCherryPickCmds (commitHash : Option String) : List String :=
  ["git rev-parse --git-dir", "git rev-parse --verify \"" ++ getStr commitHash ++ "\"",
   "git status --porcelain", "git cherry-pick \"" ++ getStr commitHash ++ "\"",
   "git diff --name-only --diff-filter=U"]

def gitBlameCmds (filePath lineRange : Option String) : List String :=
  ["git rev-parse --git-dir",
   "git blame \"" ++ getStr filePath ++ "\"" ++
     (if optTruthy lineRange then " -L " ++ getStr lineRange else "")]

def gitBisectCmds (commit : Option String) : List String :=
  ["git rev-parse --git-dir", "git bisect start",
   (if optTruthy commit then "git bisect bad \"" ++ getStr commit ++ "\""
    else "git bisect bad"),
   (if optTruthy commit then "git bisect good \"" ++ getStr commit ++ "\""
    else "git bisect good"),
   "git bisect reset", "git bisect log"]

theorem traceOK_gitRemoteList (d : String) : TraceOK (gitRemoteList d) gitRemoteListCmds := by
  unfold gitRemoteList
  simp only [GitM.bind_def, GitM.pure_def]
  exact TraceOK.weaken
    (TraceOK.tryCatch
      (TraceOK.bind (traceOK_isGitRepository d) (fun repo =>
        TraceOK.ite _ (traceOK_throw _ _)
          (TraceOK.bind (traceOK_executeGitCommand _ _ _) (fun result => traceOK_pure _))))
      (fun e => traceOK_pure _))
    (by
      simp only [List.append_nil, List.nil_append, List.cons_append, List.singleton_append]
      repeat first
        | exact List.Sublist.refl _
        | exact List.nil_sublist _
        | apply List.Sublist.cons₂
        | apply List.Sublist.cons)

theorem traceOK_gitRemoteAdd (name url d : String) :
    TraceOK (gitRemoteAdd name url d) (gitRemoteAddCmds name url) := by
  unfold gitRemoteAdd
  simp only [GitM.bind_def, GitM.pure_def]
  exact TraceOK.weaken
    (TraceOK.tryCatch
      (TraceOK.bind (traceOK_isGitRepository d) (fun repo =>
        TraceOK.ite _ (traceOK_throw _ _)
          (TraceOK.ite _ (traceOK_throw _ _)
            (TraceOK.ite _ (traceOK_throw _ _)
              (TraceOK.bind (traceOK_executeGitCommand _ _ _) (fun _ => traceOK_pure _))))))
      (fun e => traceOK_pure _))
    (by
      simp only [List.append_nil, List.nil_append, List.cons_append, List.singleton_append]
      repeat first
        | exact List.Sublist.refl _
        | exact List.nil_sublist _
        | apply List.Sublist.cons₂
        | apply List.Sublist.cons)

theorem traceOK_gitRemoteRemove (name d : String) :
    TraceOK (gitRemoteRemove name d) (gitRemoteRemoveCmds name) := by
  unfold gitRemoteRemove
  simp only [GitM.bind_def, GitM.pure_def]
  exact TraceOK.weaken
    (TraceOK.tryCatch
      (TraceOK.bind (traceOK_isGitRepository d) (fun repo =>
        TraceOK.ite _ (traceOK_throw _ _)
          (TraceOK.ite _ (traceOK_throw _ _)
            (TraceOK.bind (traceOK_executeGitCommand _ _ _) (fun _ => traceOK_pure _)))))
      (fun e => traceOK_pure _))
    (by
      simp only [List.append_nil, List.nil_append, List.cons_append, List.singleton_append]
      repeat first
        | exact List.Sublist.refl _
        | exact List.nil_sublist _
        | apply List.Sublist.cons₂
        | apply List.Sublist.cons)

theorem traceOK_gitRemoteSetUrl (name url d : String) :
    TraceOK (gitRemoteSetUrl name url d) (gitRemoteSetUrlCmds name url) := by
  unfold gitRemoteSetUrl
  simp only [GitM.bind_def, GitM.pure_def]
  exact TraceOK.weaken
    (TraceOK.tryCatch
      (TraceOK.bind (traceOK_isGitRepository d) (fun repo =>
        TraceOK.ite _ (traceOK_throw _ _)
          (TraceOK.ite _ (traceOK_throw _ _)
            (TraceOK.ite _ (traceOK_throw _ _)
              (TraceOK.bind (traceOK_executeGitCommand _ _ _) (fun _ => traceOK_pure _))))))
      (fun e => traceOK_pure _))
    (by
      simp only [List.append_nil, List.nil_append, List.cons_append, List.singleton_append]
      repeat first
        | exact List.Sublist.refl _
        | exact List.nil_sublist _
        | apply List.Sublist.cons₂
        | apply List.Sublist.cons)

theorem traceOK_gitClone (url d : String) (targetDir : Option String) :
    TraceOK (gitClone url d targetDir) (gitCloneCmds url targetDir) := by
  unfold gitClone
  simp only [GitM.bind_def, GitM.pure_def]
  exact TraceOK.weaken
    (TraceOK.tryCatch
      (TraceOK.bind (traceOK_executeGitCommand _ _ _) (fun result => traceOK_pure _))
      (fun e => traceOK_pure _))
    (by
      simp only [List.append_nil, List.nil_append, List.cons_append, List.singleton_append]
      repeat first
        | exact List.Sublist.refl _
        | exact List.nil_sublist _
        | apply List.Sublist.cons₂
        | apply List.Sublist.cons)

theorem traceOK_gitInit (d : String) : TraceOK (gitInit d) gitInitCmds := by
  unfold gitInit
  simp only [GitM.bind_def, GitM.pure_def]
  exact TraceOK.weaken
    (TraceOK.tryCatch
      (TraceOK.bind (traceOK_isGitRepository d) (fun repo =>
        TraceOK.ite _ ((traceOK_pure _).weaken (List.nil_sublist _))
          (TraceOK.bind (traceOK_executeGitCommand _ _ _) (fun result => traceOK_pure _))))
      (fun e => traceOK_pure _))
    (by
      simp only [List.append_nil, List.nil_append, List.cons_append, List.singleton_append]
      repeat first
        | exact List.Sublist.refl _
        | exact List.nil_sublist _
        | apply List.Sublist.cons₂
        | apply List.Sublist.cons)

theorem traceOK_gitFlow (message d : String) :
    TraceOK (gitFlow message d) (gitFlowCmds message) := by
  unfold gitFlow
  simp only [GitM.bind_def, GitM.pure_def]
  exact TraceOK.weaken
    (TraceOK.tryCatch
      (TraceOK.bind (traceOK_isGitRepository d) (fun repo =>
        TraceOK.ite _ ((traceOK_pure _).weaken (List.nil_sublist _))
          (TraceOK.ite _ ((traceOK_pure _).weaken (List.nil_sublist _))
            (TraceOK.bind
              (TraceOK.tryCatch
                (TraceOK.bind (traceOK_executeGitCommand _ _ _) (fun remoteResult =>
                  TraceOK.bind (traceOK_executeGitCommand _ _ _)
                    (fun branchResult => traceOK_pure _)))
                (fun _ => traceOK_pure _))
              (fun remoteBranch =>
                match remoteBranch with
                | none => (traceOK_pure _).weaken (List.nil_sublist _)
                | some (remoteInfo, currentBranch) =>
                  TraceOK.bind (traceOK_executeGitCommand _ _ _) (fun statusResult =>
                    TraceOK.ite _ ((traceOK_pure _).weaken (List.nil_sublist _))
                      (TraceOK.bind (traceOK_executeGitCommand _ _ _) (fun _ =>
                        TraceOK.bind (traceOK_executeGitCommand _ _ _) (fun stagedResult =>
                          TraceOK.bind (traceOK_executeGitCommand _ _ _) (fun commitResult =>
                            TraceOK.bind (traceOK_executeGitCommand _ _ _)
                              (fun pushResult => traceOK_pure _)))))))))))
      (fun e =>
        TraceOK.ite _ (traceOK_pure _)
          (TraceOK.ite _ (traceOK_pure _)
            (TraceOK.ite _ (traceOK_pure _) (traceOK_pure _)))))
    (by
      simp only [List.append_nil, List.nil_append, List.cons_append, List.singleton_append]
      repeat first
        | exact List.Sublist.refl _
        | exact List.nil_sublist _
        | apply List.Sublist.cons₂
        | apply List.Sublist.cons)

theorem traceOK_gitQuickCommit (message d : String) :
    TraceOK (gitQuickCommit message d) (gitQuickCommitCmds message) := by
  unfold gitQuickCommit
  simp only [GitM.bind_def, GitM.pure_def]
  exact TraceOK.weaken
    (TraceOK.tryCatch
      (TraceOK.bind (traceOK_isGitRepository d) (fun repo =>
        TraceOK.ite _ ((traceOK_pure _).weaken (List.nil_sublist _))
          (TraceOK.ite _ ((traceOK_pure _).weaken (List.nil_sublist _))
            (TraceOK.bind (traceOK_executeGitCommand _ _ _) (fun statusResult =>
              TraceOK.ite _ ((traceOK_pure _).weaken (List.nil_sublist _))
                (TraceOK.bind (traceOK_executeGitCommand _ _ _) (fun _ =>
                  TraceOK.bind (traceOK_executeGitCommand _ _ _)
                    (fun commitResult => traceOK_pure _))))))))
      (fun e => traceOK_pure _))
    (by
      simp only [List.append_nil, List.nil_append, List.cons_append, List.singleton_append]
      repeat first
        | exact List.Sublist.refl _
        | exact List.nil_sublist _
        | apply List.Sublist.cons₂
        | apply List.Sublist.cons)

theorem traceOK_gitSync (d : String) : TraceOK (gitSync d) gitSyncCmds := by
  unfold gitSync
  simp only [GitM.bind_def, GitM.pure_def]
  exact TraceOK.weaken
    (TraceOK.tryCatch
      (TraceOK.bind (traceOK_isGitRepository d) (fun repo =>
        TraceOK.ite _ ((traceOK_pure _).weaken (List.nil_sublist _))
          (TraceOK.bind (traceOK_executeGitCommand _ _ _) (fun pullResult =>
            TraceOK.bind
              (TraceOK.tryCatch
                (TraceOK.bind (traceOK_executeGitCommand _ _ _)
                  (fun pushResult => traceOK_pure _))
                (fun pushError =>
                  TraceOK.ite _ (traceOK_pure _) (traceOK_throw _ _)))
              (fun log2 => traceOK_pure _)))))
      (fun e => traceOK_pure _))
    (by
      simp only [List.append_nil, List.nil_append, List.cons_append, List.singleton_append]
      repeat first
        | exact List.Sublist.refl _
        | exact List.nil_sublist _
        | apply List.Sublist.cons₂
        | apply List.Sublist.cons)

theorem traceOK_gitTag (d : String) (action tagName message : Option String) :
    TraceOK (gitTag d action tagName message) (gitTagCmds tagName message) := by
  unfold gitTag
  simp only [GitM.bind_def, GitM.pure_def]
  have subtac : ∀ l : List String, l.Sublist (gitTagCmds tagName message) →
      l.Sublist (gitTagCmds tagName message) := fun _ h => h
  cases action with
  | none =>
    exact TraceOK.weaken
      (TraceOK.tryCatch
        (TraceOK.bind (traceOK_isGitRepository d) (fun _ =>
          TraceOK.ite _ ((traceOK_pure _).weaken (List.nil_sublist _))
            (TraceOK.bind (traceOK_executeGitCommand _ _ _) (fun listResult => traceOK_pure _))))
        (fun e => traceOK_pure _))
      (by
        simp only [List.append_nil, List.nil_append, List.cons_append, List.singleton_append,
          gitTagCmds]
        repeat first
          | exact List.Sublist.refl _
          | exact List.nil_sublist _
          | apply List.Sublist.cons₂
          | apply List.Sublist.cons)
  | some a =>
    by_cases h1 : a = "list"
    · simp only [h1, if_true, eq_self_iff_true, if_pos]
      exact TraceOK.weaken
        (TraceOK.tryCatch
          (TraceOK.bind (traceOK_isGitRepository d) (fun _ =>
            TraceOK.ite _ ((traceOK_pure _).weaken (List.nil_sublist _))
              (TraceOK.bind (traceOK_executeGitCommand _ _ _)
                (fun listResult => traceOK_pure _))))
          (fun e => traceOK_pure _))
        (by
          simp only [List.append_nil, List.nil_append, List.cons_append, List.singleton_append,
            gitTagCmds]
          repeat first
            | exact List.Sublist.refl _
            | exact List.nil_sublist _
            | apply List.Sublist.cons₂
            | apply List.Sublist.cons)
    · simp only [if_neg h1]
      by_cases h2 : a = "create"
      · simp only [if_pos h2]
        exact TraceOK.weaken
          (TraceOK.tryCatch
            (TraceOK.bind (traceOK_isGitRepository d) (fun _ =>
              TraceOK.ite _ ((traceOK_pure _).weaken (List.nil_sublist _))
                (TraceOK.ite _ ((traceOK_pure _).weaken (List.nil_sublist _))
                  (TraceOK.bind (traceOK_executeGitCommand _ _ _) (fun _ => traceOK_pure _)))))
            (fun e => traceOK_pure _))
          (by
            simp only [List.append_nil, List.nil_append, List.cons_append,
              List.singleton_append, gitTagCmds]
            repeat first
              | exact List.Sublist.refl _
              | exact List.nil_sublist _
              | apply List.Sublist.cons₂
              | apply List.Sublist.cons)
      · simp only [if_neg h2]
        by_cases h3 : a = "delete"
        · simp only [if_pos h3]
          exact TraceOK.weaken
            (TraceOK.tryCatch
              (TraceOK.bind (traceOK_isGitRepository d) (fun _ =>
                TraceOK.ite _ ((traceOK_pure _).weaken (List.nil_sublist _))
                  (TraceOK.ite _ ((traceOK_pure _).weaken (List.nil_sublist _))
                    (TraceOK.bind (traceOK_executeGitCommand _ _ _) (fun _ => traceOK_pure _)))))
              (fun e => traceOK_pure _))
            (by
              simp only [List.append_nil, List.nil_append, List.cons_append,
                List.singleton_append, gitTagCmds]
              repeat first
                | exact List.Sublist.refl _
                | exact List.nil_sublist _
                | apply List.Sublist.cons₂
                | apply List.Sublist.cons)
        · simp only [if_neg h3]
          by_cases h4 : a = "show"
          · simp only [if_pos h4]
            exact TraceOK.weaken
              (TraceOK.tryCatch
                (TraceOK.bind (traceOK_isGitRepository d) (fun _ =>
                  TraceOK.ite _ ((traceOK_pure _).weaken (List.nil_sublist _))
                    (TraceOK.ite _ ((traceOK_pure _).weaken (List.nil_sublist _))
                      (TraceOK.bind (traceOK_executeGitCommand _ _ _)
                        (fun showResult => traceOK_pure _)))))
                (fun e => traceOK_pure _))
              (by
                simp only [List.append_nil, List.nil_append, List.cons_append,
                  List.singleton_append, gitTagCmds]
                repeat first
                  | exact List.Sublist.refl _
                  | exact List.nil_sublist _
                  | apply List.Sublist.cons₂
                  | apply List.Sublist.cons)
          · simp only [if_neg h4]
            exact TraceOK.weaken
              (TraceOK.tryCatch
                (TraceOK.bind (traceOK_isGitRepository d) (fun _ =>
                  TraceOK.ite _ ((traceOK_pure _).weaken (List.nil_sublist _))
                    ((traceOK_pure _).weaken (List.nil_sublist _))))
                (fun e => traceOK_pure _))
              (by
                simp only [List.append_nil, List.nil_append, List.cons_append,
                  List.singleton_append, gitTagCmds]
                repeat first
                  | exact List.Sublist.refl _
                  | exact List.nil_sublist _
                  | apply List.Sublist.cons₂
                  | apply List.Sublist.cons)

theorem traceOK_gitMerge (d : String) (branch strategy : Option String) :
    TraceOK (gitMerge d branch strategy) (gitMergeCmds branch strategy) := by
  unfold gitMerge
  simp only [GitM.bind_def, GitM.pure_def]
  exact TraceOK.weaken
    (TraceOK.tryCatch
      (TraceOK.bind (traceOK_isGitRepository d) (fun _ =>
        TraceOK.ite _ ((traceOK_pure _).weaken (List.nil_sublist _))
          (TraceOK.ite _ ((traceOK_pure _).weaken (List.nil_sublist _))
            (TraceOK.bind
              (TraceOK.tryCatch
                (TraceOK.bind (traceOK_executeGitCommand _ _ _) (fun _ => traceOK_pure _))
                (fun _ => traceOK_pure _))
              (fun branchExists =>
                TraceOK.ite _ ((traceOK_pure _).weaken (List.nil_sublist _))
                  (TraceOK.bind (traceOK_executeGitCommand _ _ _) (fun statusResult =>
                    TraceOK.ite _ ((traceOK_pure _).weaken (List.nil_sublist _))
                      (TraceOK.tryCatch
                        (TraceOK.bind (traceOK_executeGitCommand _ _ _)
                          (fun mergeResult => traceOK_pure _))
                        (fun mergeError =>
                          TraceOK.ite _
                            (TraceOK.bind (traceOK_executeGitCommand _ _ _)
                              (fun conflictFiles => traceOK_pure _))
                            ((traceOK_throw _ _).weaken (List.nil_sublist _)))))))))))
      (fun e => traceOK_pure _))
    (by
      simp only [List.append_nil, List.nil_append, List.cons_append, List.singleton_append]
      repeat first
        | exact List.Sublist.refl _
        | exact List.nil_sublist _
        | apply List.Sublist.cons₂
        | apply List.Sublist.cons)

theorem traceOK_gitRebase (d : String) (target : Option String) (interactive : Bool) :
    TraceOK (gitRebase d target interactive) (gitRebaseCmds target interactive) := by
  unfold gitRebase
  simp only [GitM.bind_def, GitM.pure_def]
  exact TraceOK.weaken
    (TraceOK.tryCatch
      (TraceOK.bind (traceOK_isGitRepository d) (fun _ =>
        TraceOK.ite _ ((traceOK_pure _).weaken (List.nil_sublist _))
          (TraceOK.bind (traceOK_executeGitCommand _ _ _) (fun statusResult =>
            TraceOK.ite _ ((traceOK_pure _).weaken (List.nil_sublist _))
              (TraceOK.tryCatch
                (TraceOK.bind (traceOK_executeGitCommand _ _ _)
                  (fun rebaseResult => traceOK_pure _))
                (fun rebaseError =>
                  TraceOK.ite _
                    (TraceOK.bind (traceOK_executeGitCommand _ _ _)
                      (fun conflictFiles => traceOK_pure _))
                    ((traceOK_throw _ _).weaken (List.nil_sublist _))))))))
      (fun e => traceOK_pure _))
    (by
      simp only [List.append_nil, List.nil_append, List.cons_append, List.singleton_append]
      repeat first
        | exact List.Sublist.refl _
        | exact List.nil_sublist _
        | apply List.Sublist.cons₂
        | apply List.Sublist.cons)

theorem traceOK_gitCherryPick (d : String) (commitHash : Option String) :
    TraceOK (gitCherryPick d commitHash) (gitCherryPickCmds commitHash) := by
  unfold gitCherryPick
  simp only [GitM.bind_def, GitM.pure_def]
  exact TraceOK.weaken
    (TraceOK.tryCatch
      (TraceOK.bind (traceOK_isGitRepository d) (fun _ =>
        TraceOK.ite _ ((traceOK_pure _).weaken (List.nil_sublist _))
          (TraceOK.ite _ ((traceOK_pure _).weaken (List.nil_sublist _))
            (TraceOK.bind
              (TraceOK.tryCatch
                (TraceOK.bind (traceOK_executeGitCommand _ _ _) (fun _ => traceOK_pure _))
                (fun _ => traceOK_pure _))
              (fun commitExists =>
                TraceOK.ite _ ((traceOK_pure _).weaken (List.nil_sublist _))
                  (TraceOK.bind (traceOK_executeGitCommand _ _ _) (fun statusResult =>
                    TraceOK.ite _ ((traceOK_pure _).weaken (List.nil_sublist _))
                      (TraceOK.bind (traceOK_executeGitCommand _ _ _)
                        (fun cherryPickResult => traceOK_pure _)))))))))
      (fun e =>
        TraceOK.ite _
          (TraceOK.bind (traceOK_executeGitCommand _ _ _) (fun conflictFiles => traceOK_pure _))
          ((traceOK_pure _).weaken (List.nil_sublist _))))
    (by
      simp only [List.append_nil, List.nil_append, List.cons_append, List.singleton_append]
      repeat first
        | exact List.Sublist.refl _
        | exact List.nil_sublist _
        | apply List.Sublist.cons₂
        | apply List.Sublist.cons)

theorem traceOK_gitBlame (d : String) (filePath lineRange : Option String) :
    TraceOK (gitBlame d filePath lineRange) (gitBlameCmds filePath lineRange) := by
  unfold gitBlame
  simp only [GitM.bind_def, GitM.pure_def]
  exact TraceOK.weaken
    (TraceOK.tryCatch
      (TraceOK.bind (traceOK_isGitRepository d) (fun _ =>
        TraceOK.ite _ ((traceOK_pure _).weaken (List.nil_sublist _))
          (TraceOK.ite _ ((traceOK_pure _).weaken (List.nil_sublist _))
            (TraceOK.bind (traceOK_fileExists _ []) (fun ex =>
              TraceOK.ite _ ((traceOK_pure _).weaken (List.nil_sublist _))
                (TraceOK.bind (traceOK_executeGitCommand _ _ _)
                  (fun blameResult => traceOK_pure _)))))))
      (fun e => traceOK_pure _))
    (by
      simp only [List.append_nil, List.nil_append, List.cons_append, List.singleton_append]
      repeat first
        | exact List.Sublist.refl _
        | exact List.nil_sublist _
        | apply List.Sublist.cons₂
        | apply List.Sublist.cons)

theorem traceOK_gitBisect (d : String) (action commit : Option String) :
    TraceOK (gitBisect d action commit) (gitBisectCmds commit) := by
  unfold gitBisect
  simp only [GitM.bind_def, GitM.pure_def]
  cases action with
  | none =>
    exact TraceOK.weaken
      (TraceOK.tryCatch
        (TraceOK.bind (traceOK_isGitRepository d) (fun _ =>
          TraceOK.ite _ ((traceOK_pure _).weaken (List.nil_sublist _))
            ((traceOK_pure _).weaken (List.nil_sublist _))))
        (fun e => traceOK_pure _))
      (by
        simp only [List.append_nil, List.nil_append, List.cons_append, List.singleton_append,
          gitBisectCmds]
        repeat first
          | exact List.Sublist.refl _
          | exact List.nil_sublist _
          | apply List.Sublist.cons₂
          | apply List.Sublist.cons)
  | some a =>
    by_cases h1 : a = "start"
    case pos =>
      simp only [if_pos h1]
      exact TraceOK.weaken
        (TraceOK.tryCatch
          (TraceOK.bind (traceOK_isGitRepository d) (fun _ =>
            TraceOK.ite _ ((traceOK_pure _).weaken (List.nil_sublist _))
              (TraceOK.bind (traceOK_executeGitCommand _ _ _)
                (fun bisectResult => traceOK_pure _))))
          (fun e => traceOK_pure _))
        (by
          simp only [List.append_nil, List.nil_append, List.cons_append, List.singleton_append,
            gitBisectCmds]
          repeat first
            | exact List.Sublist.refl _
            | exact List.nil_sublist _
            | apply List.Sublist.cons₂
            | apply List.Sublist.cons)
    case neg =>
    simp only [if_neg h1]
    by_cases h2 : a = "bad"
    case pos =>
      simp only [if_pos h2]
      exact TraceOK.weaken
        (TraceOK.tryCatch
          (TraceOK.bind (traceOK_isGitRepository d) (fun _ =>
            TraceOK.ite _ ((traceOK_pure _).weaken (List.nil_sublist _))
              (TraceOK.bind (traceOK_executeGitCommand _ _ _)
                (fun bisectResult => traceOK_pure _))))
          (fun e => traceOK_pure _))
        (by
          simp only [List.append_nil, List.nil_append, List.cons_append, List.singleton_append,
            gitBisectCmds]
          repeat first
            | exact List.Sublist.refl _
            | exact List.nil_sublist _
            | apply List.Sublist.cons₂
            | apply List.Sublist.cons)
    case neg =>
    simp only [if_neg h2]
    by_cases h3 : a = "good"
    case pos =>
      simp only [if_pos h3]
      exact TraceOK.weaken
        (TraceOK.tryCatch
          (TraceOK.bind (traceOK_isGitRepository d) (fun _ =>
            TraceOK.ite _ ((traceOK_pure _).weaken (List.nil_sublist _))
              (TraceOK.bind (traceOK_executeGitCommand _ _ _)
                (fun bisectResult => traceOK_pure _))))
          (fun e => traceOK_pure _))
        (by
          simp only [List.append_nil, List.nil_append, List.cons_append, List.singleton_append,
            gitBisectCmds]
          repeat first
            | exact List.Sublist.refl _
            | exact List.nil_sublist _
            | apply List.Sublist.cons₂
            | apply List.Sublist.cons)
    case neg =>
    simp only [if_neg h3]
    by_cases h4 : a = "reset"
    case pos =>
      simp only [if_pos h4]
      exact TraceOK.weaken
        (TraceOK.tryCatch
          (TraceOK.bind (traceOK_isGitRepository d) (fun _ =>
            TraceOK.ite _ ((traceOK_pure _).weaken (List.nil_sublist _))
              (TraceOK.bind (traceOK_executeGitCommand _ _ _)
                (fun bisectResult => traceOK_pure _))))
          (fun e => traceOK_pure _))
        (by
          simp only [List.append_nil, List.nil_append, List.cons_append, List.singleton_append,
            gitBisectCmds]
          repeat first
            | exact List.Sublist.refl _
            | exact List.nil_sublist _
            | apply List.Sublist.cons₂
            | apply List.Sublist.cons)
    case neg =>
    simp only [if_neg h4]
    by_cases h5 : a = "status"
    case pos =>
      simp only [if_pos h5]
      exact TraceOK.weaken
        (TraceOK.tryCatch
          (TraceOK.bind (traceOK_isGitRepository d) (fun _ =>
            TraceOK.ite _ ((traceOK_pure _).weaken (List.nil_sublist _))
              (TraceOK.bind (traceOK_executeGitCommand _ _ _)
                (fun bisectResult => traceOK_pure _))))
          (fun e => traceOK_pure _))
        (by
          simp only [List.append_nil, List.nil_append, List.cons_append, List.singleton_append,
            gitBisectCmds]
          repeat first
            | exact List.Sublist.refl _
            | exact List.nil_sublist _
            | apply List.Sublist.cons₂
            | apply List.Sublist.cons)
    case neg =>
    simp only [if_neg h5]
    exact TraceOK.weaken
      (TraceOK.tryCatch
        (TraceOK.bind (traceOK_isGitRepository d) (fun _ =>
          TraceOK.ite _ ((traceOK_pure _).weaken (List.nil_sublist _))
            ((traceOK_pure _).weaken (List.nil_sublist _))))
        (fun e => traceOK_pure _))
      (by
        simp only [List.append_nil, List.nil_append, List.cons_append, List.singleton_append,
          gitBisectCmds]
        repeat first
          | exact List.Sublist.refl _
          | exact List.nil_sublist _
          | apply List.Sublist.cons₂
          | apply List.Sublist.cons)

theorem str_append_assoc (a b c : String) : (a ++ b) ++ c = a ++ (b ++ c) :=
  String.ext (by simp only [str_data_append, List.append_assoc])

/-! Each command menu is duplicate-free. -/

theorem gitAddAllCmds_nodup : gitAddAllCmds.Nodup := by decide

theorem gitAddCmds_nodup (files : List String) : (gitAddCmds files).Nodup := by
  simp only [gitAddCmds, str_append_assoc, List.nodup_cons, List.mem_cons, List.mem_singleton,
    List.not_mem_nil, not_or, List.nodup_nil, and_true, not_false_iff]
  repeat' apply And.intro
  all_goals first
    | decide
    | (apply ne_append_of_not_pre; decide)
    | (apply append_ne_of_not_pre; decide)
    | (apply append_ne_append <;> decide)

theorem gitRemoveCmds_nodup (file : String) : (gitRemoveCmds file).Nodup := by
  simp only [gitRemoveCmds, str_append_assoc, List.nodup_cons, List.mem_cons,
    List.mem_singleton, List.not_mem_nil, not_or, List.nodup_nil, and_true, not_false_iff]
  repeat' apply And.intro
  all_goals first
    | decide
    | (apply ne_append_of_not_pre; decide)
    | (apply append_ne_of_not_pre; decide)
    | (apply append_ne_append <;> decide)

theorem gitRemoveAllCmds_nodup : gitRemoveAllCmds.Nodup := by decide

theorem gitStatusCmds_nodup : gitStatusCmds.Nodup := by decide

theorem gitCommitCmds_nodup (message : String) : (gitCommitCmds message).Nodup := by
  simp only [gitCommitCmds, str_append_assoc, List.nodup_cons, List.mem_cons,
    List.mem_singleton, List.not_mem_nil, not_or, List.nodup_nil, and_true, not_false_iff]
  repeat' apply And.intro
  all_goals first
    | decide
    | (apply ne_append_of_not_pre; decide)
    | (apply append_ne_of_not_pre; decide)
    | (apply append_ne_append <;> decide)

theorem gitPushCmds_nodup : gitPushCmds.Nodup := by decide

theorem gitPullCmds_nodup : gitPullCmds.Nodup := by decide

theorem gitBranchCmds_nodup (branchName : Option String) : (gitBranchCmds branchName).Nodup := by
  by_cases h : optTruthy branchName = true <;>
    simp only [gitBranchCmds, h, if_true, if_false, Bool.not_eq_true, if_neg, if_pos,
      str_append_assoc, List.nodup_cons, List.mem_cons, List.mem_singleton, List.not_mem_nil,
      not_or, List.nodup_nil, and_true, not_false_iff] <;>
  repeat' apply And.intro
  all_goals first
    | decide
    | (apply ne_append_of_not_pre; decide)
    | (apply append_ne_of_not_pre; decide)
    | (apply append_ne_append <;> decide)

theorem gitCheckoutCmds_nodup (branchName : String) (createNew : Bool) :
    (gitCheckoutCmds branchName createNew).Nodup := by
  by_cases h : createNew = true <;>
    simp only [gitCheckoutCmds, h, if_true, if_false, Bool.not_eq_true, if_neg, if_pos,
      str_append_assoc, List.nodup_cons, List.mem_cons, List.mem_singleton, List.not_mem_nil,
      not_or, List.nodup_nil, and_true, not_false_iff] <;>
  repeat' apply And.intro
  all_goals first
    | decide
    | (apply ne_append_of_not_pre; decide)
    | (apply append_ne_of_not_pre; decide)
    | (apply append_ne_append <;> decide)

theorem gitLogCmds_nodup (maxCount : Nat) : (gitLogCmds maxCount).Nodup := by
  simp only [gitLogCmds, str_append_assoc, List.nodup_cons, List.mem_cons, List.mem_singleton,
    List.not_mem_nil, not_or, List.nodup_nil, and_true, not_false_iff]
  repeat' apply And.intro
  all_goals first
    | decide
    | (apply ne_append_of_not_pre; decide)
    | (apply append_ne_of_not_pre; decide)
    | (apply append_ne_append <;> decide)

theorem gitDiffCmds_nodup (target : Option String) : (gitDiffCmds target).Nodup := by
  by_cases h : optTruthy target = true <;>
    simp only [gitDiffCmds, h, if_true, if_false, Bool.not_eq_true, if_neg, if_pos,
      str_append_assoc, List.nodup_cons, List.mem_cons, List.mem_singleton, List.not_mem_nil,
      not_or, List.nodup_nil, and_true, not_false_iff] <;>
  repeat' apply And.intro
  all_goals first
    | decide
    | (apply ne_append_of_not_pre; decide)
    | (apply append_ne_of_not_pre; decide)
    | (apply append_ne_append <;> decide)

theorem gitStashCmds_nodup (message : Option String) : (gitStashCmds message).Nodup := by
  by_cases h : optTruthy message = true <;>
    simp only [gitStashCmds, h, if_true, if_false, Bool.not_eq_true, if_neg, if_pos,
      str_append_assoc, List.nodup_cons, List.mem_cons, List.mem_singleton, List.not_mem_nil,
      not_or, List.nodup_nil, and_true, not_false_iff] <;>
  repeat' apply And.intro
  all_goals first
    | decide
    | (apply ne_append_of_not_pre; decide)
    | (apply append_ne_of_not_pre; decide)
    | (apply append_ne_append <;> decide)

theorem gitStashPopCmds_nodup : gitStashPopCmds.Nodup := by decide

theorem gitResetCmds_nodup (mode target : String) : (gitResetCmds mode target).Nodup := by
  simp only [gitResetCmds, str_append_assoc, List.nodup_cons, List.mem_cons,
    List.mem_singleton, List.not_mem_nil, not_or, List.nodup_nil, and_true, not_false_iff]
  repeat' apply And.intro
  all_goals first
    | decide
    | (apply ne_append_of_not_pre; decide)
    | (apply append_ne_of_not_pre; decide)
    | (apply append_ne_append <;> decide)

theorem gitRemoteListCmds_nodup : gitRemoteListCmds.Nodup := by decide

theorem gitRemoteAddCmds_nodup (name url : String) : (gitRemoteAddCmds name url).Nodup := by
  simp only [gitRemoteAddCmds, str_append_assoc, List.nodup_cons, List.mem_cons,
    List.mem_singleton, List.not_mem_nil, not_or, List.nodup_nil, and_true, not_false_iff]
  repeat' apply And.intro
  all_goals first
    | decide
    | (apply ne_append_of_not_pre; decide)
    | (apply append_ne_of_not_pre; decide)
    | (apply append_ne_append <;> decide)

theorem gitRemoteRemoveCmds_nodup (name : String) : (gitRemoteRemoveCmds name).Nodup := by
  simp only [gitRemoteRemoveCmds, str_append_assoc, List.nodup_cons, List.mem_cons,
    List.mem_singleton, List.not_mem_nil, not_or, List.nodup_nil, and_true, not_false_iff]
  repeat' apply And.intro
  all_goals first
    | decide
    | (apply ne_append_of_not_pre; decide)
    | (apply append_ne_of_not_pre; decide)
    | (apply append_ne_append <;> decide)

theorem gitRemoteSetUrlCmds_nodup (name url : String) :
    (gitRemoteSetUrlCmds name url).Nodup := by
  simp only [gitRemoteSetUrlCmds, str_append_assoc, List.nodup_cons, List.mem_cons,
    List.mem_singleton, List.not_mem_nil, not_or, List.nodup_nil, and_true, not_false_iff]
  repeat' apply And.intro
  all_goals first
    | decide
    | (apply ne_append_of_not_pre; decide)
    | (apply append_ne_of_not_pre; decide)
    | (apply append_ne_append <;> decide)

theorem gitCloneCmds_nodup (url : String) (targetDir : Option String) :
    (gitCloneCmds url targetDir).Nodup := by
  simp [gitCloneCmds]

theorem gitInitCmds_nodup : gitInitCmds.Nodup := by decide

theorem gitFlowCmds_nodup (message : String) : (gitFlowCmds message).Nodup := by
  simp only [gitFlowCmds, str_append_assoc, List.nodup_cons, List.mem_cons,
    List.mem_singleton, List.not_mem_nil, not_or, List.nodup_nil, and_true, not_false_iff]
  repeat' apply And.intro
  all_goals first
    | decide
    | (apply ne_append_of_not_pre; decide)
    | (apply append_ne_of_not_pre; decide)
    | (apply append_ne_append <;> decide)

theorem gitQuickCommitCmds_nodup (message : String) : (gitQuickCommitCmds message).Nodup := by
  simp only [gitQuickCommitCmds, str_append_assoc, List.nodup_cons, List.mem_cons,
    List.mem_singleton, List.not_mem_nil, not_or, List.nodup_nil, and_true, not_false_iff]
  repeat' apply And.intro
  all_goals first
    | decide
    | (apply ne_append_of_not_pre; decide)
    | (apply append_ne_of_not_pre; decide)
    | (apply append_ne_append <;> decide)

theorem gitSyncCmds_nodup : gitSyncCmds.Nodup := by decide

theorem gitTagCmds_nodup (tagName message : Option String) :
    (gitTagCmds tagName message).Nodup := by
  by_cases h : optTruthy message = true <;>
    simp only [gitTagCmds, h, if_true, if_false, Bool.not_eq_true, if_neg, if_pos,
      str_append_assoc, List.nodup_cons, List.mem_cons, List.mem_singleton, List.not_mem_nil,
      not_or, List.nodup_nil, and_true, not_false_iff] <;>
  repeat' apply And.intro
  all_goals first
    | decide
    | (apply ne_append_of_not_pre; decide)
    | (apply append_ne_of_not_pre; decide)
    | (apply append_ne_append <;> decide)

theorem gitMergeCmds_nodup (branch strategy : Option String) :
    (gitMergeCmds branch strategy).Nodup := by
  simp only [gitMergeCmds, str_append_assoc, List.nodup_cons, List.mem_cons,
    List.mem_singleton, List.not_mem_nil, not_or, List.nodup_nil, and_true, not_false_iff]
  repeat' apply And.intro
  all_goals first
    | decide
    | (apply ne_append_of_not_pre; decide)
    | (apply append_ne_of_not_pre; decide)
    | (apply append_ne_append <;> decide)

theorem gitRebaseCmds_nodup (target : Option String) (interactive : Bool) :
    (gitRebaseCmds target interactive).Nodup := by
  by_cases h : interactive = true <;>
    simp only [gitRebaseCmds, h, if_true, if_false, Bool.not_eq_true, if_neg, if_pos,
      str_append_assoc, List.nodup_cons, List.mem_cons, List.mem_singleton, List.not_mem_nil,
      not_or, List.nodup_nil, and_true, not_false_iff] <;>
  repeat' apply And.intro
  all_goals first
    | decide
    | (apply ne_append_of_not_pre; decide)
    | (apply append_ne_of_not_pre; decide)
    | (apply append_ne_append <;> decide)

theorem gitCherryPickCmds_nodup (commitHash : Option String) :
    (gitCherryPickCmds commitHash).Nodup := by
  simp only [gitCherryPickCmds, str_append_assoc, List.nodup_cons, List.mem_cons,
    List.mem_singleton, List.not_mem_nil, not_or, List.nodup_nil, and_true, not_false_iff]
  repeat' apply And.intro
  all_goals first
    | decide
    | (apply ne_append_of_not_pre; decide)
    | (apply append_ne_of_not_pre; decide)
    | (apply append_ne_append <;> decide)

theorem gitBlameCmds_nodup (filePath lineRange : Option String) :
    (gitBlameCmds filePath lineRange).Nodup := by
  simp only [gitBlameCmds, str_append_assoc, List.nodup_cons, List.mem_cons,
    List.mem_singleton, List.not_mem_nil, not_or, List.nodup_nil, and_true, not_false_iff]
  repeat' apply And.intro
  all_goals first
    | decide
    | (apply ne_append_of_not_pre; decide)
    | (apply append_ne_of_not_pre; decide)
    | (apply append_ne_append <;> decide)

theorem gitBisectCmds_nodup (commit : Option String) : (gitBisectCmds commit).Nodup := by
  by_cases h : optTruthy commit = true <;>
    simp only [gitBisectCmds, h, if_true, if_false, Bool.not_eq_true, if_neg, if_pos,
      str_append_assoc, List.nodup_cons, List.mem_cons, List.mem_singleton, List.not_mem_nil,
      not_or, List.nodup_nil, and_true, not_false_iff] <;>
  repeat' apply And.intro
  all_goals first
    | decide
    | (apply ne_append_of_not_pre; decide)
    | (apply append_ne_of_not_pre; decide)
    | (apply append_ne_append <;> decide)

/-! Structure of one dispatch case: the handler result is wrapped by
`wrapResult`, any thrown error is converted by the outer catch, and the
request's subprocess trace is exactly the handler's. -/

theorem append_left_ne_empty (a b : String) (h : a ≠ "") : a ++ b ≠ "" := by
  intro he
  apply h
  have := congrArg String.data he
  rw [str_data_append] at this
  rcases List.append_eq_nil.1 this with ⟨ha, _⟩
  exact String.ext ha

theorem stringifyResult_ne_empty (r : GitOperationResult) : stringifyResult r ≠ "" := by
  unfold stringifyResult
  repeat' apply append_left_ne_empty
  decide

theorem stringifyFailure_ne_empty (m : String) : stringifyFailure m ≠ "" := by
  unfold stringifyFailure
  repeat' apply append_left_ne_empty
  decide

/-- The property C1 asks of one dispatch case at one environment. -/
def DispatchOK (m : GitM CallToolResponse) (sys : Sys) : Prop :=
  (∃ resp, (m sys []).1 = Except.ok resp ∧ resp.text ≠ "" ∧
    (resp.isError = true → ∃ msg, resp = ⟨stringifyFailure msg, true⟩)) ∧
  (traceCommands m sys).Nodup

theorem dispatch_case (x : GitM GitOperationResult) (l : List String) (hx : TraceOK x l)
    (hn : l.Nodup) (sys : Sys) :
    DispatchOK (GitM.tryCatch (GitM.bind x (fun r => GitM.pure (wrapResult r)))
      (fun e => GitM.pure (⟨stringifyFailure e.message, true⟩ : CallToolResponse))) sys := by
  constructor
  · rcases hr : x sys [] with ⟨res, tr⟩
    cases res with
    | ok a =>
      refine ⟨wrapResult a, ?_, stringifyResult_ne_empty a, ?_⟩
      · simp [GitM.tryCatch, GitM.bind, GitM.pure, hr]
      · intro hfalse
        simp [wrapResult] at hfalse
    | error e =>
      refine ⟨⟨stringifyFailure e.message, true⟩, ?_, stringifyFailure_ne_empty _, ?_⟩
      · simp [GitM.tryCatch, GitM.bind, GitM.pure, hr]
      · intro _
        exact ⟨e.message, rfl⟩
  · refine nodup_traceCommands ?_ hn sys
    have := TraceOK.tryCatch
      (TraceOK.bind hx (fun r => traceOK_pure (wrapResult r)))
      (fun e => traceOK_pure (⟨stringifyFailure e.message, true⟩ : CallToolResponse))
    simpa using this

theorem dispatch_case_throw (e : GitError) (sys : Sys) :
    DispatchOK (GitM.tryCatch (GitM.throw e)
      (fun e => GitM.pure (⟨stringifyFailure e.message, true⟩ : CallToolResponse))) sys := by
  constructor
  · refine ⟨⟨stringifyFailure e.message, true⟩, ?_, stringifyFailure_ne_empty _, ?_⟩
    · simp [GitM.tryCatch, GitM.throw, GitM.pure]
    · intro _
      exact ⟨e.message, rfl⟩
  · simp [traceCommands, traceOf, GitM.tryCatch, GitM.throw, GitM.pure]

theorem dispatch_case_guard (c : Prop) [Decidable c] (eg : GitError)
    (x : GitM GitOperationResult) (l : List String) (hx : TraceOK x l) (hn : l.Nodup)
    (sys : Sys) :
    DispatchOK (GitM.tryCatch
      (if c then GitM.throw eg else GitM.bind x (fun r => GitM.pure (wrapResult r)))
      (fun e => GitM.pure (⟨stringifyFailure e.message, true⟩ : CallToolResponse))) sys := by
  by_cases h : c
  · simpa [h] using dispatch_case_throw eg sys
  · simpa [h] using dispatch_case x l hx hn sys

/-- C1: every tool-call request — any operation name, argument bag and
directory — yields a response rather than a thrown error; the response has
nonempty text; when its error flag is set it is the uniform
`success:false` failure payload produced by the catch; and the request
never spawns the same command line twice, so no failed subprocess
invocation is retried. -/
theorem c1_every_call_caught_uniform_no_retry (name : String) (args : ToolArgs) (cwd : String)
    (sys : Sys) : DispatchOK (handleCallTool name args cwd) sys := by
  unfold handleCallTool
  simp only [GitM.bind_def, GitM.pure_def]
  by_cases h1 : name = "git-add-all"
  case pos =>
    simp only [if_pos h1]
    exact dispatch_case _ _ (traceOK_gitAddAll _) (gitAddAllCmds_nodup) sys
  case neg =>
  simp only [if_neg h1]
  by_cases h2 : name = "git-add"
  case pos =>
    simp only [if_pos h2]
    rcases hf : args.files with _ | files <;> simp only [hf]
    · exact dispatch_case_throw _ sys
    · exact dispatch_case _ _ (traceOK_gitAdd _ _) (gitAddCmds_nodup _) sys
  case neg =>
  simp only [if_neg h2]
  by_cases h3 : name = "git-remove"
  case pos =>
    simp only [if_pos h3]
    exact dispatch_case_guard _ _ _ _ (traceOK_gitRemove _ _) (gitRemoveCmds_nodup _) sys
  case neg =>
  simp only [if_neg h3]
  by_cases h4 : name = "git-remove-all"
  case pos =>
    simp only [if_pos h4]
    exact dispatch_case _ _ (traceOK_gitRemoveAll _) (gitRemoveAllCmds_nodup) sys
  case neg =>
  simp only [if_neg h4]
  by_cases h5 : name = "git-status"
  case pos =>
    simp only [if_pos h5]
    exact dispatch_case _ _ (traceOK_gitStatus _) (gitStatusCmds_nodup) sys
  case neg =>
  simp only [if_neg h5]
  by_cases h6 : name = "git-commit"
  case pos =>
    simp only [if_pos h6]
    exact dispatch_case_guard _ _ _ _ (traceOK_gitCommit _ _) (gitCommitCmds_nodup _) sys
  case neg =>
  simp only [if_neg h6]
  by_cases h7 : name = "git-push"
  case pos =>
    simp only [if_pos h7]
    exact dispatch_case _ _ (traceOK_gitPush _) (gitPushCmds_nodup) sys
  case neg =>
  simp only [if_neg h7]
  by_cases h8 : name = "git-pull"
  case pos =>
    simp only [if_pos h8]
    exact dispatch_case _ _ (traceOK_gitPull _) (gitPullCmds_nodup) sys
  case neg =>
  simp only [if_neg h8]
  by_cases h9 : name = "git-branch"
  case pos =>
    simp only [if_pos h9]
    exact dispatch_case _ _ (traceOK_gitBranch _ _) (gitBranchCmds_nodup _) sys
  case neg =>
  simp only [if_neg h9]
  by_cases h10 : name = "git-checkout"
  case pos =>
    simp only [if_pos h10]
    exact dispatch_case_guard _ _ _ _ (traceOK_gitCheckout _ _ _) (gitCheckoutCmds_nodup _ _) sys
  case neg =>
  simp only [if_neg h10]
  by_cases h11 : name = "git-log"
  case pos =>
    simp only [if_pos h11]
    exact dispatch_case _ _ (traceOK_gitLog _ _) (gitLogCmds_nodup _) sys
  case neg =>
  simp only [if_neg h11]
  by_cases h12 : name = "git-diff"
  case pos =>
    simp only [if_pos h12]
    exact dispatch_case _ _ (traceOK_gitDiff _ _) (gitDiffCmds_nodup _) sys
  case neg =>
  simp only [if_neg h12]
  by_cases h13 : name = "git-stash"
  case pos =>
    simp only [if_pos h13]
    exact dispatch_case _ _ (traceOK_gitStash _ _) (gitStashCmds_nodup _) sys
  case neg =>
  simp only [if_neg h13]
  by_cases h14 : name = "git-stash-pop"
  case pos =>
    simp only [if_pos h14]
    exact dispatch_case _ _ (traceOK_gitStashPop _) (gitStashPopCmds_nodup) sys
  case neg =>
  simp only [if_neg h14]
  by_cases h15 : name = "git-reset"
  case pos =>
    simp only [if_pos h15]
    exact dispatch_case _ _ (traceOK_gitReset _ _ _) (gitResetCmds_nodup _ _) sys
  case neg =>
  simp only [if_neg h15]
  by_cases h16 : name = "git-clone"
  case pos =>
    simp only [if_pos h16]
    exact dispatch_case_guard _ _ _ _ (traceOK_gitClone _ _ _) (gitCloneCmds_nodup _ _) sys
  case neg =>
  simp only [if_neg h16]
  by_cases h17 : name = "git-init"
  case pos =>
    simp only [if_pos h17]
    exact dispatch_case _ _ (traceOK_gitInit _) (gitInitCmds_nodup) sys
  case neg =>
  simp only [if_neg h17]
  by_cases h18 : name = "git-remote-list"
  case pos =>
    simp only [if_pos h18]
    exact dispatch_case _ _ (traceOK_gitRemoteList _) (gitRemoteListCmds_nodup) sys
  case neg =>
  simp only [if_neg h18]
  by_cases h19 : name = "git-remote-add"
  case pos =>
    simp only [if_pos h19]
    exact dispatch_case_guard _ _ _ _ (traceOK_gitRemoteAdd _ _ _) (gitRemoteAddCmds_nodup _ _) sys
  case neg =>
  simp only [if_neg h19]
  by_cases h20 : name = "git-remote-remove"
  case pos =>
    simp only [if_pos h20]
    exact dispatch_case_guard _ _ _ _ (traceOK_gitRemoteRemove _ _) (gitRemoteRemoveCmds_nodup _) sys
  case neg =>
  simp only [if_neg h20]
  by_cases h21 : name = "git-remote-set-url"
  case pos =>
    simp only [if_pos h21]
    exact dispatch_case_guard _ _ _ _ (traceOK_gitRemoteSetUrl _ _ _) (gitRemoteSetUrlCmds_nodup _ _) sys
  case neg =>
  simp only [if_neg h21]
  by_cases h22 : name = "git-flow"
  case pos =>
    simp only [if_pos h22]
    exact dispatch_case_guard _ _ _ _ (traceOK_gitFlow _ _) (gitFlowCmds_nodup _) sys
  case neg =>
  simp only [if_neg h22]
  by_cases h23 : name = "git-quick-commit"
  case pos =>
    simp only [if_pos h23]
    exact dispatch_case_guard _ _ _ _ (traceOK_gitQuickCommit _ _) (gitQuickCommitCmds_nodup _) sys
  case neg =>
  simp only [if_neg h23]
  by_cases h24 : name = "git-sync"
  case pos =>
    simp only [if_pos h24]
    exact dispatch_case _ _ (traceOK_gitSync _) (gitSyncCmds_nodup) sys
  case neg =>
  simp only [if_neg h24]
  by_cases h25 : name = "git-tag"
  case pos =>
    simp only [if_pos h25]
    exact dispatch_case _ _ (traceOK_gitTag _ _ _ _) (gitTagCmds_nodup _ _) sys
  case neg =>
  simp only [if_neg h25]
  by_cases h26 : name = "git-merge"
  case pos =>
    simp only [if_pos h26]
    exact dispatch_case _ _ (traceOK_gitMerge _ _ _) (gitMergeCmds_nodup _ _) sys
  case neg =>
  simp only [if_neg h26]
  by_cases h27 : name = "git-rebase"
  case pos =>
    simp only [if_pos h27]
    exact dispatch_case _ _ (traceOK_gitRebase _ _ _) (gitRebaseCmds_nodup _ _) sys
  case neg =>
  simp only [if_neg h27]
  by_cases h28 : name = "git-cherry-pick"
  case pos =>
    simp only [if_pos h28]
    exact dispatch_case _ _ (traceOK_gitCherryPick _ _) (gitCherryPickCmds_nodup _) sys
  case neg =>
  simp only [if_neg h28]
  by_cases h29 : name = "git-blame"
  case pos =>
    simp only [if_pos h29]
    exact dispatch_case _ _ (traceOK_gitBlame _ _ _) (gitBlameCmds_nodup _ _) sys
  case neg =>
  simp only [if_neg h29]
  by_cases h30 : name = "git-bisect"
  case pos =>
    simp only [if_pos h30]
    exact dispatch_case _ _ (traceOK_gitBisect _ _ _) (gitBisectCmds_nodup _) sys
  case neg =>
  simp only [if_neg h30]
  exact dispatch_case_throw _ sys

/-! A compositional bound on the values a program can return: every
successful run satisfies `P`. -/

def ResultPred {α : Type} (m : GitM α) (P : α → Prop) : Prop :=
  ∀ sys tr r, (m sys tr).1 = Except.ok r → P r

theorem resultPred_elim {α : Type} {m : GitM α} {P : α → Prop} (h : ResultPred m P)
    (sys : Sys) : ∀ r, resultOf m sys = some r → P r := by
  intro r hr
  unfold resultOf at hr
  rcases hm : (m sys []).1 with e | a
  · rw [hm] at hr
    simp at hr
  · rw [hm] at hr
    simp only [Option.some.injEq] at hr
    subst hr
    exact h sys [] _ hm

theorem resultPred_pure {α : Type} {P : α → Prop} (a : α) (h : P a) :
    ResultPred (GitM.pure a) P := by
  intro sys tr r hr
  simp only [GitM.pure, Except.ok.injEq] at hr
  exact hr ▸ h

theorem resultPred_throw {α : Type} {P : α → Prop} (e : GitError) :
    ResultPred (GitM.throw e : GitM α) P := by
  intro sys tr r hr
  simp [GitM.throw] at hr

theorem resultPred_bind {α β : Type} {x : GitM α} {f : α → GitM β} {P : β → Prop}
    (hf : ∀ a, ResultPred (f a) P) : ResultPred (GitM.bind x f) P := by
  intro sys tr r hr
  unfold GitM.bind at hr
  rcases hx : x sys tr with ⟨res, tr'⟩
  rw [hx] at hr
  cases res with
  | ok a => exact hf a sys tr' r hr
  | error e => simp at hr

theorem resultPred_tryCatch {α : Type} {x : GitM α} {h : GitError → GitM α} {P : α → Prop}
    (hx : ResultPred x P) (hh : ∀ e, ResultPred (h e) P) :
    ResultPred (GitM.tryCatch x h) P := by
  intro sys tr r hr
  unfold GitM.tryCatch at hr
  rcases hxr : x sys tr with ⟨res, tr'⟩
  rw [hxr] at hr
  cases res with
  | ok a =>
    simp only [Except.ok.injEq] at hr
    exact hr ▸ hx sys tr a (by rw [hxr])
  | error e => exact hh e sys tr' r hr

theorem resultPred_ite {α : Type} (c : Prop) [Decidable c] {x y : GitM α} {P : α → Prop}
    (hx : ResultPred x P) (hy : ResultPred y P) : ResultPred (if c then x else y) P := by
  by_cases h : c <;> simp [h, hx, hy]

/-- A simple all-commands-succeed environment used by concrete witnesses. -/
def sysOkEmpty : Sys := ⟨fun _ => .ok ⟨"", ""⟩, fun _ => true⟩

/-- C10: a command string that does not start with `git ` makes
`executeGitCommand` throw the Invalid-command error without spawning any
subprocess (the trace is unchanged); and every subprocess the wrapper ever
spawns carries a command starting with `git `. -/
theorem c10_non_git_command_rejected_before_spawn (c d : String) (t : Nat) (sys : Sys)
    (tr : List Invocation) :
    (strStartsWith c "git " = false →
      (executeGitCommand c d t) sys tr =
        (Except.error ⟨"Invalid command: Only git commands are allowed", "", "", false⟩, tr)) ∧
    (((executeGitCommand c d t) sys tr).2 = tr ∨
      (strStartsWith c "git " = true ∧
        ((executeGitCommand c d t) sys tr).2 = tr ++ [⟨c, d, t⟩])) := by
  constructor
  · intro h
    unfold executeGitCommand
    simp only [h, Bool.false_eq_true, if_false, GitM.tryCatch, GitM.throw]
    simp [classifiedMessage, includes, containsSeg, hasPre]
  · by_cases h : strStartsWith c "git " = true
    · refine Or.inr ⟨h, ?_⟩
      unfold executeGitCommand execAsync
      simp only [h, if_true, GitM.tryCatch, GitM.throw]
      rcases he : sys.exec c with r | e <;> simp [he]
    · refine Or.inl ?_
      unfold executeGitCommand
      simp only [Bool.not_eq_true] at h
      simp [h, GitM.tryCatch, GitM.throw]

/-- Witness for C10 at the concrete non-git command `rm -rf /tmp`. -/
theorem c10_witness :
    (executeGitCommand "rm -rf /tmp" "d" 30000) sysOkEmpty [] =
      (Except.error ⟨"Invalid command: Only git commands are allowed", "", "", false⟩, []) :=
  (c10_non_git_command_rejected_before_spawn "rm -rf /tmp" "d" 30000 sysOkEmpty []).1
    (by decide)

/-- The text of the early not-a-repository return that the six advanced
handlers contain but can never produce. -/
def notARepoEarlyReturnText : String :=
  "Error: Not a git repository. Run \"git init\" to initialize."

theorem gitTag_never_early (sys : Sys) (d : String) (action tagName message : Option String) :
    ∀ r, resultOf (gitTag d action tagName message) sys = some r →
      r.text ≠ notARepoEarlyReturnText := by
  refine resultPred_elim ?_ sys
  unfold gitTag
  simp only [GitM.bind_def, GitM.pure_def, isGitRepositoryPromiseTruthy, Bool.not_true,
    Bool.false_eq_true, if_false]
  cases action with
  | none =>
    refine resultPred_tryCatch
      (resultPred_bind (fun _ =>
        resultPred_bind (fun listResult => resultPred_pure _ ?_)))
      (fun e => resultPred_pure _ ?_)
    all_goals simp only [createResponse, str_append_assoc]
    all_goals first
      | decide
      | (split <;> (first
          | decide
          | (apply append_ne_of_not_pre; decide)))
      | (apply append_ne_of_not_pre; decide)
  | some a =>
    refine resultPred_tryCatch
      (resultPred_bind (fun _ =>
        resultPred_ite _
          (resultPred_bind (fun listResult => resultPred_pure _ ?_))
          (resultPred_ite _
            (resultPred_ite _ (resultPred_pure _ ?_)
              (resultPred_bind (fun _ => resultPred_pure _ ?_)))
            (resultPred_ite _
              (resultPred_ite _ (resultPred_pure _ ?_)
                (resultPred_bind (fun _ => resultPred_pure _ ?_)))
              (resultPred_ite _
                (resultPred_ite _ (resultPred_pure _ ?_)
                  (resultPred_bind (fun showResult => resultPred_pure _ ?_)))
                (resultPred_pure _ ?_))))))
      (fun e => resultPred_pure _ ?_)
    all_goals simp only [createResponse, str_append_assoc]
    all_goals first
      | decide
      | (split <;> (first
          | decide
          | (apply append_ne_of_not_pre; decide)))
      | (apply append_ne_of_not_pre; decide)

theorem gitMerge_never_early (sys : Sys) (d : String) (branch strategy : Option String) :
    ∀ r, resultOf (gitMerge d branch strategy) sys = some r →
      r.text ≠ notARepoEarlyReturnText := by
  refine resultPred_elim ?_ sys
  unfold gitMerge
  simp only [GitM.bind_def, GitM.pure_def, isGitRepositoryPromiseTruthy, Bool.not_true,
    Bool.false_eq_true, if_false]
  refine resultPred_tryCatch
    (resultPred_bind (fun _ =>
      resultPred_ite _ (resultPred_pure _ ?_)
        (resultPred_bind (fun branchExists =>
          resultPred_ite _ (resultPred_pure _ ?_)
            (resultPred_bind (fun statusResult =>
              resultPred_ite _ (resultPred_pure _ ?_)
                (resultPred_tryCatch
                  (resultPred_bind (fun mergeResult => resultPred_pure _ ?_))
                  (fun mergeError =>
                    resultPred_ite _
                      (resultPred_bind (fun conflictFiles => resultPred_pure _ ?_))
                      (resultPred_throw _)))))))))
    (fun e => resultPred_pure _ ?_)
  all_goals simp only [createResponse, conflictListText, str_append_assoc]
  all_goals first
    | decide
    | (apply append_ne_of_not_pre; decide)

theorem gitRebase_never_early (sys : Sys) (d : String) (target : Option String)
    (interactive : Bool) :
    ∀ r, resultOf (gitRebase d target interactive) sys = some r →
      r.text ≠ notARepoEarlyReturnText := by
  refine resultPred_elim ?_ sys
  unfold gitRebase
  simp only [GitM.bind_def, GitM.pure_def, isGitRepositoryPromiseTruthy, Bool.not_true,
    Bool.false_eq_true, if_false]
  refine resultPred_tryCatch
    (resultPred_bind (fun _ =>
      resultPred_bind (fun statusResult =>
        resultPred_ite _ (resultPred_pure _ ?_)
          (resultPred_tryCatch
            (resultPred_bind (fun rebaseResult => resultPred_pure _ ?_))
            (fun rebaseError =>
              resultPred_ite _
                (resultPred_bind (fun conflictFiles => resultPred_pure _ ?_))
                (resultPred_throw _))))))
    (fun e => resultPred_pure _ ?_)
  all_goals simp only [createResponse, conflictListText, str_append_assoc]
  all_goals first
    | decide
    | (apply append_ne_of_not_pre; decide)

theorem gitCherryPick_never_early (sys : Sys) (d : String) (commitHash : Option String) :
    ∀ r, resultOf (gitCherryPick d commitHash) sys = some r →
      r.text ≠ notARepoEarlyReturnText := by
  refine resultPred_elim ?_ sys
  unfold gitCherryPick
  simp only [GitM.bind_def, GitM.pure_def, isGitRepositoryPromiseTruthy, Bool.not_true,
    Bool.false_eq_true, if_false]
  refine resultPred_tryCatch
    (resultPred_bind (fun _ =>
      resultPred_ite _ (resultPred_pure _ ?_)
        (resultPred_bind (fun commitExists =>
          resultPred_ite _ (resultPred_pure _ ?_)
            (resultPred_bind (fun statusResult =>
              resultPred_ite _ (resultPred_pure _ ?_)
                (resultPred_bind (fun cherryPickResult => resultPred_pure _ ?_))))))))
    (fun e =>
      resultPred_ite _
        (resultPred_bind (fun conflictFiles => resultPred_pure _ ?_))
        (resultPred_pure _ ?_))
  all_goals simp only [createResponse, conflictListText, str_append_assoc]
  all_goals first
    | decide
    | (apply append_ne_of_not_pre; decide)

theorem gitBlame_never_early (sys : Sys) (d : String) (filePath lineRange : Option String) :
    ∀ r, resultOf (gitBlame d filePath lineRange) sys = some r →
      r.text ≠ notARepoEarlyReturnText := by
  refine resultPred_elim ?_ sys
  unfold gitBlame
  simp only [GitM.bind_def, GitM.pure_def, isGitRepositoryPromiseTruthy, Bool.not_true,
    Bool.false_eq_true, if_false]
  refine resultPred_tryCatch
    (resultPred_bind (fun _ =>
      resultPred_ite _ (resultPred_pure _ ?_)
        (resultPred_bind (fun ex =>
          resultPred_ite _ (resultPred_pure _ ?_)
            (resultPred_bind (fun blameResult => resultPred_pure _ ?_))))))
    (fun e => resultPred_pure _ ?_)
  all_goals simp only [createResponse, str_append_assoc]
  all_goals first
    | decide
    | (apply append_ne_of_not_pre; decide)

theorem gitBisect_never_early (sys : Sys) (d : String) (action commit : Option String) :
    ∀ r, resultOf (gitBisect d action commit) sys = some r →
      r.text ≠ notARepoEarlyReturnText := by
  refine resultPred_elim ?_ sys
  unfold gitBisect
  simp only [GitM.bind_def, GitM.pure_def, isGitRepositoryPromiseTruthy, Bool.not_true,
    Bool.false_eq_true, if_false]
  cases action with
  | none =>
    refine resultPred_tryCatch
      (resultPred_bind (fun _ => resultPred_pure _ ?_))
      (fun e => resultPred_pure _ ?_)
    all_goals simp only [createResponse, str_append_assoc]
    all_goals first
      | decide
      | (apply append_ne_of_not_pre; decide)
  | some a =>
    refine resultPred_tryCatch
      (resultPred_bind (fun _ =>
        resultPred_ite _
          (resultPred_bind (fun bisectResult => resultPred_pure _ ?_))
          (resultPred_ite _
            (resultPred_bind (fun bisectResult => resultPred_pure _ ?_))
            (resultPred_ite _
              (resultPred_bind (fun bisectResult => resultPred_pure _ ?_))
              (resultPred_ite _
                (resultPred_bind (fun bisectResult => resultPred_pure _ ?_))
                (resultPred_ite _
                  (resultPred_bind (fun bisectResult => resultPred_pure _ ?_))
                  (resultPred_pure _ ?_)))))))
      (fun e => resultPred_pure _ ?_)
    all_goals simp only [createResponse, str_append_assoc]
    all_goals first
      | decide
      | (apply append_ne_of_not_pre; decide)

/-- On a non-repository directory the not-a-repository failure `gitTag`
reports comes from the listing subprocess failing, surfaced through the
catch as the raw stderr. -/
theorem gitTag_nonrepo_failure (sys : Sys) (d : String) (e : RawErr)
    (hl : sys.exec "git tag --sort=-version:refname" = .err e) (hs : e.stderr ≠ "") :
    resultOf (gitTag d none none none) sys =
      some (createResponse "git-tag" ("❌ Tag operation failed: " ++ e.stderr) true d) := by
  unfold resultOf gitTag isGitRepository executeGitCommand
  simp only [GitM.bind_def, GitM.pure_def, GitM.bind, GitM.pure, GitM.tryCatch, GitM.throw,
    execAsync, isGitRepositoryPromiseTruthy, Bool.not_true, Bool.false_eq_true, if_false, hl]
  rcases hr : sys.exec "git rev-parse --git-dir" with r | er <;>
    simp +decide [hr, hl, jsOr, hs, execAsync]

/-- C9: in the six advanced handlers the repository check is not awaited,
so the early not-a-repository return is unreachable for every environment
and every argument; the not-a-repository failure such a handler reports
comes from its first git subprocess failing (shown for `gitTag`: the
response is the catch text around the subprocess stderr). -/
theorem c9_unawaited_guard_unreachable (sys : Sys) (d : String)
    (action tagName message branch strategy target commitHash filePath lineRange commit :
      Option String) (interactive : Bool) :
    (∀ r, resultOf (gitTag d action tagName message) sys = some r →
      r.text ≠ notARepoEarlyReturnText) ∧
    (∀ r, resultOf (gitMerge d branch strategy) sys = some r →
      r.text ≠ notARepoEarlyReturnText) ∧
    (∀ r, resultOf (gitRebase d target interactive) sys = some r →
      r.text ≠ notARepoEarlyReturnText) ∧
    (∀ r, resultOf (gitCherryPick d commitHash) sys = some r →
      r.text ≠ notARepoEarlyReturnText) ∧
    (∀ r, resultOf (gitBlame d filePath lineRange) sys = some r →
      r.text ≠ notARepoEarlyReturnText) ∧
    (∀ r, resultOf (gitBisect d action commit) sys = some r →
      r.text ≠ notARepoEarlyReturnText) ∧
    (∀ e : RawErr, sys.exec "git tag --sort=-version:refname" = .err e → e.stderr ≠ "" →
      resultOf (gitTag d none none none) sys =
        some (createResponse "git-tag" ("❌ Tag operation failed: " ++ e.stderr) true d)) :=
  ⟨gitTag_never_early sys d action tagName message,
   gitMerge_never_early sys d branch strategy,
   gitRebase_never_early sys d target interactive,
   gitCherryPick_never_early sys d commitHash,
   gitBlame_never_early sys d filePath lineRange,
   gitBisect_never_early sys d action commit,
   fun e hl hs => gitTag_nonrepo_failure sys d e hl hs⟩

/-- A directory that is not a repository: every git command fails with the
usual fatal stderr, except clone and init which would succeed there. -/
def sysNonRepo : Sys :=
  ⟨fun c =>
    if strStartsWith c "git clone" || strStartsWith c "git init" then .ok ⟨"", ""⟩
    else .err ⟨"Command failed: " ++ c, "",
      "fatal: not a git repository (or any of the parent directories): .git", false⟩,
   fun _ => true⟩

/-- Witness for C9: on the concrete non-repository environment, `gitTag`
reports the subprocess stderr, not the unreachable early text. -/
theorem c9_witness :
    resultOf (gitTag "d" none none none) sysNonRepo =
      some (createResponse "git-tag"
        ("❌ Tag operation failed: " ++
          "fatal: not a git repository (or any of the parent directories): .git") true "d") :=
  (c9_unawaited_guard_unreachable sysNonRepo "d" none none none none none none none none none
    none false).2.2.2.2.2.2
    ⟨"Command failed: git tag --sort=-version:refname", "",
      "fatal: not a git repository (or any of the parent directories): .git", false⟩
    (by decide) (by decide)

theorem hasPre_append_cancel (x y z : List Char) : hasPre (x ++ y) (x ++ z) = hasPre y z := by
  induction x with
  | nil => rfl
  | cons c l ih => simp [hasPre, ih]

theorem includes_of_hasPre (s p : String) (h : hasPre p.data s.data = true) :
    includes s p = true := containsSeg_of_hasPre _ _ h

theorem hasPre_append_of_le (q p s : List Char) (h : q.length ≤ p.length) :
    hasPre q (p ++ s) = hasPre q p := by
  induction q generalizing p with
  | nil => rfl
  | cons c l ih =>
    cases p with
    | nil => simp at h
    | cons b p' =>
      simp only [List.cons_append, hasPre]
      by_cases hc : c = b
      · simp only [hc, if_pos rfl]
        exact ih p' (by simpa using h)
      · simp [hc]

theorem strStartsWith_append_of_le (p s q : String) (h : q.data.length ≤ p.data.length) :
    strStartsWith (p ++ s) q = strStartsWith p q := by
  unfold strStartsWith
  rw [str_data_append]
  exact hasPre_append_of_le _ _ _ h

theorem strStartsWith_append_pre (p s q : String) (h : hasPre q.data p.data = true) :
    strStartsWith (p ++ s) q = true := by
  unfold strStartsWith
  rw [str_data_append]
  exact hasPre_extend _ _ _ h

/-- C4 counterexample: on a repository where the hard reset completes, the
returned text is the plain success line and carries no destructive-change
warning of any spelling. -/
theorem c4_counterexample :
    resultOf (gitReset "hard" "HEAD~1" "d") sysOkEmpty =
      some (createResponse "git-reset"
        "🔄 Successfully reset repository (hard) to HEAD~1.\nReset completed." false "d") ∧
    includes "🔄 Successfully reset repository (hard) to HEAD~1.\nReset completed."
      "destructive" = false ∧
    includes "🔄 Successfully reset repository (hard) to HEAD~1.\nReset completed."
      "Destructive" = false ∧
    includes "🔄 Successfully reset repository (hard) to HEAD~1.\nReset completed."
      "DESTRUCTIVE" = false ∧
    includes "🔄 Successfully reset repository (hard) to HEAD~1.\nReset completed."
      "irreversible" = false ∧
    includes "🔄 Successfully reset repository (hard) to HEAD~1.\nReset completed."
      "Irreversible" = false ∧
    includes "🔄 Successfully reset repository (hard) to HEAD~1.\nReset completed."
      "IRREVERSIBLE" = false ∧
    includes "🔄 Successfully reset repository (hard) to HEAD~1.\nReset completed."
      "warning" = false ∧
    includes "🔄 Successfully reset repository (hard) to HEAD~1.\nReset completed."
      "Warning" = false ∧
    includes "🔄 Successfully reset repository (hard) to HEAD~1.\nReset completed."
      "WARNING" = false ∧
    includes "🔄 Successfully reset repository (hard) to HEAD~1.\nReset completed."
      "destroy" = false := by
  decide

set_option maxRecDepth 8000 in
/-- C4 (amended): only the help request of `gitReset` warns about
destructive changes; a completed hard (or any non-help) reset returns
exactly the plain success text with no warning added. -/
theorem c4_reset_warning_only_in_help (sys : Sys) (d mode target : String) :
    (mode = "--help" ∨ mode = "-h" →
      resultOf (gitReset mode target d) sys =
        some (createResponse "git-reset" gitResetHelpText false d) ∧
      includes gitResetHelpText "DESTRUCTIVE" = true ∧
      includes gitResetHelpText "WARNING: --hard mode will destroy uncommitted changes!" =
        true) ∧
    (∀ r0 out, sys.exec "git rev-parse --git-dir" = .ok r0 →
      sys.exec ("git reset --" ++ mode ++ " " ++ target) = .ok out →
      mode ≠ "--help" → mode ≠ "-h" →
      resultOf (gitReset mode target d) sys =
        some (createResponse "git-reset"
          ("🔄 Successfully reset repository (" ++ mode ++ ") to " ++ target ++ ".\n" ++
            jsOr out.stdout "Reset completed.") false d)) := by
  constructor
  · intro hm
    refine ⟨?_, by decide, by decide⟩
    unfold resultOf gitReset
    rcases hm with h | h <;> subst h <;>
      simp [GitM.pure_def, GitM.pure]
  · intro r0 out h0 hcmd h1 h2
    unfold resultOf gitReset isGitRepository executeGitCommand
    rw [if_neg (by simp [h1, h2])]
    simp only [str_append_assoc] at hcmd ⊢
    have hsw : strStartsWith ("git reset --" ++ (mode ++ (" " ++ target))) "git " = true :=
      strStartsWith_append_pre _ _ _ (by decide)
    simp only [GitM.bind_def, GitM.pure_def, GitM.bind, GitM.pure, GitM.tryCatch, GitM.throw,
      execAsync, h0, hcmd, hsw, if_true, Bool.not_true, Bool.false_eq_true, if_false]

/-- Witness for C4: the help branch warns, the completed hard reset does
not. -/
theorem c4_witness :
    (resultOf (gitReset "--help" "HEAD" "d") sysOkEmpty =
      some (createResponse "git-reset" gitResetHelpText false "d") ∧
      includes gitResetHelpText "DESTRUCTIVE" = true ∧
      includes gitResetHelpText "WARNING: --hard mode will destroy uncommitted changes!" =
        true) ∧
    resultOf (gitReset "hard" "HEAD~1" "d") sysOkEmpty =
      some (createResponse "git-reset"
        ("🔄 Successfully reset repository (" ++ "hard" ++ ") to " ++ "HEAD~1" ++ ".\n" ++
          jsOr (ExecOk.stdout ⟨"", ""⟩) "Reset completed.") false "d") :=
  ⟨(c4_reset_warning_only_in_help sysOkEmpty "d" "--help" "HEAD").1 (Or.inl rfl),
   (c4_reset_warning_only_in_help sysOkEmpty "d" "hard" "HEAD~1").2 ⟨"", ""⟩ ⟨"", ""⟩ rfl rfl
     (by decide) (by decide)⟩

/-- C5: in a repository, committing with the empty message fails with the
message-required error; with staged changes and a nonblank message the
commit succeeds and its text includes the staged-file count. -/
theorem c5_commit_empty_message_and_file_count (sys : Sys) (d message : String) :
    (∀ r0, sys.exec "git rev-parse --git-dir" = .ok r0 →
      resultOf (gitCommit "" d) sys =
        some (createResponse "git-commit" "Error: Commit message cannot be empty." true d)) ∧
    (∀ r0 o1 o2 oc, sys.exec "git rev-parse --git-dir" = .ok r0 →
      strTrim message ≠ "" →
      sys.exec "git diff --cached --name-only" = .ok o1 → strTrim o1.stdout ≠ "" →
      sys.exec "git diff --cached --name-status" = .ok o2 →
      sys.exec ("git commit -m \"" ++ escapeMessage message ++ "\"") = .ok oc →
      ∃ r, resultOf (gitCommit message d) sys = some r ∧ r.isError = false ∧
        includes r.text (toString (countNonEmptyLines o2.stdout) ++ " file(s)") = true) := by
  constructor
  · intro r0 h0
    unfold resultOf gitCommit isGitRepository
    simp [GitM.bind_def, GitM.pure_def, GitM.bind, GitM.pure, GitM.tryCatch, GitM.throw,
      execAsync, h0]
  · intro r0 o1 o2 oc h0 hmsg h1 htrim h2 hc
    have hne : ¬(message = "" ∨ strTrim message = "") := by
      rintro (h | h)
      · exact hmsg (by rw [h]; rfl)
      · exact hmsg h
    unfold resultOf gitCommit isGitRepository executeGitCommand
    rw [str_append_assoc] at hc
    have hsw : strStartsWith ("git commit -m \"" ++ (escapeMessage message ++ "\"")) "git " =
        true := strStartsWith_append_pre _ _ _ (by decide)
    simp +decide only [GitM.bind_def, GitM.pure_def, GitM.bind_apply, GitM.pure_apply,
      GitM.tryCatch_apply, GitM.throw_apply, execAsync_apply, str_append_assoc, h0, h1, h2,
      hc, hsw, if_true, Bool.not_true, Bool.false_eq_true, if_false, if_neg hne, if_neg htrim]
    refine ⟨_, rfl, rfl, ?_⟩
    apply includes_append_right
    apply includes_of_hasPre
    rw [str_data_append, str_data_append, hasPre_append_cancel]
    rw [str_data_append]
    exact hasPre_extend _ _ _ (by decide)

/-- Environment for the C5 witness: one staged file, everything succeeds. -/
def sysOneStaged : Sys :=
  ⟨fun c =>
    if c = "git diff --cached --name-only" then .ok ⟨"a.txt", ""⟩
    else if c = "git diff --cached --name-status" then .ok ⟨"M\ta.txt", ""⟩
    else .ok ⟨"", ""⟩,
   fun _ => true⟩

/-- Witness for C5 at a concrete one-file environment. -/
theorem c5_witness :
    (resultOf (gitCommit "" "d") sysOneStaged =
      some (createResponse "git-commit" "Error: Commit message cannot be empty." true "d")) ∧
    (∃ r, resultOf (gitCommit "fix" "d") sysOneStaged = some r ∧ r.isError = false ∧
      includes r.text (toString (countNonEmptyLines "M\ta.txt") ++ " file(s)") = true) :=
  ⟨(c5_commit_empty_message_and_file_count sysOneStaged "d" "fix").1 ⟨"", ""⟩ rfl,
   (c5_commit_empty_message_and_file_count sysOneStaged "d" "fix").2 ⟨"", ""⟩ ⟨"a.txt", ""⟩
     ⟨"M\ta.txt", ""⟩ ⟨"", ""⟩ rfl (by decide) rfl (by decide) rfl rfl⟩

/-- C6: `gitAddAll` on a clean working tree reports the nothing-to-add
success and never invokes `git add .`. -/
theorem c6_addAll_clean_tree_no_add (sys : Sys) (d : String) :
    ∀ r0 o, sys.exec "git rev-parse --git-dir" = .ok r0 →
      sys.exec "git status --porcelain" = .ok o → strTrim o.stdout = "" →
      resultOf (gitAddAll d) sys =
        some (createResponse "git-add-all" "No changes to add. Working directory is clean."
          false d) ∧
      "git add ." ∉ traceCommands (gitAddAll d) sys := by
  intro r0 o h0 hs htrim
  unfold resultOf traceCommands traceOf gitAddAll isGitRepository executeGitCommand
  simp +decide only [GitM.bind_def, GitM.pure_def, GitM.bind_apply, GitM.pure_apply,
    GitM.tryCatch_apply, GitM.throw_apply, execAsync_apply, h0, hs, htrim, Bool.not_true,
    Bool.false_eq_true, if_false, if_true]
  simp

/-- Witness for C6 on the all-clean environment. -/
theorem c6_witness :
    resultOf (gitAddAll "d") sysOkEmpty =
      some (createResponse "git-add-all" "No changes to add. Working directory is clean."
        false "d") ∧
    "git add ." ∉ traceCommands (gitAddAll "d") sysOkEmpty :=
  c6_addAll_clean_tree_no_add sysOkEmpty "d" ⟨"", ""⟩ ⟨"", ""⟩ rfl rfl (by decide)

/-! A compositional bound on the individual invocations a program can
spawn: every trace entry a run adds satisfies `P`. -/

def AllInv {α : Type} (m : GitM α) (P : Invocation → Prop) : Prop :=
  ∀ sys tr inv, inv ∈ (m sys tr).2 → inv ∈ tr ∨ P inv

theorem allInv_pure {α : Type} (a : α) (P : Invocation → Prop) :
    AllInv (GitM.pure a) P := by
  intro sys tr inv h
  exact Or.inl (by simpa [GitM.pure] using h)

theorem allInv_throw {α : Type} (e : GitError) (P : Invocation → Prop) :
    AllInv (GitM.throw e : GitM α) P := by
  intro sys tr inv h
  exact Or.inl (by simpa [GitM.throw] using h)

theorem allInv_fileExists (p : String) (P : Invocation → Prop) :
    AllInv (fileExistsM p) P := by
  intro sys tr inv h
  exact Or.inl (by simpa [fileExistsM] using h)

theorem allInv_execAsync (c d : String) (t : Nat) (P : Invocation → Prop)
    (h : P ⟨c, d, t⟩) : AllInv (execAsync c d t) P := by
  intro sys tr inv hm
  unfold execAsync at hm
  rcases he : sys.exec c with r | e <;> rw [he] at hm <;>
    simp only [List.mem_append, List.mem_singleton] at hm <;>
    rcases hm with hm | hm
  · exact Or.inl hm
  · exact Or.inr (hm ▸ h)
  · exact Or.inl hm
  · exact Or.inr (hm ▸ h)

theorem allInv_bind {α β : Type} {x : GitM α} {f : α → GitM β} {P : Invocation → Prop}
    (hx : AllInv x P) (hf : ∀ a, AllInv (f a) P) : AllInv (GitM.bind x f) P := by
  intro sys tr inv hm
  unfold GitM.bind at hm
  rcases hxr : x sys tr with ⟨res, tr'⟩
  rw [hxr] at hm
  cases res with
  | ok a =>
    rcases hf a sys tr' inv hm with hin | hp
    · rcases hx sys tr inv (by rw [hxr]; exact hin) with h | h
      · exact Or.inl h
      · exact Or.inr h
    · exact Or.inr hp
  | error e =>
    rcases hx sys tr inv (by rw [hxr]; exact hm) with h | h
    · exact Or.inl h
    · exact Or.inr h

theorem allInv_tryCatch {α : Type} {x : GitM α} {h : GitError → GitM α} {P : Invocation → Prop}
    (hx : AllInv x P) (hh : ∀ e, AllInv (h e) P) : AllInv (GitM.tryCatch x h) P := by
  intro sys tr inv hm
  unfold GitM.tryCatch at hm
  rcases hxr : x sys tr with ⟨res, tr'⟩
  rw [hxr] at hm
  cases res with
  | ok a =>
    rcases hx sys tr inv (by rw [hxr]; exact hm) with hin | hp
    · exact Or.inl hin
    · exact Or.inr hp
  | error e =>
    rcases hh e sys tr' inv hm with hin | hp
    · rcases hx sys tr inv (by rw [hxr]; exact hin) with h2 | h2
      · exact Or.inl h2
      · exact Or.inr h2
    · exact Or.inr hp

theorem allInv_ite {α : Type} (c : Prop) [Decidable c] {x y : GitM α} {P : Invocation → Prop}
    (hx : AllInv x P) (hy : AllInv y P) : AllInv (if c then x else y) P := by
  by_cases h : c <;> simp [h, hx, hy]

theorem allInv_executeGitCommand (c d : String) (t : Nat) (P : Invocation → Prop)
    (h : P ⟨c, d, t⟩) : AllInv (executeGitCommand c d t) P := by
  unfold executeGitCommand
  exact allInv_tryCatch (allInv_ite _ (allInv_execAsync c d t P h) (allInv_throw _ _))
    (fun e => allInv_throw _ _)

theorem allInv_isGitRepository (d : String) (P : Invocation → Prop)
    (h : P ⟨"git rev-parse --git-dir", d, VALIDATION_TIMEOUT⟩) :
    AllInv (isGitRepository d) P := by
  unfold isGitRepository
  simp only [GitM.bind_def, GitM.pure_def]
  exact allInv_tryCatch
    (allInv_bind (allInv_execAsync _ _ _ P h) (fun _ => allInv_pure _ _))
    (fun _ => allInv_pure _ _)

theorem allInv_elim {α : Type} {m : GitM α} {P : Invocation → Prop} (h : AllInv m P)
    (sys : Sys) : ∀ inv ∈ traceOf m sys, P inv := by
  intro inv hm
  rcases h sys [] inv hm with hin | hp
  · simp at hin
  · exact hp

/-- Push invocations run with the longer 60000ms timeout in `gitPush`. -/
theorem gitPush_push_timeout (sys : Sys) (d : String) :
    ∀ inv ∈ traceOf (gitPush d) sys, inv.command = "git push" → inv.timeout = 60000 := by
  refine allInv_elim ?_ sys
  unfold gitPush
  simp only [GitM.bind_def, GitM.pure_def]
  refine allInv_tryCatch
    (allInv_bind (allInv_isGitRepository _ _ ?_) (fun repo =>
      allInv_ite _ (allInv_pure _ _)
        (allInv_bind
          (allInv_tryCatch
            (allInv_bind (allInv_executeGitCommand _ _ _ _ ?_) (fun _ => allInv_pure _ _))
            (fun _ => allInv_pure _ _))
          (fun remoteOpt =>
            match remoteOpt with
            | none => allInv_pure _ _
            | some remoteInfo =>
              allInv_bind
                (allInv_tryCatch
                  (allInv_bind (allInv_executeGitCommand _ _ _ _ ?_)
                    (fun _ => allInv_pure _ _))
                  (fun _ => allInv_pure _ _))
                (fun aheadEmpty =>
                  allInv_ite _ (allInv_pure _ _)
                    (allInv_bind (allInv_executeGitCommand _ _ _ _ ?_) (fun _ =>
                      allInv_bind (allInv_executeGitCommand _ _ _ _ ?_)
                        (fun _ => allInv_pure _ _))))))))
    (fun e => allInv_pure _ _)
  all_goals intro h
  all_goals try dsimp only at h ⊢
  all_goals first
    | rfl
    | exact absurd h (by decide)

/-- Push invocations run with the longer 60000ms timeout in `gitFlow`. -/
theorem gitFlow_push_timeout (sys : Sys) (msg d : String) :
    ∀ inv ∈ traceOf (gitFlow msg d) sys, inv.command = "git push" → inv.timeout = 60000 := by
  refine allInv_elim ?_ sys
  unfold gitFlow
  simp only [GitM.bind_def, GitM.pure_def]
  refine allInv_tryCatch
    (allInv_bind (allInv_isGitRepository _ _ ?_) (fun repo =>
      allInv_ite _ (allInv_pure _ _)
        (allInv_ite _ (allInv_pure _ _)
          (allInv_bind
            (allInv_tryCatch
              (allInv_bind (allInv_executeGitCommand _ _ _ _ ?_) (fun _ =>
                allInv_bind (allInv_executeGitCommand _ _ _ _ ?_)
                  (fun _ => allInv_pure _ _)))
              (fun _ => allInv_pure _ _))
            (fun remoteBranch =>
              match remoteBranch with
              | none => allInv_pure _ _
              | some (remoteInfo, currentBranch) =>
                allInv_bind (allInv_executeGitCommand _ _ _ _ ?_) (fun _ =>
                  allInv_ite _ (allInv_pure _ _)
                    (allInv_bind (allInv_executeGitCommand _ _ _ _ ?_) (fun _ =>
                      allInv_bind (allInv_executeGitCommand _ _ _ _ ?_) (fun _ =>
                        allInv_bind (allInv_executeGitCommand _ _ _ _ ?_) (fun _ =>
                          allInv_bind (allInv_executeGitCommand _ _ _ _ ?_)
                            (fun _ => allInv_pure _ _)))))))))))
    (fun e =>
      allInv_ite _ (allInv_pure _ _)
        (allInv_ite _ (allInv_pure _ _)
          (allInv_ite _ (allInv_pure _ _) (allInv_pure _ _))))
  all_goals intro h
  all_goals try dsimp only at h ⊢
  all_goals first
    | rfl
    | exact absurd h (by decide)
    | (rw [str_append_assoc] at h
       exact absurd h (append_ne_of_not_pre _ _ _ (by decide)))

/-- Push invocations run with the longer 60000ms timeout in `gitSync`. -/
theorem gitSync_push_timeout (sys : Sys) (d : String) :
    ∀ inv ∈ traceOf (gitSync d) sys, inv.command = "git push" → inv.timeout = 60000 := by
  refine allInv_elim ?_ sys
  unfold gitSync
  simp only [GitM.bind_def, GitM.pure_def]
  refine allInv_tryCatch
    (allInv_bind (allInv_isGitRepository _ _ ?_) (fun repo =>
      allInv_ite _ (allInv_pure _ _)
        (allInv_bind (allInv_executeGitCommand _ _ _ _ ?_) (fun _ =>
          allInv_bind
            (allInv_tryCatch
              (allInv_bind (allInv_executeGitCommand _ _ _ _ ?_)
                (fun _ => allInv_pure _ _))
              (fun pushError => allInv_ite _ (allInv_pure _ _) (allInv_throw _ _)))
            (fun _ => allInv_pure _ _)))))
    (fun e => allInv_pure _ _)
  all_goals intro h
  all_goals try dsimp only at h ⊢
  all_goals first
    | rfl
    | exact absurd h (by decide)

/-- The pull subprocess of `gitPull` runs with the default timeout. -/
theorem gitPull_default_timeout (sys : Sys) (d : String) :
    ∀ inv ∈ traceOf (gitPull d) sys, inv.command = "git pull" →
      inv.timeout = DEFAULT_TIMEOUT := by
  refine allInv_elim ?_ sys
  unfold gitPull
  simp only [GitM.bind_def, GitM.pure_def]
  refine allInv_tryCatch
    (allInv_bind (allInv_isGitRepository _ _ ?_) (fun repo =>
      allInv_ite _ (allInv_throw _ _)
        (allInv_bind (allInv_executeGitCommand _ _ _ _ ?_) (fun _ => allInv_pure _ _))))
    (fun e => allInv_pure _ _)
  all_goals intro h
  all_goals try dsimp only at h ⊢
  all_goals first
    | rfl
    | exact absurd h (by decide)

/-- Every subprocess of `gitClone` runs with the default timeout. -/
theorem gitClone_default_timeout (sys : Sys) (u d : String) (targetDir : Option String) :
    ∀ inv ∈ traceOf (gitClone u d targetDir) sys, inv.timeout = DEFAULT_TIMEOUT := by
  refine allInv_elim ?_ sys
  unfold gitClone
  simp only [GitM.bind_def, GitM.pure_def]
  exact allInv_tryCatch
    (allInv_bind (allInv_executeGitCommand _ _ _ _ rfl) (fun _ => allInv_pure _ _))
    (fun e => allInv_pure _ _)

/-- C7 counterexample: the pull and clone subprocesses run under the
default 30000ms timeout, not a longer one, refuting "every network
operation (push, pull, clone) runs with a longer timeout than the
default". -/
theorem c7_counterexample :
    traceOf (gitPull "d") sysOkEmpty =
      [⟨"git rev-parse --git-dir", "d", 5000⟩, ⟨"git pull", "d", 30000⟩] ∧
    traceOf (gitClone "https://example.com/r.git" "d" none) sysOkEmpty =
      [⟨"git clone \"https://example.com/r.git\"", "d", 30000⟩] ∧
    DEFAULT_TIMEOUT = 30000 ∧ ¬ (30000 : Nat) > 30000 := by
  refine ⟨by decide, by decide, rfl, by decide⟩

/-- C7 (amended): `executeGitCommand` enforces the given timeout on the one
subprocess it may spawn (callers default to `DEFAULT_TIMEOUT` = 30000ms);
the push invocations of `gitPush`, `gitFlow` and `gitSync` use the longer
60000ms timeout, while `gitPull`'s pull and every `gitClone` subprocess use
the default; on failure the wrapper throws the classified message derived
from the subprocess stderr. -/
theorem c7_timeouts_and_classified_errors (sys : Sys) (c d u msg : String) (t : Nat)
    (tr : List Invocation) (targetDir : Option String) :
    DEFAULT_TIMEOUT = 30000 ∧
    (((executeGitCommand c d t) sys tr).2 = tr ∨
      ((executeGitCommand c d t) sys tr).2 = tr ++ [⟨c, d, t⟩]) ∧
    (∀ inv ∈ traceOf (gitPush d) sys, inv.command = "git push" → inv.timeout = 60000) ∧
    (∀ inv ∈ traceOf (gitFlow msg d) sys, inv.command = "git push" → inv.timeout = 60000) ∧
    (∀ inv ∈ traceOf (gitSync d) sys, inv.command = "git push" → inv.timeout = 60000) ∧
    (∀ inv ∈ traceOf (gitPull d) sys, inv.command = "git pull" →
      inv.timeout = DEFAULT_TIMEOUT) ∧
    (∀ inv ∈ traceOf (gitClone u d targetDir) sys, inv.timeout = DEFAULT_TIMEOUT) ∧
    (∀ e : RawErr, strStartsWith c "git " = true → sys.exec c = .err e →
      ((executeGitCommand c d t) sys tr).1 =
        Except.error ⟨classifiedMessage t ⟨e.message, e.stdout, e.stderr, e.timedOut⟩,
          e.stdout, e.stderr, e.timedOut⟩) := by
  refine ⟨rfl, ?_, gitPush_push_timeout sys d, gitFlow_push_timeout sys msg d,
    gitSync_push_timeout sys d, gitPull_default_timeout sys d,
    gitClone_default_timeout sys u d targetDir, ?_⟩
  · unfold executeGitCommand
    by_cases h : strStartsWith c "git " = true
    · refine Or.inr ?_
      simp only [GitM.tryCatch_apply, GitM.throw_apply, execAsync_apply, h, if_true]
      rcases he : sys.exec c with r | e <;> simp
    · refine Or.inl ?_
      simp only [Bool.not_eq_true] at h
      simp [h, GitM.tryCatch_apply, GitM.throw_apply]
  · intro e hpre herr
    unfold executeGitCommand
    simp [hpre, herr, GitM.tryCatch_apply, GitM.throw_apply, execAsync_apply]

/-- Environment with one unpushed commit so that `gitPush` reaches the
push subprocess. -/
def sysAhead : Sys :=
  ⟨fun c => if c = "git log @\x7bu\x7d.." then .ok ⟨"abc123 wip", ""⟩ else .ok ⟨"", ""⟩,
   fun _ => true⟩

/-- Witness for C7: a concrete push invocation carries 60000ms, and a
concrete failing pull is rethrown with the classified not-a-repository
message. -/
theorem c7_witness :
    (⟨"git push", "d", 60000⟩ : Invocation).timeout = 60000 ∧
    ((executeGitCommand "git pull" "d" 30000) sysNonRepo []).1 =
      Except.error ⟨classifiedMessage 30000 ⟨"Command failed: " ++ "git pull", "",
        "fatal: not a git repository (or any of the parent directories): .git", false⟩,
        "", "fatal: not a git repository (or any of the parent directories): .git", false⟩ :=
  ⟨(c7_timeouts_and_classified_errors sysAhead "git pull" "d" "u" "m" 30000 [] none).2.2.1
      ⟨"git push", "d", 60000⟩ (by decide) rfl,
   (c7_timeouts_and_classified_errors sysNonRepo "git pull" "d" "u" "m" 30000 [] none).2.2.2.2.2.2.2
      ⟨"Command failed: " ++ "git pull", "",
        "fatal: not a git repository (or any of the parent directories): .git", false⟩
      (by decide) (by decide)⟩

/-- Environment in which `gitFlow`'s commit step fails with a
nothing-to-commit stderr: a dirty status, a configured remote, and a commit
subprocess that exits with "nothing to commit, working tree clean". -/
def sysFlowNothing : Sys :=
  ⟨fun c =>
    if c = "git commit -m \"update\"" then
      .err ⟨"Command failed: git commit", "", "nothing to commit, working tree clean", false⟩
    else if c = "git status --porcelain" then .ok ⟨" M a.txt", ""⟩
    else if c = "git remote get-url origin" then .ok ⟨"https://example.com/r.git", ""⟩
    else if c = "git branch --show-current" then .ok ⟨"main", ""⟩
    else .ok ⟨"", ""⟩,
   fun _ => true⟩

/-- C3 counterexample: the commit step of this `gitFlow` run fails, the
push step is indeed never executed, but the returned result reports
success (`isError = false`), refuting "the returned result reports
failure". -/
theorem c3_counterexample :
    sysFlowNothing.exec "git commit -m \"update\"" =
      .err ⟨"Command failed: git commit", "", "nothing to commit, working tree clean",
        false⟩ ∧
    "git commit -m \"update\"" ∈ traceCommands (gitFlow "update" "d") sysFlowNothing ∧
    "git push" ∉ traceCommands (gitFlow "update" "d") sysFlowNothing ∧
    resultOf (gitFlow "update" "d") sysFlowNothing =
      some (createResponse "git-flow"
        "✅ Git Flow Complete: No changes to commit. Working directory is clean." false
        "d") := by
  refine ⟨by decide, by decide, by decide, by decide⟩

/-- C3 (amended): whenever the commit step of `gitFlow` fails, the push
step is never executed; the result reports failure unless the failure text
mentions "nothing to commit" (without an authentication/credential/rejected
marker), in which case flow reports a no-changes success. -/
theorem c3_flow_commit_failure_skips_push (sys : Sys) (msg d : String) (e : RawErr)
    (r0 r1 r2 o oa o2 : ExecOk)
    (h0 : sys.exec "git rev-parse --git-dir" = .ok r0)
    (hmsg : strTrim msg ≠ "")
    (hr1 : sys.exec "git remote get-url origin" = .ok r1)
    (hr2 : sys.exec "git branch --show-current" = .ok r2)
    (hst : sys.exec "git status --porcelain" = .ok o) (hdirty : strTrim o.stdout ≠ "")
    (hadd : sys.exec "git add ." = .ok oa)
    (hdiff : sys.exec "git diff --cached --name-status" = .ok o2)
    (hcommit : sys.exec ("git commit -m \"" ++ (escapeMessage msg ++ "\"")) = .err e) :
    "git push" ∉ traceCommands (gitFlow msg d) sys ∧
    ∃ r, resultOf (gitFlow msg d) sys = some r ∧
      r.isError = ((includes (jsOr e.stderr (jsOr (classifiedMessage DEFAULT_TIMEOUT
          ⟨e.message, e.stdout, e.stderr, e.timedOut⟩) "Unknown error during git flow"))
            "authentication" ||
          includes (jsOr e.stderr (jsOr (classifiedMessage DEFAULT_TIMEOUT
            ⟨e.message, e.stdout, e.stderr, e.timedOut⟩) "Unknown error during git flow"))
            "credential") ||
        includes (jsOr e.stderr (jsOr (classifiedMessage DEFAULT_TIMEOUT
          ⟨e.message, e.stdout, e.stderr, e.timedOut⟩) "Unknown error during git flow"))
          "rejected" ||
        !includes (jsOr e.stderr (jsOr (classifiedMessage DEFAULT_TIMEOUT
          ⟨e.message, e.stdout, e.stderr, e.timedOut⟩) "Unknown error during git flow"))
          "nothing to commit") := by
  have hne : ¬(msg = "" ∨ strTrim msg = "") := by
    rintro (h | h)
    · exact hmsg (by rw [h]; rfl)
    · exact hmsg h
  have hsw : strStartsWith ("git commit -m \"" ++ (escapeMessage msg ++ "\"")) "git " =
      true := strStartsWith_append_pre _ _ _ (by decide)
  unfold traceCommands traceOf resultOf gitFlow isGitRepository executeGitCommand
  simp +decide only [GitM.bind_def, GitM.pure_def, GitM.bind_apply, GitM.pure_apply,
    GitM.tryCatch_apply, GitM.throw_apply, execAsync_apply, str_append_assoc, h0, hr1, hr2,
    hst, hadd, hdiff, hcommit, hsw, if_true, if_neg hne, if_neg hdirty,
    Bool.not_true, Bool.false_eq_true, if_false, ite_apply]
  by_cases hA : (includes (jsOr e.stderr (jsOr (classifiedMessage DEFAULT_TIMEOUT
      ⟨e.message, e.stdout, e.stderr, e.timedOut⟩) "Unknown error during git flow"))
        "authentication" ||
      includes (jsOr e.stderr (jsOr (classifiedMessage DEFAULT_TIMEOUT
        ⟨e.message, e.stdout, e.stderr, e.timedOut⟩) "Unknown error during git flow"))
        "credential") = true
  case pos =>
    simp only [hA, if_true, GitM.pure_apply]
    refine ⟨?_, _, rfl, by simp [createResponse, hA]⟩
    simp +decide only [List.map_append, List.map_cons, List.map_nil, List.nil_append,
      List.cons_append, List.mem_append, List.mem_cons, List.not_mem_nil, or_false,
      false_or, List.mem_singleton]
    exact ne_append_of_not_pre _ _ _ (by decide)
  case neg =>
  simp only [if_neg hA]
  by_cases hR : includes (jsOr e.stderr (jsOr (classifiedMessage DEFAULT_TIMEOUT
      ⟨e.message, e.stdout, e.stderr, e.timedOut⟩) "Unknown error during git flow"))
      "rejected" = true
  case pos =>
    simp only [hR, if_true, GitM.pure_apply]
    refine ⟨?_, _, rfl, by simp [createResponse, Bool.eq_false_iff.mpr hA, hR]⟩
    simp +decide only [List.map_append, List.map_cons, List.map_nil, List.nil_append,
      List.cons_append, List.mem_append, List.mem_cons, List.not_mem_nil, or_false,
      false_or, List.mem_singleton]
    exact ne_append_of_not_pre _ _ _ (by decide)
  case neg =>
  simp only [if_neg hR]
  by_cases hN : includes (jsOr e.stderr (jsOr (classifiedMessage DEFAULT_TIMEOUT
      ⟨e.message, e.stdout, e.stderr, e.timedOut⟩) "Unknown error during git flow"))
      "nothing to commit" = true
  case pos =>
    simp only [hN, if_true, GitM.pure_apply]
    refine ⟨?_, _, rfl, by simp [createResponse, Bool.eq_false_iff.mpr hA,
      Bool.eq_false_iff.mpr hR, hN]⟩
    simp +decide only [List.map_append, List.map_cons, List.map_nil, List.nil_append,
      List.cons_append, List.mem_append, List.mem_cons, List.not_mem_nil, or_false,
      false_or, List.mem_singleton]
    exact ne_append_of_not_pre _ _ _ (by decide)
  case neg =>
    simp only [if_neg hN, GitM.pure_apply]
    refine ⟨?_, _, rfl, by simp [createResponse, Bool.eq_false_iff.mpr hA,
      Bool.eq_false_iff.mpr hR, Bool.eq_false_iff.mpr hN]⟩
    simp +decide only [List.map_append, List.map_cons, List.map_nil, List.nil_append,
      List.cons_append, List.mem_append, List.mem_cons, List.not_mem_nil, or_false,
      false_or, List.mem_singleton]
    exact ne_append_of_not_pre _ _ _ (by decide)

/-- Witness for C3 (amended): a commit failure with an unrelated stderr
makes flow fail, and push is not run. -/
theorem c3_witness :
    "git push" ∉ traceCommands (gitFlow "update" "d") sysFlowNothing ∧
    ∃ r, resultOf (gitFlow "update" "d") sysFlowNothing = some r ∧
      r.isError = ((includes (jsOr "nothing to commit, working tree clean"
          (jsOr (classifiedMessage DEFAULT_TIMEOUT
            ⟨"Command failed: git commit", "", "nothing to commit, working tree clean",
              false⟩) "Unknown error during git flow")) "authentication" ||
        includes (jsOr "nothing to commit, working tree clean"
          (jsOr (classifiedMessage DEFAULT_TIMEOUT
            ⟨"Command failed: git commit", "", "nothing to commit, working tree clean",
              false⟩) "Unknown error during git flow")) "credential") ||
        includes (jsOr "nothing to commit, working tree clean"
          (jsOr (classifiedMessage DEFAULT_TIMEOUT
            ⟨"Command failed: git commit", "", "nothing to commit, working tree clean",
              false⟩) "Unknown error during git flow")) "rejected" ||
        !includes (jsOr "nothing to commit, working tree clean"
          (jsOr (classifiedMessage DEFAULT_TIMEOUT
            ⟨"Command failed: git commit", "", "nothing to commit, working tree clean",
              false⟩) "Unknown error during git flow")) "nothing to commit") :=
  c3_flow_commit_failure_skips_push sysFlowNothing "update" "d"
    ⟨"Command failed: git commit", "", "nothing to commit, working tree clean", false⟩
    ⟨"", ""⟩ ⟨"https://example.com/r.git", ""⟩ ⟨"main", ""⟩ ⟨" M a.txt", ""⟩ ⟨"", ""⟩
    ⟨"", ""⟩ rfl (by decide) rfl rfl rfl (by decide) rfl rfl (by decide)

/-! ### C8: are the composite workflows literal compositions of the base
handlers? -/

/-- Spec-modelled composite (NOT translated from the source): the spec's
words say the combined add+commit+push workflow "is literally three
sequential calls to the add/commit/push handlers with an accumulated
progress log" and "if step N fails, the whole operation fails and reports
which step failed".  This definition follows those words, to be compared
with the source's `gitFlow`. -/
def gitFlowSpec (message workingDir : String) : GitM GitOperationResult :=
  GitM.bind (gitAddAll workingDir) (fun r1 =>
    if r1.isError then
      GitM.pure (createResponse "git-flow" ("Step 1/3 (add) failed: " ++ r1.text) true
        workingDir)
    else
      GitM.bind (gitCommit message workingDir) (fun r2 =>
        if r2.isError then
          GitM.pure (createResponse "git-flow" ("Step 2/3 (commit) failed: " ++ r2.text) true
            workingDir)
        else
          GitM.bind (gitPush workingDir) (fun r3 =>
            if r3.isError then
              GitM.pure (createResponse "git-flow" ("Step 3/3 (push) failed: " ++ r3.text)
                true workingDir)
            else
              GitM.pure (createResponse "git-flow"
                (r1.text ++ ("\n" ++ (r2.text ++ ("\n" ++ r3.text)))) false workingDir))))

/-- Spec-modelled composite (NOT translated from the source): the spec's
words say "sync": pull → push is "pure sequential composition of the base
handlers with no new logic".  This definition follows those words, to be
compared with the source's `gitSync`. -/
def gitSyncSpec (workingDir : String) : GitM GitOperationResult :=
  GitM.bind (gitPull workingDir) (fun r1 =>
    if r1.isError then
      GitM.pure (createResponse "git-sync" ("Step 1/2 (pull) failed: " ++ r1.text) true
        workingDir)
    else
      GitM.bind (gitPush workingDir) (fun r2 =>
        if r2.isError then
          GitM.pure (createResponse "git-sync" ("Step 2/2 (push) failed: " ++ r2.text) true
            workingDir)
        else
          GitM.pure (createResponse "git-sync" (r1.text ++ ("\n" ++ r2.text)) false
            workingDir)))

/-- An environment with no remote configured: `git remote get-url origin`
fails, every other command succeeds with empty output. -/
def sysNoRemote : Sys :=
  ⟨fun c =>
    if c = "git remote get-url origin" then
      .err ⟨"Command failed: git remote get-url origin", "",
        "error: No such remote \x27origin\x27", false⟩
    else .ok ⟨"", ""⟩,
   fun _ => true⟩

/-- C8 counterexample: the composites are not the composition of the base
handlers.  On a clean tree `gitFlow` reports success while the literal
gitAddAll→gitCommit→gitPush composition fails at the commit step (the
commit handler rejects an empty staging area); with no remote configured
`gitSync` reports success while the literal gitPull→gitPush composition
fails at the push step (the push handler requires a remote). -/
theorem c8_counterexample :
    Option.map GitOperationResult.isError
        (resultOf (gitFlow "update" "d") sysOkEmpty) = some false ∧
    Option.map GitOperationResult.isError
        (resultOf (gitFlowSpec "update" "d") sysOkEmpty) = some true ∧
    Option.map GitOperationResult.isError
        (resultOf (gitSync "d") sysNoRemote) = some false ∧
    Option.map GitOperationResult.isError
        (resultOf (gitSyncSpec "d") sysNoRemote) = some true := by
  refine ⟨by decide, by decide, by decide, by decide⟩

/-- C8 (amended): `gitFlow` and `gitSync` are inline sequential command
scripts, not calls to the base handlers; they do run their steps in order
and short-circuit on an early step failure: a `gitSync` pull failure makes
the whole sync fail with the push never run, and a `gitFlow`
remote-lookup failure makes the whole flow fail with add, commit and push
never run. -/
theorem c8_composites_short_circuit (sys : Sys) (msg d : String) (e ef : RawErr)
    (r0 : ExecOk)
    (h0 : sys.exec "git rev-parse --git-dir" = .ok r0)
    (hpull : sys.exec "git pull" = .err e)
    (hmsg : strTrim msg ≠ "")
    (hremote : sys.exec "git remote get-url origin" = .err ef) :
    ("git push" ∉ traceCommands (gitSync d) sys ∧
      ∃ r, resultOf (gitSync d) sys = some r ∧ r.isError = true) ∧
    ("git add ." ∉ traceCommands (gitFlow msg d) sys ∧
      "git push" ∉ traceCommands (gitFlow msg d) sys ∧
      ∃ r, resultOf (gitFlow msg d) sys = some r ∧ r.isError = true) := by
  have hne : ¬(msg = "" ∨ strTrim msg = "") := by
    rintro (h | h)
    · exact hmsg (by rw [h]; rfl)
    · exact hmsg h
  constructor
  · unfold traceCommands traceOf resultOf gitSync isGitRepository executeGitCommand
    simp +decide only [GitM.bind_def, GitM.pure_def, GitM.bind_apply, GitM.pure_apply,
      GitM.tryCatch_apply, GitM.throw_apply, execAsync_apply, str_append_assoc, h0, hpull,
      if_true, Bool.not_true, Bool.false_eq_true, if_false, ite_apply]
    refine ⟨?_, _, rfl, rfl⟩
    simp +decide only [List.map_append, List.map_cons, List.map_nil, List.nil_append,
      List.cons_append, List.mem_append, List.mem_cons, List.not_mem_nil, or_false,
      false_or, List.mem_singleton]
  · unfold traceCommands traceOf resultOf gitFlow isGitRepository executeGitCommand
    simp +decide only [GitM.bind_def, GitM.pure_def, GitM.bind_apply, GitM.pure_apply,
      GitM.tryCatch_apply, GitM.throw_apply, execAsync_apply, str_append_assoc, h0, hremote,
      if_true, if_neg hne, Bool.not_true, Bool.false_eq_true, if_false, ite_apply]
    refine ⟨?_, ?_, _, rfl, rfl⟩ <;>
      simp +decide only [List.map_append, List.map_cons, List.map_nil, List.nil_append,
        List.cons_append, List.mem_append, List.mem_cons, List.not_mem_nil, or_false,
        false_or, List.mem_singleton]

/-- An environment where both `git pull` and `git remote get-url origin`
fail and everything else succeeds with empty output. -/
def sysNoRemotePull : Sys :=
  ⟨fun c =>
    if c = "git pull" then
      .err ⟨"Command failed: git pull", "", "fatal: no remote configured", false⟩
    else if c = "git remote get-url origin" then
      .err ⟨"Command failed: git remote get-url origin", "",
        "error: No such remote \x27origin\x27", false⟩
    else .ok ⟨"", ""⟩,
   fun _ => true⟩

/-- Witness for C8 (amended): in `sysNoRemotePull`, sync fails without
pushing and flow fails without adding, committing or pushing. -/
theorem c8_witness :
    ("git push" ∉ traceCommands (gitSync "d") sysNoRemotePull ∧
      ∃ r, resultOf (gitSync "d") sysNoRemotePull = some r ∧ r.isError = true) ∧
    ("git add ." ∉ traceCommands (gitFlow "update" "d") sysNoRemotePull ∧
      "git push" ∉ traceCommands (gitFlow "update" "d") sysNoRemotePull ∧
      ∃ r, resultOf (gitFlow "update" "d") sysNoRemotePull = some r ∧ r.isError = true) :=
  c8_composites_short_circuit sysNoRemotePull "update" "d"
    ⟨"Command failed: git pull", "", "fatal: no remote configured", false⟩
    ⟨"Command failed: git remote get-url origin", "",
      "error: No such remote \x27origin\x27", false⟩
    ⟨"", ""⟩ rfl rfl (by decide) rfl


/-! ### C2: behavior of every operation on a non-repository directory -/

/-- The three spellings of the not-a-repository indicator the handlers
produce: the lowercase git stderr phrase, the early-return text, and the
remote handlers' "not a Git repository" message. -/
def notARepoIndicator (text : String) : Bool :=
  includes text "not a git repository" || includes text "Not a git repository" ||
    includes text "not a Git repository"

/-- An environment modelling a directory that is not a git repository:
every git command other than clone and init fails, with the usual
"not a git repository" stderr, without timing out. -/
def RepoFreeSys (sys : Sys) : Prop :=
  ∀ c, strStartsWith c "git clone" = false → strStartsWith c "git init" = false →
    ∃ e, sys.exec c = .err e ∧ includes e.stderr "not a git repository" = true ∧
      e.timedOut = false ∧ e.stderr ≠ ""

/-- The handler returns (it does not throw) a result flagged as an error
whose text carries a not-a-repository indicator. -/
def failsWithNotARepo (m : GitM GitOperationResult) (sys : Sys) : Prop :=
  ∃ r, resultOf m sys = some r ∧ r.isError = true ∧ notARepoIndicator r.text = true

/-- The per-operation outcomes on a non-repository directory `d`: 26
operations fail with a not-a-repository indicator; `gitMerge` and
`gitCherryPick` fail but blame the branch/commit instead. -/
def NonRepoOutcomes (sys : Sys) (d : String) : Prop :=
  failsWithNotARepo (gitAddAll d) sys ∧
  failsWithNotARepo (gitAdd ["a.txt"] d) sys ∧
  failsWithNotARepo (gitRemove "a.txt" d) sys ∧
  failsWithNotARepo (gitRemoveAll d) sys ∧
  failsWithNotARepo (gitStatus d) sys ∧
  failsWithNotARepo (gitCommit "update" d) sys ∧
  failsWithNotARepo (gitPush d) sys ∧
  failsWithNotARepo (gitPull d) sys ∧
  failsWithNotARepo (gitBranch (some "feature") d) sys ∧
  failsWithNotARepo (gitCheckout "feature" false d) sys ∧
  failsWithNotARepo (gitLog 10 d) sys ∧
  failsWithNotARepo (gitDiff none d) sys ∧
  failsWithNotARepo (gitStash none d) sys ∧
  failsWithNotARepo (gitStashPop d) sys ∧
  failsWithNotARepo (gitReset "hard" "HEAD" d) sys ∧
  failsWithNotARepo (gitRemoteList d) sys ∧
  failsWithNotARepo (gitRemoteAdd "origin" "https://example.com/r.git" d) sys ∧
  failsWithNotARepo (gitRemoteRemove "origin" d) sys ∧
  failsWithNotARepo (gitRemoteSetUrl "origin" "https://example.com/r.git" d) sys ∧
  failsWithNotARepo (gitFlow "update" d) sys ∧
  failsWithNotARepo (gitQuickCommit "update" d) sys ∧
  failsWithNotARepo (gitSync d) sys ∧
  failsWithNotARepo (gitTag d none none none) sys ∧
  failsWithNotARepo (gitRebase d none false) sys ∧
  failsWithNotARepo (gitBlame d (some "a.txt") none) sys ∧
  failsWithNotARepo (gitBisect d (some "start") none) sys ∧
  resultOf (gitMerge d (some "feature") none) sys =
    some (createResponse "git-merge" "\u274c Error: Branch \x27feature\x27 does not exist." true d) ∧
  resultOf (gitCherryPick d (some "abc123")) sys =
    some (createResponse "git-cherry-pick" "\u274c Error: Commit \x27abc123\x27 does not exist." true d)

/-- C2 counterexample: on a non-repository directory (`git rev-parse
--git-dir` fails with the standard fatal stderr), the exposed operations
`gitInit` and `gitClone` succeed (`isError = false`), refuting "for every
exposed operation … returns a result with the error flag set". -/
theorem c2_counterexample :
    sysNonRepo.exec "git rev-parse --git-dir" =
      .err ⟨"Command failed: git rev-parse --git-dir", "",
        "fatal: not a git repository (or any of the parent directories): .git", false⟩ ∧
    resultOf (gitInit "d") sysNonRepo =
      some (createResponse "git-init"
        "🎉 Successfully initialized empty Git repository.\nRepository initialized."
        false "d") ∧
    resultOf (gitClone "https://example.com/repo.git" "d" none) sysNonRepo =
      some (createResponse "git-clone"
        "✅ Successfully cloned repository from https://example.com/repo.git.\nClone completed."
        false "d") := by
  refine ⟨by decide, by decide, by decide⟩

set_option maxHeartbeats 1600000 in
set_option maxRecDepth 8000 in
/-- C2 (amended): on any non-repository environment no operation lets an
exception escape; all operations except `gitInit` and `gitClone` return an
error-flagged result.  26 of them carry a not-a-repository indicator in
the text, while `gitMerge` and `gitCherryPick` report that the requested
branch/commit does not exist instead (their existence probe fails on a
non-repository).  `gitInit` and `gitClone` succeed (see the
counterexample). -/
theorem c2_nonrepo_failure_behavior (sys : Sys) (d : String) (hfree : RepoFreeSys sys)
    (hfx : sys.fileExists (pathResolve d "a.txt") = true) :
    NonRepoOutcomes sys d := by
  obtain ⟨e0, he0, hi0, ht0, hs0⟩ := hfree "git rev-parse --git-dir" (by decide) (by decide)
  obtain ⟨e1, he1, hi1, ht1, hs1⟩ := hfree "git tag --sort=-version:refname" (by decide)
    (by decide)
  obtain ⟨e2, he2, hi2, ht2, hs2⟩ := hfree "git status --porcelain" (by decide) (by decide)
  obtain ⟨e4, he4, hi4, ht4, hs4⟩ := hfree ("git rev-parse --verify \"" ++ ("feature" ++ "\""))
    (by decide) (by decide)
  obtain ⟨e5, he5, hi5, ht5, hs5⟩ := hfree ("git blame \"" ++ ("a.txt" ++ ("\"" ++ "")))
    (by decide) (by decide)
  obtain ⟨e6, he6, hi6, ht6, hs6⟩ := hfree "git bisect start" (by decide) (by decide)
  obtain ⟨e7, he7, hi7, ht7, hs7⟩ := hfree ("git rev-parse --verify \"" ++ ("abc123" ++ "\""))
    (by decide) (by decide)
  unfold NonRepoOutcomes
  refine ⟨?_, ?_, ?_, ?_, ?_, ?_, ?_, ?_, ?_, ?_, ?_, ?_, ?_, ?_, ?_, ?_, ?_, ?_, ?_, ?_, ?_, ?_, ?_, ?_, ?_, ?_, ?_, ?_⟩
  · simp only [failsWithNotARepo]
    unfold resultOf gitAddAll isGitRepository executeGitCommand
    simp +decide only [GitM.bind_def, GitM.pure_def, GitM.bind_apply, GitM.pure_apply,
      GitM.tryCatch_apply, GitM.throw_apply, execAsync_apply, str_append_assoc,
      if_true, if_false, ite_apply, Bool.not_true, Bool.not_false, Bool.false_eq_true, he0]
    exact ⟨_, rfl, rfl, by dsimp only [createResponse]; decide⟩
  · simp only [failsWithNotARepo]
    unfold resultOf gitAdd isGitRepository executeGitCommand
    simp +decide only [GitM.bind_def, GitM.pure_def, GitM.bind_apply, GitM.pure_apply,
      GitM.tryCatch_apply, GitM.throw_apply, execAsync_apply, str_append_assoc,
      if_true, if_false, ite_apply, Bool.not_true, Bool.not_false, Bool.false_eq_true, he0]
    exact ⟨_, rfl, rfl, by dsimp only [createResponse]; decide⟩
  · simp only [failsWithNotARepo]
    unfold resultOf gitRemove isGitRepository executeGitCommand
    simp +decide only [GitM.bind_def, GitM.pure_def, GitM.bind_apply, GitM.pure_apply,
      GitM.tryCatch_apply, GitM.throw_apply, execAsync_apply, str_append_assoc,
      if_true, if_false, ite_apply, Bool.not_true, Bool.not_false, Bool.false_eq_true, he0]
    exact ⟨_, rfl, rfl, by dsimp only [createResponse]; decide⟩
  · simp only [failsWithNotARepo]
    unfold resultOf gitRemoveAll isGitRepository executeGitCommand
    simp +decide only [GitM.bind_def, GitM.pure_def, GitM.bind_apply, GitM.pure_apply,
      GitM.tryCatch_apply, GitM.throw_apply, execAsync_apply, str_append_assoc,
      if_true, if_false, ite_apply, Bool.not_true, Bool.not_false, Bool.false_eq_true, he0]
    exact ⟨_, rfl, rfl, by dsimp only [createResponse]; decide⟩
  · simp only [failsWithNotARepo]
    unfold resultOf gitStatus isGitRepository executeGitCommand
    simp +decide only [GitM.bind_def, GitM.pure_def, GitM.bind_apply, GitM.pure_apply,
      GitM.tryCatch_apply, GitM.throw_apply, execAsync_apply, str_append_assoc,
      if_true, if_false, ite_apply, Bool.not_true, Bool.not_false, Bool.false_eq_true, he0]
    exact ⟨_, rfl, rfl, by dsimp only [createResponse]; decide⟩
  · simp only [failsWithNotARepo]
    unfold resultOf gitCommit isGitRepository executeGitCommand
    simp +decide only [GitM.bind_def, GitM.pure_def, GitM.bind_apply, GitM.pure_apply,
      GitM.tryCatch_apply, GitM.throw_apply, execAsync_apply, str_append_assoc,
      if_true, if_false, ite_apply, Bool.not_true, Bool.not_false, Bool.false_eq_true, he0]
    exact ⟨_, rfl, rfl, by dsimp only [createResponse]; decide⟩
  · simp only [failsWithNotARepo]
    unfold resultOf gitPush isGitRepository executeGitCommand
    simp +decide only [GitM.bind_def, GitM.pure_def, GitM.bind_apply, GitM.pure_apply,
      GitM.tryCatch_apply, GitM.throw_apply, execAsync_apply, str_append_assoc,
      if_true, if_false, ite_apply, Bool.not_true, Bool.not_false, Bool.false_eq_true, he0]
    exact ⟨_, rfl, rfl, by dsimp only [createResponse]; decide⟩
  · simp only [failsWithNotARepo]
    unfold resultOf gitPull isGitRepository executeGitCommand
    simp +decide only [GitM.bind_def, GitM.pure_def, GitM.bind_apply, GitM.pure_apply,
      GitM.tryCatch_apply, GitM.throw_apply, execAsync_apply, str_append_assoc,
      if_true, if_false, ite_apply, Bool.not_true, Bool.not_false, Bool.false_eq_true, he0]
    exact ⟨_, rfl, rfl, by dsimp only [createResponse]; decide⟩
  · simp only [failsWithNotARepo]
    unfold resultOf gitBranch isGitRepository executeGitCommand
    simp +decide only [GitM.bind_def, GitM.pure_def, GitM.bind_apply, GitM.pure_apply,
      GitM.tryCatch_apply, GitM.throw_apply, execAsync_apply, str_append_assoc,
      if_true, if_false, ite_apply, Bool.not_true, Bool.not_false, Bool.false_eq_true, he0]
    exact ⟨_, rfl, rfl, by dsimp only [createResponse]; decide⟩
  · simp only [failsWithNotARepo]
    unfold resultOf gitCheckout isGitRepository executeGitCommand
    simp +decide only [GitM.bind_def, GitM.pure_def, GitM.bind_apply, GitM.pure_apply,
      GitM.tryCatch_apply, GitM.throw_apply, execAsync_apply, str_append_assoc,
      if_true, if_false, ite_apply, Bool.not_true, Bool.not_false, Bool.false_eq_true, he0]
    exact ⟨_, rfl, rfl, by dsimp only [createResponse]; decide⟩
  · simp only [failsWithNotARepo]
    unfold resultOf gitLog isGitRepository executeGitCommand
    simp +decide only [GitM.bind_def, GitM.pure_def, GitM.bind_apply, GitM.pure_apply,
      GitM.tryCatch_apply, GitM.throw_apply, execAsync_apply, str_append_assoc,
      if_true, if_false, ite_apply, Bool.not_true, Bool.not_false, Bool.false_eq_true, he0]
    exact ⟨_, rfl, rfl, by dsimp only [createResponse]; decide⟩
  · simp only [failsWithNotARepo]
    unfold resultOf gitDiff isGitRepository executeGitCommand
    simp +decide only [GitM.bind_def, GitM.pure_def, GitM.bind_apply, GitM.pure_apply,
      GitM.tryCatch_apply, GitM.throw_apply, execAsync_apply, str_append_assoc,
      if_true, if_false, ite_apply, Bool.not_true, Bool.not_false, Bool.false_eq_true, he0]
    exact ⟨_, rfl, rfl, by dsimp only [createResponse]; decide⟩
  · simp only [failsWithNotARepo]
    unfold resultOf gitStash isGitRepository executeGitCommand
    simp +decide only [GitM.bind_def, GitM.pure_def, GitM.bind_apply, GitM.pure_apply,
      GitM.tryCatch_apply, GitM.throw_apply, execAsync_apply, str_append_assoc,
      if_true, if_false, ite_apply, Bool.not_true, Bool.not_false, Bool.false_eq_true, he0]
    exact ⟨_, rfl, rfl, by dsimp only [createResponse]; decide⟩
  · simp only [failsWithNotARepo]
    unfold resultOf gitStashPop isGitRepository executeGitCommand
    simp +decide only [GitM.bind_def, GitM.pure_def, GitM.bind_apply, GitM.pure_apply,
      GitM.tryCatch_apply, GitM.throw_apply, execAsync_apply, str_append_assoc,
      if_true, if_false, ite_apply, Bool.not_true, Bool.not_false, Bool.false_eq_true, he0]
    exact ⟨_, rfl, rfl, by dsimp only [createResponse]; decide⟩
  · simp only [failsWithNotARepo]
    unfold resultOf gitReset isGitRepository executeGitCommand
    simp +decide only [GitM.bind_def, GitM.pure_def, GitM.bind_apply, GitM.pure_apply,
      GitM.tryCatch_apply, GitM.throw_apply, execAsync_apply, str_append_assoc,
      if_true, if_false, ite_apply, Bool.not_true, Bool.not_false, Bool.false_eq_true, he0]
    exact ⟨_, rfl, rfl, by dsimp only [createResponse]; decide⟩
  · simp only [failsWithNotARepo]
    unfold resultOf gitRemoteList isGitRepository executeGitCommand
    simp +decide only [GitM.bind_def, GitM.pure_def, GitM.bind_apply, GitM.pure_apply,
      GitM.tryCatch_apply, GitM.throw_apply, execAsync_apply, str_append_assoc,
      if_true, if_false, ite_apply, Bool.not_true, Bool.not_false, Bool.false_eq_true, he0]
    exact ⟨_, rfl, rfl, by dsimp only [createResponse]; decide⟩
  · simp only [failsWithNotARepo]
    unfold resultOf gitRemoteAdd isGitRepository executeGitCommand
    simp +decide only [GitM.bind_def, GitM.pure_def, GitM.bind_apply, GitM.pure_apply,
      GitM.tryCatch_apply, GitM.throw_apply, execAsync_apply, str_append_assoc,
      if_true, if_false, ite_apply, Bool.not_true, Bool.not_false, Bool.false_eq_true, he0]
    exact ⟨_, rfl, rfl, by dsimp only [createResponse]; decide⟩
  · simp only [failsWithNotARepo]
    unfold resultOf gitRemoteRemove isGitRepository executeGitCommand
    simp +decide only [GitM.bind_def, GitM.pure_def, GitM.bind_apply, GitM.pure_apply,
      GitM.tryCatch_apply, GitM.throw_apply, execAsync_apply, str_append_assoc,
      if_true, if_false, ite_apply, Bool.not_true, Bool.not_false, Bool.false_eq_true, he0]
    exact ⟨_, rfl, rfl, by dsimp only [createResponse]; decide⟩
  · simp only [failsWithNotARepo]
    unfold resultOf gitRemoteSetUrl isGitRepository executeGitCommand
    simp +decide only [GitM.bind_def, GitM.pure_def, GitM.bind_apply, GitM.pure_apply,
      GitM.tryCatch_apply, GitM.throw_apply, execAsync_apply, str_append_assoc,
      if_true, if_false, ite_apply, Bool.not_true, Bool.not_false, Bool.false_eq_true, he0]
    exact ⟨_, rfl, rfl, by dsimp only [createResponse]; decide⟩
  · simp only [failsWithNotARepo]
    unfold resultOf gitFlow isGitRepository executeGitCommand
    simp +decide only [GitM.bind_def, GitM.pure_def, GitM.bind_apply, GitM.pure_apply,
      GitM.tryCatch_apply, GitM.throw_apply, execAsync_apply, str_append_assoc,
      if_true, if_false, ite_apply, Bool.not_true, Bool.not_false, Bool.false_eq_true, he0]
    exact ⟨_, rfl, rfl, by dsimp only [createResponse]; decide⟩
  · simp only [failsWithNotARepo]
    unfold resultOf gitQuickCommit isGitRepository executeGitCommand
    simp +decide only [GitM.bind_def, GitM.pure_def, GitM.bind_apply, GitM.pure_apply,
      GitM.tryCatch_apply, GitM.throw_apply, execAsync_apply, str_append_assoc,
      if_true, if_false, ite_apply, Bool.not_true, Bool.not_false, Bool.false_eq_true, he0]
    exact ⟨_, rfl, rfl, by dsimp only [createResponse]; decide⟩
  · simp only [failsWithNotARepo]
    unfold resultOf gitSync isGitRepository executeGitCommand
    simp +decide only [GitM.bind_def, GitM.pure_def, GitM.bind_apply, GitM.pure_apply,
      GitM.tryCatch_apply, GitM.throw_apply, execAsync_apply, str_append_assoc,
      if_true, if_false, ite_apply, Bool.not_true, Bool.not_false, Bool.false_eq_true, he0]
    exact ⟨_, rfl, rfl, by dsimp only [createResponse]; decide⟩
  · simp only [failsWithNotARepo]
    unfold resultOf gitTag isGitRepository isGitRepositoryPromiseTruthy executeGitCommand
    simp +decide only [GitM.bind_def, GitM.pure_def, GitM.bind_apply, GitM.pure_apply,
      GitM.tryCatch_apply, GitM.throw_apply, execAsync_apply, str_append_assoc,
      if_true, if_false, ite_apply, Bool.not_true, Bool.not_false, Bool.false_eq_true, he0, he1, jsOr, getStr, optTruthy, fileExistsM, hfx,
      if_neg hs1]
    exact ⟨_, rfl, rfl, by
      simp [createResponse, notARepoIndicator, includes_append_right _ _ _ hi1]⟩
  · simp only [failsWithNotARepo]
    unfold resultOf gitRebase isGitRepository isGitRepositoryPromiseTruthy executeGitCommand
    simp +decide only [GitM.bind_def, GitM.pure_def, GitM.bind_apply, GitM.pure_apply,
      GitM.tryCatch_apply, GitM.throw_apply, execAsync_apply, str_append_assoc,
      if_true, if_false, ite_apply, Bool.not_true, Bool.not_false, Bool.false_eq_true, he0, he2, jsOr, getStr, optTruthy, fileExistsM, hfx,
      if_neg hs2]
    exact ⟨_, rfl, rfl, by
      simp [createResponse, notARepoIndicator, includes_append_right _ _ _ hi2]⟩
  · simp only [failsWithNotARepo]
    unfold resultOf gitBlame isGitRepository isGitRepositoryPromiseTruthy executeGitCommand
    simp +decide only [GitM.bind_def, GitM.pure_def, GitM.bind_apply, GitM.pure_apply,
      GitM.tryCatch_apply, GitM.throw_apply, execAsync_apply, str_append_assoc,
      if_true, if_false, ite_apply, Bool.not_true, Bool.not_false, Bool.false_eq_true, he0, he5, jsOr, getStr, optTruthy, fileExistsM, hfx,
      if_neg hs5]
    exact ⟨_, rfl, rfl, by
      simp [createResponse, notARepoIndicator, includes_append_right _ _ _ hi5]⟩
  · simp only [failsWithNotARepo]
    unfold resultOf gitBisect isGitRepository isGitRepositoryPromiseTruthy executeGitCommand
    simp +decide only [GitM.bind_def, GitM.pure_def, GitM.bind_apply, GitM.pure_apply,
      GitM.tryCatch_apply, GitM.throw_apply, execAsync_apply, str_append_assoc,
      if_true, if_false, ite_apply, Bool.not_true, Bool.not_false, Bool.false_eq_true, he0, he6, jsOr, getStr, optTruthy, fileExistsM, hfx,
      if_neg hs6]
    exact ⟨_, rfl, rfl, by
      simp [createResponse, notARepoIndicator, includes_append_right _ _ _ hi6]⟩
  · unfold resultOf gitMerge isGitRepository isGitRepositoryPromiseTruthy executeGitCommand
    simp +decide only [GitM.bind_def, GitM.pure_def, GitM.bind_apply, GitM.pure_apply,
      GitM.tryCatch_apply, GitM.throw_apply, execAsync_apply, str_append_assoc,
      if_true, if_false, ite_apply, Bool.not_true, Bool.not_false, Bool.false_eq_true, he0, he4, jsOr, getStr, optTruthy]
    rfl
  · unfold resultOf gitCherryPick isGitRepository isGitRepositoryPromiseTruthy executeGitCommand
    simp +decide only [GitM.bind_def, GitM.pure_def, GitM.bind_apply, GitM.pure_apply,
      GitM.tryCatch_apply, GitM.throw_apply, execAsync_apply, str_append_assoc,
      if_true, if_false, ite_apply, Bool.not_true, Bool.not_false, Bool.false_eq_true, he0, he7, jsOr, getStr, optTruthy]
    rfl

/-- Witness for C2 (amended): the concrete non-repository environment
satisfies `RepoFreeSys`, and all the per-operation outcomes hold on it. -/
theorem c2_witness : NonRepoOutcomes sysNonRepo "d" :=
  c2_nonrepo_failure_behavior sysNonRepo "d"
    (fun c h1 h2 =>
      ⟨⟨"Command failed: " ++ c, "",
        "fatal: not a git repository (or any of the parent directories): .git", false⟩,
        by simp [sysNonRepo, h1, h2], by dsimp only; try decide, by dsimp only; try decide,
        by dsimp only; try decide⟩)
    rfl


end GithubMcp

